import Mathlib

/-!
# Booking dispatcher (`automation/jt_booking.js`)

A shallow embedding of the J&T booking script.  The script is sequential
asynchronous JavaScript over three pieces of mutable state (`ordersToProcess`,
`results`, and the outside world).  It is embedded as state passing:

* `State` holds the two module variables, the console output and a trace of
  the externally visible actions (store requests, browser and page actions);
* `Js α` is a computation that ends normally, ends with a thrown error, or ends
  the process (`process.exit`), always together with the state reached;
* everything the script cannot decide itself (what the store answers, whether a
  Playwright call rejects, what the confirmation page shows) is read from a
  `World`, so that every theorem quantifies over all such behaviours.
-/

namespace JtBooking

/-! ## JavaScript string primitives used by the script -/

/-- `s.includes(sub)`. -/
def includes (s sub : String) : Bool :=
  s.data.tails.any (fun t => sub.data.isPrefixOf t)

/-- `s.startsWith(key)`. -/
def startsWith (s key : String) : Bool :=
  key.data.isPrefixOf s.data

/-- White space and line terminators, the characters `String.prototype.trim` strips. -/
def isTrimChar (c : Char) : Bool :=
  let n := c.toNat
  n == 9 || n == 10 || n == 11 || n == 12 || n == 13 || n == 32 || n == 160 ||
  n == 5760 || (8192 ≤ n && n ≤ 8202) || n == 8232 || n == 8233 || n == 8239 ||
  n == 8287 || n == 12288 || n == 65279

/-- `s.trim()`. -/
def trim (s : String) : String :=
  String.mk ((s.data.dropWhile isTrimChar).reverse.dropWhile isTrimChar).reverse

/-- Pieces of a character list cut at every `sep`. -/
def splitChars (sep : Char) : List Char → List (List Char)
  | [] => [[]]
  | c :: cs =>
    if c = sep then [] :: splitChars sep cs
    else
      match splitChars sep cs with
      | [] => [[c]]
      | piece :: pieces => (c :: piece) :: pieces

/-- `s.split(sep)` for a one-character separator. -/
def split (s : String) (sep : Char) : List String :=
  (splitChars sep s.data).map String.mk

/-- The class `\w` of the regular expression: `[A-Za-z0-9_]`. -/
def isWordChar (c : Char) : Bool :=
  let n := c.toNat
  (48 ≤ n && n ≤ 57) || (65 ≤ n && n ≤ 90) || n == 95 || (97 ≤ n && n ≤ 122)

/-- One pattern letter under the `i` flag: `c` is the lower-case letter `p` or its capital. -/
def matchesLetter (p c : Char) : Bool :=
  c.toNat == p.toNat || c.toNat + 32 == p.toNat

/-- The literal part `tracking` of the pattern, case-insensitive; gives the rest of the input. -/
def matchLiteral : List Char → List Char → Option (List Char)
  | [], rest => some rest
  | _ :: _, [] => none
  | p :: ps, c :: cs => if matchesLetter p c then matchLiteral ps cs else none

/-- An attempt to match `/tracking[=\/](\w+)/i` starting exactly at the head of the input:
the captured group when it matches. -/
def matchTrackingHere (input : List Char) : Option (List Char) :=
  match matchLiteral "tracking".data input with
  | none => none
  | some [] => none
  | some (d :: rest) =>
    if d = '=' || d = '/' then
      match rest.takeWhile isWordChar with
      | [] => none
      | w :: ws => some (w :: ws)
    else none

/-- Leftmost match of `/tracking[=\/](\w+)/i` in the input: the captured group. -/
def matchTrackingChars : List Char → Option (List Char)
  | [] => none
  | c :: cs =>
    match matchTrackingHere (c :: cs) with
    | some g => some g
    | none => matchTrackingChars cs

/-- `url.match(/tracking[=\/](\w+)/i)`, reduced to what the script reads from it:
`none` for `null`, `some g` for a match whose group 1 is `g`. -/
def trackingMatch (url : String) : Option String :=
  (matchTrackingChars url.data).map String.mk

/-- `v || d` for a string that may be undefined: the default for `undefined` and for `''`. -/
def orDefault (v : Option String) (d : String) : String :=
  match v with
  | none => d
  | some x => if x = "" then d else x

/-! ## Configuration -/

/-- The environment variables the script reads (`process.env`). -/
structure Env where
  APPS_SCRIPT_URL : Option String
  JNTT_USERNAME : Option String
  JNTT_PASSWORD : Option String
  JNTT_BASE_URL : Option String
  SHOP_NAME : Option String
  SHOP_CONTACT : Option String
  SHOP_ADDRESS : Option String
  SHOP_PROVINCE : Option String
  SHOP_CITY : Option String
  SHOP_BARANGAY : Option String

/-- `CONFIG.shopInfo`. -/
structure ShopInfo where
  name : String
  contact : String
  address : String
  province : String
  city : String
  barangay : String
  deriving DecidableEq, Repr

/-- The shape of `CONFIG`. -/
structure Config where
  appsScriptUrl : String
  jnttUsername : String
  jnttPassword : String
  jnttBaseUrl : String
  shopInfo : ShopInfo
  deriving DecidableEq, Repr

/-- `const CONFIG = { ... }`. -/
def CONFIG (env : Env) : Config where
  appsScriptUrl := orDefault env.APPS_SCRIPT_URL ""
  jnttUsername := orDefault env.JNTT_USERNAME ""
  jnttPassword := orDefault env.JNTT_PASSWORD ""
  jnttBaseUrl := orDefault env.JNTT_BASE_URL "https://www.jtexpress.ph"
  shopInfo :=
    { name := orDefault env.SHOP_NAME "Your Shop"
      contact := orDefault env.SHOP_CONTACT "+639123456789"
      address := orDefault env.SHOP_ADDRESS "Your Shop Address"
      province := orDefault env.SHOP_PROVINCE "Metro Manila"
      city := orDefault env.SHOP_CITY "Manila"
      barangay := orDefault env.SHOP_BARANGAY "Your Barangay" }

/-! ## Data model -/

/-- An order record as the store returns it; the fields the script and the admin console read. -/
structure Order where
  OrderID : String
  CustomerName : String
  ProductName : String
  Quantity : String
  Contact : String
  AddressDetails : String
  Province : String
  City : String
  District : String
  Barangay : String
  PackageSize : Option String
  ItemCategory : Option String
  ShippingStatus : String
  deriving DecidableEq, Repr

/-- An element of `results.success`. -/
structure SuccessEntry where
  orderId : String
  trackingNumber : String
  deriving DecidableEq, Repr

/-- An element of `results.failed`. -/
structure FailedEntry where
  orderId : String
  error : String
  deriving DecidableEq, Repr

/-- The module variable `results`. -/
structure Results where
  success : List SuccessEntry
  failed : List FailedEntry
  total : Nat
  deriving DecidableEq, Repr

/-- The body of the `updateOrderStatus` post; `status` is the object literal, key by key. -/
structure UpdateRequest where
  action : String
  orderId : String
  status : List (String × String)
  token : String
  deriving DecidableEq, Repr

/-- The body of the `jtCallback` post. -/
structure CallbackRequest where
  action : String
  results : Results
  timestamp : String
  deriving DecidableEq, Repr

/-- Externally visible actions, in the order the script performs them.  `processOrder` marks
the entry into `processOrder` (with the order's ID, `none` for an undefined record); every
other event is a call to the outside: axios, the browser, the page. -/
inductive Event where
  | get (url : String) (params : List (String × String))
  | launch
  | processOrder (orderId : Option String)
  | newPage
  | login (url : String)
  | openForm (url : String)
  | fillForm
  | fillField (label value : String)
  | submit
  | screenshot
  | updateOrderStatus (url : String) (req : UpdateRequest)
  | pageClose
  | browserClose
  | jtCallback (url : String) (req : CallbackRequest)
  deriving DecidableEq, Repr

/-- The mutable state of a run. -/
structure State where
  ordersToProcess : List (Option Order)
  results : Results
  trace : List Event
  console : List String
  deriving DecidableEq, Repr

/-- The state when the module has been loaded: `ordersToProcess = []`, empty `results`. -/
def State.initial : State where
  ordersToProcess := []
  results := { success := [], failed := [], total := 0 }
  trace := []
  console := []

/-! ## Computations -/

/-- How a piece of the script ends: normally with a value, with a thrown error (its
`message`), or by `process.exit(code)`, which ends the process on the spot. -/
inductive Completion (α : Type) where
  | normal (a : α)
  | throw (message : String)
  | exit (code : Nat)
  deriving DecidableEq, Repr

/-- A computation of the script: from a state to a completion and the state reached. -/
def Js (α : Type) : Type := State → Completion α × State

namespace Js

/-- `return a`. -/
protected def pure {α : Type} (a : α) : Js α := fun s => (.normal a, s)

/-- Sequencing: what follows runs only after a normal completion. -/
protected def bind {α β : Type} (x : Js α) (f : α → Js β) : Js β := fun s =>
  match x s with
  | (.normal a, s1) => f a s1
  | (.throw m, s1) => (.throw m, s1)
  | (.exit c, s1) => (.exit c, s1)

instance : Monad Js where
  pure := Js.pure
  bind := Js.bind

/-- `throw new Error(message)`. -/
def throw {α : Type} (message : String) : Js α := fun s => (.throw message, s)

/-- `process.exit(code)`. -/
def exit {α : Type} (code : Nat) : Js α := fun s => (.exit code, s)

/-- `try { body } catch (error) { handler(error.message) }`. -/
def tryCatch {α : Type} (body : Js α) (handler : String → Js α) : Js α := fun s =>
  match body s with
  | (.throw m, s1) => handler m s1
  | r => r

/-- `try { body } finally { fin }`: `fin` runs after a normal or a throwing `body`; when
`fin` itself does not complete normally its completion replaces the one of `body`. -/
def tryFinally {α : Type} (body : Js α) (fin : Js Unit) : Js α := fun s =>
  match body s with
  | (.exit c, s1) => (.exit c, s1)
  | (r, s1) =>
    match fin s1 with
    | (.normal _, s2) => (r, s2)
    | (.throw m, s2) => (.throw m, s2)
    | (.exit c, s2) => (.exit c, s2)

/-- `await` of a call to the outside whose outcome the world fixes. -/
def await {α : Type} (outcome : Except String α) : Js α :=
  match outcome with
  | .ok a => Js.pure a
  | .error m => Js.throw m

/-- Appends an event to the trace. -/
def emit (e : Event) : Js Unit := fun s => (.normal (), { s with trace := s.trace ++ [e] })

/-- `console.log(line)` and `console.error(line)`. -/
def log (line : String) : Js Unit := fun s => (.normal (), { s with console := s.console ++ [line] })

/-- Reads the state. -/
def get : Js State := fun s => (.normal s, s)

/-- Rewrites the state. -/
def modify (f : State → State) : Js Unit := fun s => (.normal (), f s)

end Js

/-! ## The outside world -/

/-- What happens when `fillField` looks for one field of the booking form. -/
inductive FieldOutcome where
  | bySelector
  | byLabel
  | notFound
  | error (message : String)
  deriving DecidableEq, Repr

/-- What `page.$('.tracking-number, #trackingNumber, .order-number')` gives after the submit:
the call rejects, there is no such element (`null`), or there is one, whose `textContent()`
rejects, is `null`, or is a string. -/
inductive TrackingElement where
  | rejected (message : String)
  | absent
  | present (textContent : Except String (Option String))

/-- Everything the outside does while one order is processed: for each group of awaited
Playwright or axios calls whether it returns or rejects (and with which message), and what
the page shows. -/
structure OrderOutcomes where
  newPage : Except String Unit
  loginCalls : Except String Unit
  urlAfterLogin : String
  openFormCalls : Except String Unit
  field : String → FieldOutcome
  submitCalls : Except String Unit
  trackingElement : TrackingElement
  urlAfterSubmit : String
  screenshot : Except String Unit
  updatePost : Except String Unit
  pageClose : Except String Unit

/-- The outside of one run.  `getOrder` and `getOrders` are what the `try` block of the two
fetch functions obtains: an error (the request rejects, or `response.data` cannot be read) or
the value of `response.data.data`, `none` standing for `undefined` and `null`.  `outcomes i`
is what happens while the order at position `i` of `ordersToProcess` is processed. -/
structure World where
  getOrder : String → Except String (Option Order)
  getOrders : Except String (Option (List (Option Order)))
  launch : Except String Unit
  outcomes : Nat → OrderOutcomes
  browserClose : Except String Unit
  callbackPost : Except String Unit
  now : String

/-! ## The script -/

/-- What `getArgValue` can return: `null`, `undefined` or a string. -/
inductive ArgValue where
  | null
  | undefined
  | str (value : String)
  deriving DecidableEq, Repr

/-- Truthiness of an `ArgValue`: only a non-empty string is truthy. -/
def ArgValue.truthy : ArgValue → Bool
  | .str value => value != ""
  | _ => false

/-- The text of an `ArgValue` where the script uses it as a string. -/
def ArgValue.text : ArgValue → String
  | .str value => value
  | .null => "null"
  | .undefined => "undefined"

/-- `function getArgValue(args, key)`. -/
def getArgValue (args : List String) (key : String) : ArgValue :=
  match args.find? (fun a => startsWith a key) with
  | none => .null
  | some arg =>
    if arg = "" then .null
    else
      match (split arg '=')[1]? with
      | none => .undefined
      | some value => .str value

/-- `async function fetchOrder(orderId)`. -/
def fetchOrder (cfg : Config) (w : World) (orderId : String) : Js Unit :=
  Js.tryCatch
    (do
      Js.emit (.get cfg.appsScriptUrl [("action", "getOrder"), ("orderId", orderId)])
      let data ← Js.await (w.getOrder orderId)
      Js.modify (fun s => { s with ordersToProcess := [data] }))
    (fun message => do
      Js.log ("Failed to fetch order: " ++ message)
      Js.throw message)

/-- `async function fetchBulkOrders()`. -/
def fetchBulkOrders (cfg : Config) (w : World) : Js Unit :=
  Js.tryCatch
    (do
      Js.emit (.get cfg.appsScriptUrl [("action", "getOrders"), ("shippingStatus", "Ready to Ship")])
      let data ← Js.await w.getOrders
      Js.modify (fun s => { s with ordersToProcess := data.getD [] }))
    (fun message => do
      Js.log ("Failed to fetch orders: " ++ message)
      Js.throw message)

/-- `async function loginToJT(page)`.  The awaited calls up to the click and the wait are
`loginCalls`; then the URL check. -/
def loginToJT (cfg : Config) (o : OrderOutcomes) : Js Unit := do
  Js.emit (.login (cfg.jnttBaseUrl ++ "/login"))
  Js.await o.loginCalls
  let currentUrl := o.urlAfterLogin
  if includes currentUrl "login" then
    Js.throw "Login failed - check credentials"

/-- `async function openBookingForm(page)`. -/
def openBookingForm (cfg : Config) (o : OrderOutcomes) : Js Unit := do
  Js.emit (.openForm (cfg.jnttBaseUrl ++ "/booking/create"))
  Js.await o.openFormCalls

/-- `async function fillField(page, label, value)`: every error is caught and logged. -/
def fillField (o : OrderOutcomes) (label value : String) : Js Unit :=
  Js.tryCatch
    (match o.field label with
      | .bySelector => Js.emit (.fillField label value)
      | .byLabel => Js.emit (.fillField label value)
      | .notFound => Js.log ("   ⚠️  Could not find field: " ++ label)
      | .error message => Js.throw message)
    (fun message => Js.log ("   ⚠️  Error filling field " ++ label ++ ": " ++ message))

/-- `async function fillBookingForm(page, order)`. -/
def fillBookingForm (cfg : Config) (o : OrderOutcomes) (order : Order) : Js Unit :=
  Js.tryCatch
    (do
      Js.emit .fillForm
      fillField o "Sender Name" cfg.shopInfo.name
      fillField o "Sender Contact" cfg.shopInfo.contact
      fillField o "Sender Address" cfg.shopInfo.address
      fillField o "Sender Province" cfg.shopInfo.province
      fillField o "Sender City" cfg.shopInfo.city
      fillField o "Sender Barangay" cfg.shopInfo.barangay
      fillField o "Receiver Name" order.CustomerName
      fillField o "Receiver Contact" order.Contact
      fillField o "Receiver Address" order.AddressDetails
      fillField o "Receiver Province" order.Province
      fillField o "Receiver City" order.City
      fillField o "Receiver District" order.District
      fillField o "Receiver Barangay" order.Barangay
      fillField o "Package Size" (orDefault order.PackageSize "Small")
      fillField o "Item Category" (orDefault order.ItemCategory "Electronics")
      fillField o "Weight" "1"
      fillField o "Quantity" order.Quantity
      fillField o "Payment Type" "Prepaid")
    (fun message => Js.log ("   ⚠️  Field filling error: " ++ message))

/-- `async function submitBooking(page)`: the tracking number it returns. -/
def submitBooking (o : OrderOutcomes) : Js String := do
  Js.emit .submit
  Js.await o.submitCalls
  match o.trackingElement with
  | .rejected message => Js.throw message
  | .present (.error message) => Js.throw message
  | .present (.ok none) => Js.throw "Cannot read properties of null (reading \x27trim\x27)"
  | .present (.ok (some text)) => pure (trim text)
  | .absent =>
    match trackingMatch o.urlAfterSubmit with
    | some group => pure group
    | none => do
      Js.emit .screenshot
      Js.await o.screenshot
      pure "TRACKING-PENDING"

/-- `async function updateOrderInBackend(orderId, trackingNumber)`: a failed post is logged,
not rethrown. -/
def updateOrderInBackend (cfg : Config) (o : OrderOutcomes) (orderId trackingNumber : String) :
    Js Unit :=
  Js.tryCatch
    (do
      Js.emit (.updateOrderStatus cfg.appsScriptUrl
        { action := "updateOrderStatus"
          orderId := orderId
          status := [("ShippingStatus", "Shipped"), ("JNTTracking", trackingNumber)]
          token := cfg.appsScriptUrl })
      Js.await o.updatePost)
    (fun message => Js.log ("Failed to update backend: " ++ message))

/-- The `try` block of `processOrder`. -/
def processOrderBody (cfg : Config) (o : OrderOutcomes) (order : Order) : Js Unit := do
  Js.log "   🔐 Logging in..."
  loginToJT cfg o
  Js.log "   📝 Opening booking form..."
  openBookingForm cfg o
  Js.log "   ✍️  Filling form..."
  fillBookingForm cfg o order
  Js.log "   📤 Submitting booking..."
  let trackingNumber ← submitBooking o
  Js.log "   💾 Updating order..."
  updateOrderInBackend cfg o order.OrderID trackingNumber
  Js.modify (fun s => { s with results := { s.results with
    success := s.results.success ++ [{ orderId := order.OrderID, trackingNumber := trackingNumber }] } })
  Js.log ("   ✅ Success! Tracking: " ++ trackingNumber)

/-- The `catch` block of `processOrder`. -/
def processOrderCatch (order : Order) (message : String) : Js Unit := do
  Js.log ("   ❌ Failed: " ++ message)
  Js.modify (fun s => { s with results := { s.results with
    failed := s.results.failed ++ [{ orderId := order.OrderID, error := message }] } })

/-- `async function processOrder(browser, order)`.  An undefined record makes the first
statement (`order.OrderID`) throw a `TypeError`, before any page is opened. -/
def processOrder (cfg : Config) (o : OrderOutcomes) (order : Option Order) : Js Unit := do
  Js.emit (.processOrder (order.map (fun r => r.OrderID)))
  match order with
  | none => Js.throw "Cannot read properties of undefined (reading \x27OrderID\x27)"
  | some order =>
    Js.log ("\n📦 Processing: " ++ order.OrderID)
    Js.log ("   Customer: " ++ order.CustomerName)
    Js.log ("   Product: " ++ order.ProductName ++ " x" ++ order.Quantity)
    Js.emit .newPage
    Js.await o.newPage
    Js.tryFinally
      (Js.tryCatch (processOrderBody cfg o order) (processOrderCatch order))
      (do
        Js.emit .pageClose
        Js.await o.pageClose)

/-- The loop `for (const order of ordersToProcess) await processOrder(browser, order)`,
from position `i` on. -/
def processOrders (cfg : Config) (w : World) : Nat → List (Option Order) → Js Unit
  | _, [], s => (.normal (), s)
  | i, order :: rest, s =>
    match processOrder cfg (w.outcomes i) order s with
    | (.normal _, s1) => processOrders cfg w (i + 1) rest s1
    | (.throw m, s1) => (.throw m, s1)
    | (.exit c, s1) => (.exit c, s1)

/-- `function printSummary()`. -/
def printSummary : Js Unit := do
  let s ← Js.get
  Js.log "\n================================"
  Js.log "📊 Summary"
  Js.log "================================"
  Js.log ("Total Orders: " ++ toString s.results.total)
  Js.log ("✅ Success: " ++ toString s.results.success.length)
  Js.log ("❌ Failed: " ++ toString s.results.failed.length)
  if s.results.success.length > 0 then
    Js.log "\nSuccessful Bookings:"
    Js.modify (fun t => { t with console :=
      t.console ++ s.results.success.map (fun r => "  " ++ r.orderId ++ ": " ++ r.trackingNumber) })
  if s.results.failed.length > 0 then
    Js.log "\nFailed Bookings:"
    Js.modify (fun t => { t with console :=
      t.console ++ s.results.failed.map (fun r => "  " ++ r.orderId ++ ": " ++ r.error) })

/-- `async function sendResultsToBackend()`. -/
def sendResultsToBackend (cfg : Config) (w : World) : Js Unit := do
  Js.modify (fun s => { s with results := { s.results with total := s.ordersToProcess.length } })
  Js.tryCatch
    (do
      let s ← Js.get
      Js.emit (.jtCallback cfg.appsScriptUrl
        { action := "jtCallback", results := s.results, timestamp := w.now })
      Js.await w.callbackPost)
    (fun message => Js.log ("Failed to send results to backend: " ++ message))

/-- First part of the `try` block of `main`: the choice of the selector and the fetch. -/
def mainFetch (cfg : Config) (w : World) (orderId : ArgValue) (bulk : Bool) : Js Unit := do
  if orderId.truthy then
    Js.log ("📦 Processing single order: " ++ orderId.text)
    fetchOrder cfg w orderId.text
  else if bulk then
    Js.log "📦 Processing bulk orders"
    fetchBulkOrders cfg w
  else
    Js.log "Usage: node jt_booking.js --orderId=ORD-123 OR --bulk"
    Js.exit 1

/-- Second part of the `try` block of `main`: from the test for an empty list to the end. -/
def mainDispatch (cfg : Config) (w : World) : Js Unit := do
  let s ← Js.get
  if s.ordersToProcess.length = 0 then
    Js.log "No orders to process."
  else
    Js.log ("Found " ++ toString s.ordersToProcess.length ++ " order(s) to process.\n")
    Js.emit .launch
    Js.await w.launch
    processOrders cfg w 0 s.ordersToProcess
    Js.emit .browserClose
    Js.await w.browserClose
    printSummary
    sendResultsToBackend cfg w

/-- The `try` block of `main`, after the arguments have been read. -/
def mainBody (cfg : Config) (w : World) (orderId : ArgValue) (bulk : Bool) : Js Unit := do
  mainFetch cfg w orderId bulk
  mainDispatch cfg w

/-- `async function main()`; `argv` is `process.argv`. -/
def main (cfg : Config) (w : World) (argv : List String) : Js Unit := do
  let args := argv.drop 2
  let orderId := getArgValue args "--orderId"
  let bulk := args.contains "--bulk"
  Js.log "🚀 J&T Express Booking Automation"
  Js.log "================================\n"
  Js.tryCatch (mainBody cfg w orderId bulk)
    (fun message => do
      Js.log ("❌ Error: " ++ message)
      Js.exit 1)

/-- A run of the script: `main()` from the freshly loaded module. -/
def run (cfg : Config) (w : World) (argv : List String) : Completion Unit × State :=
  main cfg w argv State.initial

/-! ## Runs are local: a computation appends to the state it starts from -/

/-- The state `s` after a computation that, started from the initial state, ends in `d`:
the lists of `d` are appended to those of `s`. -/
def State.extend (s d : State) : State where
  ordersToProcess := s.ordersToProcess
  results :=
    { success := s.results.success ++ d.results.success
      failed := s.results.failed ++ d.results.failed
      total := s.results.total }
  trace := s.trace ++ d.trace
  console := s.console ++ d.console

/-- A computation is local when it neither reads the state nor changes it except by
appending to `results.success`, `results.failed`, the trace and the console. -/
def Js.Local {α : Type} (x : Js α) : Prop :=
  ∀ s, x s = ((x State.initial).1, s.extend (x State.initial).2)

/-- A computation is quiet when it always ends normally and only appends to the trace (events
satisfying `P`) and to the console. -/
def Js.Quiet (P : Event → Prop) (x : Js Unit) : Prop :=
  ∃ tr con, (∀ e ∈ tr, P e) ∧
    ∀ s, x s = (.normal (), { s with trace := s.trace ++ tr, console := s.console ++ con })

/-- Whether an event is an `updateOrderStatus` post. -/
def Event.isUpdate : Event → Bool
  | .updateOrderStatus _ _ => true
  | _ => false

/-- Whether an event is a `jtCallback` post. -/
def Event.isCallback : Event → Bool
  | .jtCallback _ _ => true
  | _ => false

/-- Whether an event is one of the four portal steps of `processOrder`. -/
def Event.isStep : Event → Bool
  | .login _ => true
  | .openForm _ => true
  | .fillForm => true
  | .submit => true
  | _ => false

/-- Whether an event is the filling of the booking form or of one of its fields. -/
def Event.isFill : Event → Bool
  | .fillForm => true
  | .fillField _ _ => true
  | _ => false

/-- The state `s` with the given entries, events and console lines appended. -/
def State.add (s : State) (succ : List SuccessEntry) (fl : List FailedEntry) (tr : List Event)
    (con : List String) : State where
  ordersToProcess := s.ordersToProcess
  results :=
    { success := s.results.success ++ succ
      failed := s.results.failed ++ fl
      total := s.results.total }
  trace := s.trace ++ tr
  console := s.console ++ con

/-- The request that `updateOrderInBackend` posts for an order and a tracking number. -/
def updateRequest (cfg : Config) (orderId trackingNumber : String) : UpdateRequest :=
  { action := "updateOrderStatus"
    orderId := orderId
    status := [("ShippingStatus", "Shipped"), ("JNTTracking", trackingNumber)]
    token := cfg.appsScriptUrl }

/-- What the calls of `processOrder` for the orders of a batch, from position `i` on, append
to one of the lists of the state (`f` reads that list) when every call is run on its own, from
the initial state and with the outcomes of its own position. -/
def perOrder {β : Type} (cfg : Config) (w : World) (f : State → List β) :
    Nat → List (Option Order) → List β
  | _, [] => []
  | i, order :: rest =>
    f (processOrder cfg (w.outcomes i) order State.initial).2 ++ perOrder cfg w f (i + 1) rest

/-- The first of the portal steps login, opening of the booking form, submit that throws
does so with message `m`; the form filling between them cannot throw. -/
def stepThrows (cfg : Config) (o : OrderOutcomes) (m : String) : Prop :=
  (loginToJT cfg o State.initial).1 = .throw m ∨
  ((loginToJT cfg o State.initial).1 = .normal () ∧
    (openBookingForm cfg o State.initial).1 = .throw m) ∨
  ((loginToJT cfg o State.initial).1 = .normal () ∧
    (openBookingForm cfg o State.initial).1 = .normal () ∧
    (submitBooking o State.initial).1 = .throw m)

/-! ## The admin console: `AdminDashboard.handleLogin` -/

/-- The part of the admin console that `handleLogin` reads and writes: the React state
`authenticated` and `password`, the `adminToken` item of `localStorage`, the alerts shown and
the number of calls of `loadOrders`. -/
structure AdminState where
  authenticated : Bool
  password : String
  storedToken : Option String
  alerts : List String
  loadOrdersCalls : Nat
  deriving DecidableEq, Repr

/-- `const handleLogin = () => { ... }` of `AdminDashboard.jsx`; `adminToken` is
`config.adminToken`. -/
def handleLogin (adminToken : String) (st : AdminState) : AdminState :=
  if st.password = adminToken then
    { st with
      storedToken := some st.password
      authenticated := true
      loadOrdersCalls := st.loadOrdersCalls + 1 }
  else
    { st with alerts := st.alerts ++ ["Invalid access token"] }

/-! ## The store client: `services/api.js` -/

/-- The error object that a `catch` block of `api.js` hands to `handleError`, as far as
`handleError` reads it: `response` is `some d` when `error.response` is set, `d` being
`error.response.data?.error`; `request` tells whether `error.request` is set. -/
structure ApiFailure where
  response : Option (Option String)
  request : Bool
  message : String
  deriving DecidableEq, Repr

/-- A thrown error object: its `name` (`Error` for `new Error(...)`) and its `message`. -/
structure JsError where
  name : String
  message : String
  deriving DecidableEq, Repr

/-- `const handleError = (error) => { ... }`: `.error e` when it throws `e`, `.ok ()` for a
normal return. -/
def handleError (error : ApiFailure) : Except JsError Unit :=
  match error.response with
  | some dataError => .error ⟨"Error", orDefault dataError "API request failed"⟩
  | none =>
    if error.request then .error ⟨"Error", "Network error - please check your connection"⟩
    else .error ⟨"Error", error.message⟩

/-- How a call of an operation of `api.js` ends for its caller. -/
inductive ApiResult (α : Type) where
  | returned (value : α)
  | returnedUndefined
  | threw (error : JsError)
  deriving DecidableEq, Repr

/-- The `catch` block of every operation of `api.js`: `handleError(error)`, and `undefined`
is returned when that call returns. -/
def afterCatch {α : Type} (error : ApiFailure) : ApiResult α :=
  match handleError error with
  | .error thrown => .threw thrown
  | .ok _ => .returnedUndefined

/-- The body of a reply of the store, as far as the storefront reads it. -/
structure Reply where
  success : Option Bool
  orderId : Option String
  error : Option String
  message : Option String
  deriving DecidableEq, Repr

/-- `export const getProducts`; `outcome` is what the `try` block obtains: an error, or the
value of `response.data?.data` (`none` when it is falsy). -/
def getProducts {P : Type} (outcome : Except ApiFailure (Option (List P))) : ApiResult (List P) :=
  match outcome with
  | .ok data => .returned (data.getD [])
  | .error error => afterCatch error

/-- `export const getProduct`: `response.data?.data || null`. -/
def getProduct {P : Type} (outcome : Except ApiFailure (Option P)) : ApiResult (Option P) :=
  match outcome with
  | .ok data => .returned data
  | .error error => afterCatch error

/-- `export const getOrders`. -/
def getOrders {O : Type} (outcome : Except ApiFailure (Option (List O))) : ApiResult (List O) :=
  match outcome with
  | .ok data => .returned (data.getD [])
  | .error error => afterCatch error

/-- `export const createOrder`; `outcome` is what the `try` block obtains: an error (the
`fetch` or `response.json()` rejects), or the parsed body (`none` for `null`). -/
def createOrder (outcome : Except ApiFailure (Option Reply)) : ApiResult (Option Reply) :=
  match outcome with
  | .ok data => .returned data
  | .error error => afterCatch error

/-- `export const updateOrderStatus`. -/
def updateOrderStatus (outcome : Except ApiFailure (Option Reply)) : ApiResult (Option Reply) :=
  match outcome with
  | .ok data => .returned data
  | .error error => afterCatch error

/-- `export const triggerJtBooking`. -/
def triggerJtBooking (outcome : Except ApiFailure (Option Reply)) : ApiResult (Option Reply) :=
  match outcome with
  | .ok data => .returned data
  | .error error => afterCatch error

/-! ## The admin console: orders, selection, log, export -/

/-- An order record as the admin console reads it; `none` is a missing field, and for the
two numbers `0` also stands for a missing value (`||` treats both alike). -/
structure AdminOrder where
  OrderID : Option String
  TrackingNumber : Option String
  CustomerName : Option String
  ProductName : Option String
  Quantity : Nat
  Price : Nat
  PaymentStatus : Option String
  ShippingStatus : Option String
  Date : Option String
  deriving DecidableEq, Repr

/-- An entry of `actionLogs`. -/
structure LogEntry where
  timestamp : String
  message : String
  deriving DecidableEq, Repr

/-- `const addLog = (message) => { ... }` as a function of `actionLogs`: the value passed to
`setActionLogs`; `now` is `new Date().toISOString()`. -/
def addLog (now message : String) (actionLogs : List LogEntry) : List LogEntry :=
  (({ timestamp := now, message := message } : LogEntry) :: actionLogs).take 20

/-- The React state of the dashboard that the handlers below read and write, with the
requests sent, the alerts shown and the number of calls of `loadOrders`. -/
structure Dashboard where
  orders : List AdminOrder
  selectedOrders : Finset (Option String)
  actionLogs : List LogEntry
  sent : List UpdateRequest
  alerts : List String
  loadOrdersCalls : Nat

/-- `const handleMarkPaid = async (orderId) => { ... }`; `outcome` is what the `try` block of
`updateOrderStatus` obtains. -/
def handleMarkPaid (adminToken now orderId : String) (outcome : Except ApiFailure (Option Reply))
    (st : Dashboard) : Dashboard :=
  let request : UpdateRequest :=
    { action := "updateOrderStatus", orderId := orderId, status := [("PaymentStatus", "Paid")],
      token := adminToken }
  match updateOrderStatus outcome with
  | .threw _ =>
    { st with sent := st.sent ++ [request], alerts := st.alerts ++ ["Failed to update order"] }
  | _ =>
    { st with
      sent := st.sent ++ [request]
      actionLogs := addLog now ("Marked order " ++ orderId ++ " as paid") st.actionLogs
      loadOrdersCalls := st.loadOrdersCalls + 1 }

/-- `const handleMarkShipped = async (orderId) => { ... }`. -/
def handleMarkShipped (adminToken now orderId : String)
    (outcome : Except ApiFailure (Option Reply)) (st : Dashboard) : Dashboard :=
  let request : UpdateRequest :=
    { action := "updateOrderStatus", orderId := orderId,
      status := [("ShippingStatus", "Shipped")], token := adminToken }
  match updateOrderStatus outcome with
  | .threw _ =>
    { st with sent := st.sent ++ [request], alerts := st.alerts ++ ["Failed to update order"] }
  | _ =>
    { st with
      sent := st.sent ++ [request]
      actionLogs := addLog now ("Marked order " ++ orderId ++ " as shipped") st.actionLogs
      loadOrdersCalls := st.loadOrdersCalls + 1 }

/-- `const handleSelectOrder = (orderId) => { ... }`: the new selection. -/
def handleSelectOrder (orderId : Option String) (selectedOrders : Finset (Option String)) :
    Finset (Option String) :=
  if orderId ∈ selectedOrders then selectedOrders.erase orderId
  else insert orderId selectedOrders

/-- `const handleSelectAll = () => { ... }`: the new selection. -/
def handleSelectAll (orders : List AdminOrder) (selectedOrders : Finset (Option String)) :
    Finset (Option String) :=
  if selectedOrders.card = orders.length then ∅
  else (orders.map (fun o => o.OrderID)).toFinset

/-- `array.join(sep)`. -/
def joinWith (sep : String) : List String → String
  | [] => ""
  | [x] => x
  | x :: y :: rest => x ++ sep ++ joinWith sep (y :: rest)

/-- The header line of the export. -/
def csvHeader : String :=
  joinWith "," ["Order ID", "Tracking Number", "Customer", "Product", "Quantity", "Amount",
    "Payment Status", "Shipping Status", "Date"]

/-- One data line of the export: the nine values of an order, joined by commas.  The amount is
the sixth value; the stray closing parenthesis in the template of the source is left out. -/
def csvRow (order : AdminOrder) : String :=
  joinWith ","
    [orDefault order.OrderID "",
      orDefault order.TrackingNumber "",
      orDefault order.CustomerName "",
      orDefault order.ProductName "",
      (if order.Quantity = 0 then "" else toString order.Quantity),
      "₱" ++ toString (order.Price * (if order.Quantity = 0 then 1 else order.Quantity)),
      orDefault order.PaymentStatus "",
      orDefault order.ShippingStatus "",
      orDefault order.Date ""]

/-- The orders that `handleDownloadCSV` exports. -/
def ordersToExport (orders : List AdminOrder) (selectedOrders : Finset (Option String)) :
    List AdminOrder :=
  let selectedOrdersData := orders.filter (fun o => decide (o.OrderID ∈ selectedOrders))
  if selectedOrdersData.length > 0 then selectedOrdersData else orders

/-- `const handleDownloadCSV = () => { ... }`: the text `csv` that is put into the blob. -/
def handleDownloadCSV (orders : List AdminOrder) (selectedOrders : Finset (Option String)) :
    String :=
  joinWith "\n" (csvHeader :: (ordersToExport orders selectedOrders).map csvRow)

/-- The state `filters`. -/
structure Filters where
  paymentStatus : String
  shippingStatus : String
  search : String
  deriving DecidableEq, Repr

/-- `field?.toLowerCase().includes(search.toLowerCase())`, `false` for a missing field;
`toLowerCase` is the platform function. -/
def fieldIncludes (toLowerCase : String → String) (field : Option String) (search : String) :
    Bool :=
  match field with
  | none => false
  | some text => includes (toLowerCase text) (toLowerCase search)

/-- `const filteredOrders = orders.filter(order => { ... })`. -/
def filteredOrders (toLowerCase : String → String) (filters : Filters)
    (orders : List AdminOrder) : List AdminOrder :=
  orders.filter (fun order =>
    let matchesSearch := (filters.search == "") ||
      fieldIncludes toLowerCase order.CustomerName filters.search ||
      fieldIncludes toLowerCase order.OrderID filters.search ||
      fieldIncludes toLowerCase order.TrackingNumber filters.search
    let matchesPayment := filters.paymentStatus == "all" ||
      order.PaymentStatus == some filters.paymentStatus
    let matchesShipping := filters.shippingStatus == "all" ||
      order.ShippingStatus == some filters.shippingStatus
    matchesSearch && matchesPayment && matchesShipping)

/-- Whether an optional value is present and has a decidable property can be computed. -/
instance decidableExistsSome {α : Type} (o : Option α) (p : α → Prop) [DecidablePred p] :
    Decidable (∃ a, o = some a ∧ p a) :=
  match o with
  | none => isFalse (by simp)
  | some a =>
    if h : p a then isTrue ⟨a, rfl, h⟩
    else isFalse (by rintro ⟨b, hb, hp⟩; cases hb; exact h hp)

/-- The filter of the admin console in the words of its description: the search text is empty
or a case-insensitive substring of the customer name, the order ID or the tracking number; the
payment status is `all` or that of the order; the shipping status is `all` or that of the
order. -/
@[reducible] def MatchesFilters (toLowerCase : String → String) (filters : Filters)
    (order : AdminOrder) : Prop :=
  (filters.search = "" ∨
    (∃ name, order.CustomerName = some name ∧
      includes (toLowerCase name) (toLowerCase filters.search) = true) ∨
    (∃ id, order.OrderID = some id ∧
      includes (toLowerCase id) (toLowerCase filters.search) = true) ∨
    (∃ tracking, order.TrackingNumber = some tracking ∧
      includes (toLowerCase tracking) (toLowerCase filters.search) = true)) ∧
  (filters.paymentStatus = "all" ∨ order.PaymentStatus = some filters.paymentStatus) ∧
  (filters.shippingStatus = "all" ∨ order.ShippingStatus = some filters.shippingStatus)

/-! ## The order form: `pages/OrderForm.jsx` -/

/-- A product as the order form reads it. -/
structure Product where
  Price : Int
  Stock : Int
  Size : String
  Category : String
  deriving DecidableEq, Repr

/-- The controls of the quantity: the minus button, the plus button, and typing a number
into the input (`Number(e.target.value)`, here for whole numbers). -/
inductive QuantityAction where
  | minus
  | plus
  | typed (value : Int)
  deriving DecidableEq, Repr

/-- The new `quantity` after one action: the `onClick` and `onChange` handlers. -/
def quantityAfter (product : Product) (quantity : Int) : QuantityAction → Int
  | .minus => max 1 (quantity - 1)
  | .plus => min product.Stock (quantity + 1)
  | .typed value => value

/-- The `quantity` after a sequence of actions, from the initial `useState(1)`. -/
def quantityAfterAll (product : Product) (actions : List QuantityAction) : Int :=
  actions.foldl (quantityAfter product) 1

/-- The form state that `handleSubmit` reads. -/
structure OrderFormState where
  productId : String
  quantity : Int
  customerName : String
  email : String
  contact : String
  province : String
  city : String
  barangay : String
  addressDetails : String
  paymentMethod : String
  deriving DecidableEq, Repr

/-- The object `orderData` of `handleSubmit`. -/
structure OrderData where
  productId : String
  quantity : Int
  customerName : String
  email : String
  contact : String
  province : String
  city : String
  barangay : String
  addressDetails : String
  packageSize : String
  itemCategory : String
  paymentMethod : String
  deriving DecidableEq, Repr

/-- What `handleSubmit` does to the outside. -/
inductive FormEffect where
  | createOrder (orderData : OrderData)
  | redirect (url : String)
  | navigate (path : String)
  | alert (message : String)
  deriving DecidableEq, Repr

/-- The text of an order ID inside a template string: `undefined` when it is missing. -/
def orderIdText (orderId : Option String) : String :=
  orderId.getD "undefined"

/-- `export const initMayaCheckout`: the URL assigned to `window.location.href`. -/
def initMayaCheckout (mayaPublicKey : String) (amount : Int) (orderId : Option String) :
    FormEffect :=
  .redirect ("https://payment-app-sandbox.mayadigital.io/v1/checkout?public_key=" ++
    mayaPublicKey ++ "&amount=" ++ toString amount ++ "&order_id=" ++ orderIdText orderId)

/-- `const handleSubmit = async (e) => { ... }`: its effects in order; `outcome` is what the
`try` block of `createOrder` obtains. -/
def handleSubmit (mayaPublicKey : String) (form : OrderFormState) (product : Product)
    (outcome : Except ApiFailure (Option Reply)) : List FormEffect :=
  let orderData : OrderData :=
    { productId := form.productId
      quantity := form.quantity
      customerName := form.customerName
      email := form.email
      contact := form.contact
      province := form.province
      city := form.city
      barangay := form.barangay
      addressDetails := form.addressDetails
      packageSize := product.Size
      itemCategory := product.Category
      paymentMethod := form.paymentMethod }
  .createOrder orderData ::
    match createOrder outcome with
    | .threw error => [.alert ("Failed to create order: " ++ error.message)]
    | .returnedUndefined =>
      [.alert ("Failed to create order: " ++
        "Cannot destructure property \x27orderId\x27 of \x27(intermediate value)\x27 as it is undefined.")]
    | .returned none =>
      [.alert ("Failed to create order: " ++
        "Cannot destructure property \x27orderId\x27 of \x27(intermediate value)\x27 as it is null.")]
    | .returned (some reply) =>
      if form.paymentMethod = "maya" then
        [initMayaCheckout mayaPublicKey (product.Price * form.quantity) reply.orderId]
      else
        [.navigate ("/success?order=" ++ orderIdText reply.orderId)]

/-- The constraint validation of the quantity input, `type="number" min="1"
max={product.Stock}`: whether the browser accepts the value it shows, for whole numbers. -/
def quantityInputValid (product : Product) (quantity : Int) : Bool :=
  decide (1 ≤ quantity) && decide (quantity ≤ product.Stock)

/-- The submit button of `<form onSubmit={handleSubmit}>`: the form has no `noValidate`, so
the browser checks its controls and fires the submit event, which runs `handleSubmit`, only
when all of them are valid.  `otherControlsValid` is the validity of the controls other than
the quantity input (the `required` fields of the customer and the address). -/
def onSubmit (mayaPublicKey : String) (form : OrderFormState) (product : Product)
    (otherControlsValid : Bool) (outcome : Except ApiFailure (Option Reply)) :
    List FormEffect :=
  if quantityInputValid product form.quantity && otherControlsValid then
    handleSubmit mayaPublicKey form product outcome
  else []

/-- Whether an action on the quantity is one of the two buttons. -/
def QuantityAction.isButton : QuantityAction → Bool
  | .minus => true
  | .plus => true
  | .typed _ => false

/-! ## Sample data -/

/-- A configuration: only the store URL and the portal credentials are set. -/
def sampleConfig : Config :=
  CONFIG
    { APPS_SCRIPT_URL := some "https://script.example/exec"
      JNTT_USERNAME := some "shop"
      JNTT_PASSWORD := some "secret"
      JNTT_BASE_URL := none
      SHOP_NAME := none
      SHOP_CONTACT := none
      SHOP_ADDRESS := none
      SHOP_PROVINCE := none
      SHOP_CITY := none
      SHOP_BARANGAY := none }

/-- An order record with the given ID and shipping status. -/
def sampleOrder (id status : String) : Order :=
  { OrderID := id
    CustomerName := "Ana Cruz"
    ProductName := "Shirt"
    Quantity := "2"
    Contact := "+639170000000"
    AddressDetails := "1 Mabini St"
    Province := "Cebu"
    City := "Cebu City"
    District := "District 1"
    Barangay := "Lahug"
    PackageSize := none
    ItemCategory := none
    ShippingStatus := status }

/-- A portal on which every step works and whose confirmation page shows `text` in its
tracking element. -/
def portalOk (text : String) : OrderOutcomes :=
  { newPage := .ok ()
    loginCalls := .ok ()
    urlAfterLogin := "https://www.jtexpress.ph/dashboard"
    openFormCalls := .ok ()
    field := fun _ => .bySelector
    submitCalls := .ok ()
    trackingElement := .present (.ok (some text))
    urlAfterSubmit := "https://www.jtexpress.ph/booking/confirmation"
    screenshot := .ok ()
    updatePost := .ok ()
    pageClose := .ok () }

/-- A portal that rejects the login: after the click the page is still the login page. -/
def portalLoginRejected : OrderOutcomes :=
  { portalOk "" with urlAfterLogin := "https://www.jtexpress.ph/login?error=1" }

/-- A portal whose confirmation page shows neither a tracking element nor a tracking URL. -/
def portalNoTracking : OrderOutcomes :=
  { portalOk "" with trackingElement := .absent }

/-- A world in which the store returns the given orders and order `i` meets `outcomes i`. -/
def sampleWorld (orders : List (Option Order)) (outcomes : Nat → OrderOutcomes) : World :=
  { getOrder := fun _ => .ok (orders.headD none)
    getOrders := .ok (some orders)
    launch := .ok ()
    outcomes := outcomes
    browserClose := .ok ()
    callbackPost := .ok ()
    now := "2024-05-01T08:00:00.000Z" }

/-- The batch of the two orders `ORD-1` and `ORD-2`, both ready to ship. -/
def sampleBatch : List (Option Order) :=
  [some (sampleOrder "ORD-1" "Ready to Ship"), some (sampleOrder "ORD-2" "Ready to Ship")]

/-- The state in which the `try` block of `main` starts: the two banner lines are printed. -/
def startState : State :=
  { State.initial with
    console := ["🚀 J&T Express Booking Automation", "================================\n"] }

/-- The fetch of a run: `mainFetch` with the selector read from `argv`, from `startState`. -/
def fetched (cfg : Config) (w : World) (argv : List String) : Completion Unit × State :=
  mainFetch cfg w (getArgValue (argv.drop 2) "--orderId") ((argv.drop 2).contains "--bulk")
    startState

/-- The fetch of the run ends normally and has set `ordersToProcess` to `orders`. -/
def Fetched (cfg : Config) (w : World) (argv : List String) (orders : List (Option Order)) :
    Prop :=
  (fetched cfg w argv).1 = .normal () ∧ (fetched cfg w argv).2.ordersToProcess = orders

/-- The console after `printSummary` has run from `s`. -/
def summaryConsole (s : State) : List String := (printSummary s).2.console

/-- Outcomes for the batch `sampleBatch`: the login of the first order times out and its page
cannot be closed either; the portal would work for the second order. -/
def outcomesLoginAndCloseFail : Nat → OrderOutcomes := fun i =>
  if i = 0 then
    { portalOk "" with
      loginCalls := .error "net::ERR_TIMED_OUT"
      pageClose := .error "Target closed" }
  else portalOk "JT0002"

/-- Outcomes for the batch `sampleBatch`: the login of the first order times out; the portal
works for the second order. -/
def outcomesLoginFails : Nat → OrderOutcomes := fun i =>
  if i = 0 then { portalOk "" with loginCalls := .error "net::ERR_TIMED_OUT" }
  else portalOk "JT0002"

/-- The order IDs of the defined records of a batch, in order. -/
def orderIds (l : List (Option Order)) : List String :=
  l.filterMap (fun o => o.map (fun r => r.OrderID))

/-- Outcomes for the batch `sampleBatch`: the portal books `ORD-1` with tracking number
`JT123456` and rejects the login for `ORD-2`. -/
def outcomesSecondLoginRejected : Nat → OrderOutcomes := fun i =>
  if i = 0 then portalOk "JT123456" else portalLoginRejected

/-- A world whose store answers `getOrder` without an order record. -/
def worldNoRecord : World := sampleWorld [] (fun _ => portalOk "")

/-- A world with the single order `ORD-1`, booked by the portal, in which `browser.close()`
throws. -/
def worldCloseFails : World :=
  { sampleWorld [some (sampleOrder "ORD-1" "Ready to Ship")] (fun _ => portalOk "JT123456") with
    browserClose := .error "Browser has been closed" }

/-- A world with the single order `ORD-1`, booked by the portal with `JT123456`. -/
def worldSingle : World :=
  sampleWorld [some (sampleOrder "ORD-1" "Ready to Ship")] (fun _ => portalOk "JT123456")

/-- Whether an event is the login step. -/
def Event.isLogin : Event → Bool
  | .login _ => true
  | _ => false

/-- A world with the single order `ORD-1` in which `browser.newPage()` throws. -/
def worldNewPageFails : World :=
  sampleWorld [some (sampleOrder "ORD-1" "Ready to Ship")]
    (fun _ => { portalOk "JT123456" with newPage := .error "Target page, context or browser has been closed" })

/-- A world with the single order `ORD-1` in which every field of the booking form fails to
be filled, and the portal still confirms the booking with `JT123456`. -/
def worldFillFails : World :=
  sampleWorld [some (sampleOrder "ORD-1" "Ready to Ship")]
    (fun _ => { portalOk "JT123456" with field := fun _ => .error "Timeout 30000ms exceeded" })

/-- A reply of the store that rejects a request: no order ID, an error text. -/
def replyRejected (error : String) : Reply :=
  { success := some false, orderId := none, error := some error, message := none }

/-- A dashboard without orders, selection, log entries or alerts. -/
def emptyDashboard : Dashboard :=
  { orders := [], selectedOrders := ∅, actionLogs := [], sent := [], alerts := [],
    loadOrdersCalls := 0 }

/-- A product with the given stock. -/
def sampleProduct (stock : Int) : Product :=
  { Price := 250, Stock := stock, Size := "Small", Category := "Apparel" }

/-- A filled order form with the given quantity and payment method. -/
def sampleForm (quantity : Int) (paymentMethod : String) : OrderFormState :=
  { productId := "P-1"
    quantity := quantity
    customerName := "Ana Cruz"
    email := "ana@example.com"
    contact := "+639170000000"
    province := "Cebu"
    city := "Cebu City"
    barangay := "Lahug"
    addressDetails := "1 Mabini St"
    paymentMethod := paymentMethod }

/-- An order of the admin console with the given ID and customer name. -/
def sampleAdminOrder (id customer : String) : AdminOrder :=
  { OrderID := some id
    TrackingNumber := none
    CustomerName := some customer
    ProductName := some "Shirt"
    Quantity := 2
    Price := 250
    PaymentStatus := some "Paid"
    ShippingStatus := some "Ready to Ship"
    Date := some "2024-05-01" }

/-! ## Lemmas

### Rewriting rules for the combinators -/

@[simp] theorem Js.pure_run {α : Type} (a : α) (s : State) :
    (pure a : Js α) s = (.normal a, s) := rfl

@[simp] theorem Js.pure_run2 {α : Type} (a : α) (s : State) :
    (Js.pure a : Js α) s = (.normal a, s) := rfl

@[simp] theorem Js.bind_run {α β : Type} (x : Js α) (f : α → Js β) (s : State) :
    (x >>= f) s = Js.bind x f s := rfl

@[simp] theorem Js.throw_run {α : Type} (m : String) (s : State) :
    (Js.throw m : Js α) s = (.throw m, s) := rfl

@[simp] theorem Js.exit_run {α : Type} (c : Nat) (s : State) :
    (Js.exit c : Js α) s = (.exit c, s) := rfl

@[simp] theorem Js.emit_run (e : Event) (s : State) :
    Js.emit e s = (.normal (), { s with trace := s.trace ++ [e] }) := rfl

@[simp] theorem Js.log_run (l : String) (s : State) :
    Js.log l s = (.normal (), { s with console := s.console ++ [l] }) := rfl

@[simp] theorem Js.get_run (s : State) : Js.get s = (.normal s, s) := rfl

@[simp] theorem Js.modify_run (f : State → State) (s : State) :
    Js.modify f s = (.normal (), f s) := rfl

@[simp] theorem Js.await_ok {α : Type} (a : α) (s : State) :
    Js.await (.ok a : Except String α) s = (.normal a, s) := rfl

@[simp] theorem Js.await_error {α : Type} (m : String) (s : State) :
    Js.await (.error m : Except String α) s = (.throw m, s) := rfl

/-! ### Quiet computations -/

theorem Js.quiet_bind {P : Event → Prop} {x y : Js Unit} (hx : Js.Quiet P x)
    (hy : Js.Quiet P y) : Js.Quiet P (x >>= fun _ => y) := by
  obtain ⟨tr, con, ht, h⟩ := hx
  obtain ⟨tr2, con2, ht2, h2⟩ := hy
  refine ⟨tr ++ tr2, con ++ con2, ?_, ?_⟩
  · intro e he
    rcases List.mem_append.1 he with h | h
    · exact ht e h
    · exact ht2 e h
  · intro s
    simp [Js.bind, h s, h2]

/-! ### The functions of the script, step by step -/

theorem State.add_nil (s : State) : s.add [] [] [] [] = s := by
  cases s with
  | mk o r t c => cases r; simp [State.add]

theorem State.add_add (s : State) (a1 : List SuccessEntry) (b1 : List FailedEntry)
    (c1 : List Event) (d1 : List String) (a2 : List SuccessEntry) (b2 : List FailedEntry)
    (c2 : List Event) (d2 : List String) :
    (s.add a1 b1 c1 d1).add a2 b2 c2 d2 = s.add (a1 ++ a2) (b1 ++ b2) (c1 ++ c2) (d1 ++ d2) := by
  simp [State.add]

theorem fillField_quiet (o : OrderOutcomes) (l v : String) :
    Js.Quiet (fun e => ∃ l v, e = Event.fillField l v) (fillField o l v) := by
  unfold fillField
  cases o.field l with
  | bySelector => exact ⟨[.fillField l v], [], by simp, by intro s; simp [Js.tryCatch]⟩
  | byLabel => exact ⟨[.fillField l v], [], by simp, by intro s; simp [Js.tryCatch]⟩
  | notFound =>
    exact ⟨[], ["   ⚠️  Could not find field: " ++ l], by simp, by intro s; simp [Js.tryCatch]⟩
  | error m =>
    exact ⟨[], ["   ⚠️  Error filling field " ++ l ++ ": " ++ m], by simp,
      by intro s; simp [Js.tryCatch]⟩

theorem fillBookingForm_run (cfg : Config) (o : OrderOutcomes) (r : Order) :
    ∃ ftr con, (∀ e ∈ ftr, ∃ l v, e = Event.fillField l v) ∧
      ∀ s, fillBookingForm cfg o r s =
        (.normal (), s.add [] [] (Event.fillForm :: ftr) con) := by
  have h : Js.Quiet (fun e => ∃ l v, e = Event.fillField l v)
      (do
        fillField o "Sender Name" cfg.shopInfo.name
        fillField o "Sender Contact" cfg.shopInfo.contact
        fillField o "Sender Address" cfg.shopInfo.address
        fillField o "Sender Province" cfg.shopInfo.province
        fillField o "Sender City" cfg.shopInfo.city
        fillField o "Sender Barangay" cfg.shopInfo.barangay
        fillField o "Receiver Name" r.CustomerName
        fillField o "Receiver Contact" r.Contact
        fillField o "Receiver Address" r.AddressDetails
        fillField o "Receiver Province" r.Province
        fillField o "Receiver City" r.City
        fillField o "Receiver District" r.District
        fillField o "Receiver Barangay" r.Barangay
        fillField o "Package Size" (orDefault r.PackageSize "Small")
        fillField o "Item Category" (orDefault r.ItemCategory "Electronics")
        fillField o "Weight" "1"
        fillField o "Quantity" r.Quantity
        fillField o "Payment Type" "Prepaid") := by
    repeat (first | exact fillField_quiet _ _ _ | apply Js.quiet_bind)
  obtain ⟨ftr, con, hf, hrun⟩ := h
  refine ⟨ftr, con, hf, ?_⟩
  intro s
  unfold fillBookingForm
  simp only [Js.tryCatch]
  rw [Js.bind_run]
  simp only [Js.bind, Js.emit_run]
  rw [hrun]
  simp [State.add]

theorem updateOrderInBackend_run (cfg : Config) (o : OrderOutcomes) (orderId t : String) :
    ∃ con, ∀ s, updateOrderInBackend cfg o orderId t s =
      (.normal (), s.add [] [] [.updateOrderStatus cfg.appsScriptUrl (updateRequest cfg orderId t)] con) := by
  unfold updateOrderInBackend
  cases h : o.updatePost with
  | ok u => exact ⟨[], by intro s; simp [Js.tryCatch, Js.bind, State.add, updateRequest]⟩
  | error m =>
    exact ⟨["Failed to update backend: " ++ m],
      by intro s; simp [Js.tryCatch, Js.bind, State.add, updateRequest]⟩

/-- The `try` block of `processOrder`, case by case: it ends normally after the update
request, or it throws at the login, at the opening of the form, or at the submit. -/
theorem processOrderBody_cases (cfg : Config) (o : OrderOutcomes) (r : Order) :
    ∃ ftr : List Event, (∀ e ∈ ftr, ∃ l v, e = Event.fillField l v) ∧
      ((∃ t shot con, (loginToJT cfg o State.initial).1 = .normal () ∧
          (openBookingForm cfg o State.initial).1 = .normal () ∧
          (submitBooking o State.initial).1 = .normal t ∧
          (shot = [] ∨ shot = [Event.screenshot]) ∧
          ∀ s, processOrderBody cfg o r s = (.normal (), s.add [⟨r.OrderID, t⟩] []
            ([.login (cfg.jnttBaseUrl ++ "/login"), .openForm (cfg.jnttBaseUrl ++ "/booking/create"),
              .fillForm] ++ ftr ++ [.submit] ++ shot ++
              [.updateOrderStatus cfg.appsScriptUrl (updateRequest cfg r.OrderID t)]) con)) ∨
       (∃ m con, (loginToJT cfg o State.initial).1 = .throw m ∧
          ∀ s, processOrderBody cfg o r s = (.throw m, s.add [] []
            [.login (cfg.jnttBaseUrl ++ "/login")] con)) ∨
       (∃ m con, (loginToJT cfg o State.initial).1 = .normal () ∧
          (openBookingForm cfg o State.initial).1 = .throw m ∧
          ∀ s, processOrderBody cfg o r s = (.throw m, s.add [] []
            [.login (cfg.jnttBaseUrl ++ "/login"),
              .openForm (cfg.jnttBaseUrl ++ "/booking/create")] con)) ∨
       (∃ m shot con, (loginToJT cfg o State.initial).1 = .normal () ∧
          (openBookingForm cfg o State.initial).1 = .normal () ∧
          (submitBooking o State.initial).1 = .throw m ∧
          (shot = [] ∨ shot = [Event.screenshot]) ∧
          ∀ s, processOrderBody cfg o r s = (.throw m, s.add [] []
            ([.login (cfg.jnttBaseUrl ++ "/login"), .openForm (cfg.jnttBaseUrl ++ "/booking/create"),
              .fillForm] ++ ftr ++ [.submit] ++ shot) con))) := by
  obtain ⟨ftr, fcon, hf, hfill⟩ := fillBookingForm_run cfg o r
  refine ⟨ftr, hf, ?_⟩
  rcases hl : o.loginCalls with m | u
  · refine Or.inr (Or.inl ⟨m, (processOrderBody cfg o r State.initial).2.console, ?_, ?_⟩)
    · simp [loginToJT, Js.bind, hl]
    · intro s
      simp [processOrderBody, loginToJT, Js.bind, hl, State.add, State.initial]
  by_cases hu : includes o.urlAfterLogin "login" = true
  · refine Or.inr (Or.inl ⟨"Login failed - check credentials",
      (processOrderBody cfg o r State.initial).2.console, ?_, ?_⟩)
    · simp [loginToJT, Js.bind, hl, hu]
    · intro s
      simp [processOrderBody, loginToJT, Js.bind, hl, hu, State.add, State.initial]
  have hlogin : (loginToJT cfg o State.initial).1 = .normal () := by
    simp [loginToJT, Js.bind, hl, hu]
  rcases ho : o.openFormCalls with m | u
  · refine Or.inr (Or.inr (Or.inl ⟨m, (processOrderBody cfg o r State.initial).2.console,
      hlogin, ?_, ?_⟩))
    · simp [openBookingForm, Js.bind, ho]
    · intro s
      simp [processOrderBody, loginToJT, openBookingForm, Js.bind, hl, hu, ho, State.add,
        State.initial]
  have hopen : (openBookingForm cfg o State.initial).1 = .normal () := by
    simp [openBookingForm, Js.bind, ho]
  rcases hs : o.submitCalls with m | u
  · refine Or.inr (Or.inr (Or.inr ⟨m, [],
      (processOrderBody cfg o r State.initial).2.console, hlogin, hopen, ?_, by simp, ?_⟩))
    · simp [submitBooking, Js.bind, hs]
    · intro s
      simp [processOrderBody, loginToJT, openBookingForm, submitBooking, Js.bind, hl, hu, ho,
        hfill, hs, State.add, State.initial]
  rcases ht : o.trackingElement with m | _ | (m | _ | text)
  · refine Or.inr (Or.inr (Or.inr ⟨m, [],
      (processOrderBody cfg o r State.initial).2.console, hlogin, hopen, ?_, by simp, ?_⟩))
    · simp [submitBooking, Js.bind, hs, ht]
    · intro s
      simp [processOrderBody, loginToJT, openBookingForm, submitBooking, Js.bind, hl, hu, ho,
        hfill, hs, ht, State.add, State.initial]
  · rcases hm : trackingMatch o.urlAfterSubmit with _ | g
    · rcases hshot : o.screenshot with m | u
      · refine Or.inr (Or.inr (Or.inr ⟨m, [Event.screenshot],
          (processOrderBody cfg o r State.initial).2.console, hlogin, hopen, ?_, by simp, ?_⟩))
        · simp [submitBooking, Js.bind, hs, ht, hm, hshot]
        · intro s
          simp [processOrderBody, loginToJT, openBookingForm, submitBooking, Js.bind, hl, hu, ho,
            hfill, hs, ht, hm, hshot, State.add, State.initial]
      · obtain ⟨ucon, hupd⟩ := updateOrderInBackend_run cfg o r.OrderID ("TRACKING-PENDING")
        refine Or.inl ⟨"TRACKING-PENDING", [Event.screenshot], (processOrderBody cfg o r State.initial).2.console,
          hlogin, hopen, ?_, by simp, ?_⟩
        · simp [submitBooking, Js.bind, hs, ht, hm, hshot]
        · intro s
          simp [processOrderBody, loginToJT, openBookingForm, submitBooking, Js.bind, hl, hu, ho,
            hfill, hupd, hs, ht, hm, hshot, State.add, State.initial]
    · obtain ⟨ucon, hupd⟩ := updateOrderInBackend_run cfg o r.OrderID (g)
      refine Or.inl ⟨g, [], (processOrderBody cfg o r State.initial).2.console,
        hlogin, hopen, ?_, by simp, ?_⟩
      · simp [submitBooking, Js.bind, hs, ht, hm]
      · intro s
        simp [processOrderBody, loginToJT, openBookingForm, submitBooking, Js.bind, hl, hu, ho,
          hfill, hupd, hs, ht, hm, State.add, State.initial]
  · refine Or.inr (Or.inr (Or.inr ⟨m, [],
      (processOrderBody cfg o r State.initial).2.console, hlogin, hopen, ?_, by simp, ?_⟩))
    · simp [submitBooking, Js.bind, hs, ht]
    · intro s
      simp [processOrderBody, loginToJT, openBookingForm, submitBooking, Js.bind, hl, hu, ho,
        hfill, hs, ht, State.add, State.initial]
  · refine Or.inr (Or.inr (Or.inr ⟨"Cannot read properties of null (reading \x27trim\x27)", [],
      (processOrderBody cfg o r State.initial).2.console, hlogin, hopen, ?_, by simp, ?_⟩))
    · simp [submitBooking, Js.bind, hs, ht]
    · intro s
      simp [processOrderBody, loginToJT, openBookingForm, submitBooking, Js.bind, hl, hu, ho,
        hfill, hs, ht, State.add, State.initial]
  · obtain ⟨ucon, hupd⟩ := updateOrderInBackend_run cfg o r.OrderID (trim text)
    refine Or.inl ⟨trim text, [], (processOrderBody cfg o r State.initial).2.console,
      hlogin, hopen, ?_, by simp, ?_⟩
    · simp [submitBooking, Js.bind, hs, ht]
    · intro s
      simp [processOrderBody, loginToJT, openBookingForm, submitBooking, Js.bind, hl, hu, ho,
        hfill, hupd, hs, ht, State.add, State.initial]

theorem processOrder_none (cfg : Config) (o : OrderOutcomes) (s : State) :
    processOrder cfg o none s =
      (.throw "Cannot read properties of undefined (reading \x27OrderID\x27)",
        s.add [] [] [.processOrder none] []) := by
  simp [processOrder, Js.bind, State.add]

theorem processOrder_newPage_error (cfg : Config) (o : OrderOutcomes) (r : Order) (m : String)
    (h : o.newPage = .error m) :
    ∃ con, ∀ s, processOrder cfg o (some r) s =
      (.throw m, s.add [] [] [.processOrder (some r.OrderID), .newPage] con) := by
  refine ⟨(processOrder cfg o (some r) State.initial).2.console, ?_⟩
  intro s
  simp [processOrder, Js.bind, State.add, State.initial, h]

/-- A call of `processOrder` on a defined record whose page opens, case by case. -/
theorem processOrder_cases (cfg : Config) (o : OrderOutcomes) (r : Order)
    (hnp : o.newPage = .ok ()) :
    ∃ ftr : List Event, (∀ e ∈ ftr, ∃ l v, e = Event.fillField l v) ∧
      ((∃ t shot con, (loginToJT cfg o State.initial).1 = .normal () ∧
          (openBookingForm cfg o State.initial).1 = .normal () ∧
          (submitBooking o State.initial).1 = .normal t ∧
          (shot = [] ∨ shot = [Event.screenshot]) ∧
          ∀ s, processOrder cfg o (some r) s = ((Js.await o.pageClose State.initial).1,
            s.add [⟨r.OrderID, t⟩] []
            ([.processOrder (some r.OrderID), .newPage, .login (cfg.jnttBaseUrl ++ "/login"),
              .openForm (cfg.jnttBaseUrl ++ "/booking/create"), .fillForm] ++ ftr ++ [.submit] ++
              shot ++ [.updateOrderStatus cfg.appsScriptUrl (updateRequest cfg r.OrderID t),
              .pageClose]) con)) ∨
       (∃ m con, (loginToJT cfg o State.initial).1 = .throw m ∧
          ∀ s, processOrder cfg o (some r) s = ((Js.await o.pageClose State.initial).1,
            s.add [] [⟨r.OrderID, m⟩] ([.processOrder (some r.OrderID), .newPage, .login (cfg.jnttBaseUrl ++ "/login"), .pageClose]) con)) ∨
       (∃ m con, (loginToJT cfg o State.initial).1 = .normal () ∧
          (openBookingForm cfg o State.initial).1 = .throw m ∧
          ∀ s, processOrder cfg o (some r) s = ((Js.await o.pageClose State.initial).1,
            s.add [] [⟨r.OrderID, m⟩]
            ([.processOrder (some r.OrderID), .newPage, .login (cfg.jnttBaseUrl ++ "/login"), .openForm (cfg.jnttBaseUrl ++ "/booking/create"), .pageClose]) con)) ∨
       (∃ m shot con, (loginToJT cfg o State.initial).1 = .normal () ∧
          (openBookingForm cfg o State.initial).1 = .normal () ∧
          (submitBooking o State.initial).1 = .throw m ∧
          (shot = [] ∨ shot = [Event.screenshot]) ∧
          ∀ s, processOrder cfg o (some r) s = ((Js.await o.pageClose State.initial).1,
            s.add [] [⟨r.OrderID, m⟩]
            ([.processOrder (some r.OrderID), .newPage, .login (cfg.jnttBaseUrl ++ "/login"),
              .openForm (cfg.jnttBaseUrl ++ "/booking/create"), .fillForm] ++ ftr ++ [.submit] ++
              shot ++ [.pageClose]) con))) := by
  obtain ⟨ftr, hf, hb⟩ := processOrderBody_cases cfg o r
  refine ⟨ftr, hf, ?_⟩
  rcases hb with ⟨t, shot, con, h1, h2, h3, h4, hb⟩ | ⟨m, con, h1, hb⟩ |
    ⟨m, con, h1, h2, hb⟩ | ⟨m, shot, con, h1, h2, h3, h4, hb⟩
  · refine Or.inl ⟨t, shot, (processOrder cfg o (some r) State.initial).2.console,
      h1, h2, h3, h4, ?_⟩
    intro s
    rcases hc : o.pageClose with mc | uc <;>
      simp [processOrder, processOrderCatch, Js.bind, Js.tryCatch, Js.tryFinally, hb, hnp, hc,
        State.add, State.initial]
  · refine Or.inr (Or.inl ⟨m, (processOrder cfg o (some r) State.initial).2.console, h1, ?_⟩)
    intro s
    rcases hc : o.pageClose with mc | uc <;>
      simp [processOrder, processOrderCatch, Js.bind, Js.tryCatch, Js.tryFinally, hb, hnp, hc,
        State.add, State.initial]
  · refine Or.inr (Or.inr (Or.inl ⟨m, (processOrder cfg o (some r) State.initial).2.console,
      h1, h2, ?_⟩))
    intro s
    rcases hc : o.pageClose with mc | uc <;>
      simp [processOrder, processOrderCatch, Js.bind, Js.tryCatch, Js.tryFinally, hb, hnp, hc,
        State.add, State.initial]
  · refine Or.inr (Or.inr (Or.inr ⟨m, shot,
      (processOrder cfg o (some r) State.initial).2.console, h1, h2, h3, h4, ?_⟩))
    intro s
    rcases hc : o.pageClose with mc | uc <;>
      simp [processOrder, processOrderCatch, Js.bind, Js.tryCatch, Js.tryFinally, hb, hnp, hc,
        State.add, State.initial]

/-- Every call of `processOrder` has one completion and appends the same entries, events and
lines whatever the state it starts from; it never ends the process. -/
theorem processOrder_shape (cfg : Config) (o : OrderOutcomes) (order : Option Order) :
    ∃ c succ fl tr con, (∀ k, c ≠ .exit k) ∧
      ∀ s, processOrder cfg o order s = (c, s.add succ fl tr con) := by
  cases order with
  | none => exact ⟨_, [], [], _, [], by simp, fun s => processOrder_none cfg o s⟩
  | some r =>
    rcases hnp : o.newPage with m | u
    · obtain ⟨con, h⟩ := processOrder_newPage_error cfg o r m hnp
      exact ⟨_, [], [], _, con, by simp, h⟩
    · have hc : ∀ k, (Js.await o.pageClose State.initial).1 ≠ .exit k := by
        intro k; cases o.pageClose <;> simp
      obtain ⟨ftr, -, h⟩ := processOrder_cases cfg o r hnp
      rcases h with ⟨t, shot, con, -, -, -, -, h⟩ | ⟨m, con, -, h⟩ | ⟨m, con, -, -, h⟩ |
        ⟨m, shot, con, -, -, -, -, h⟩
      · exact ⟨_, _, _, _, con, hc, h⟩
      · exact ⟨_, _, _, _, con, hc, h⟩
      · exact ⟨_, _, _, _, con, hc, h⟩
      · exact ⟨_, _, _, _, con, hc, h⟩

/-- Induction over the loop of `main`: a property of what the loop appends follows from the
same property of each call of `processOrder`. -/
theorem processOrders_induct (cfg : Config) (w : World)
    (P : Nat → List (Option Order) → Completion Unit → List SuccessEntry → List FailedEntry →
      List Event → Prop)
    (nil : ∀ i, P i [] (.normal ()) [] [] [])
    (stop : ∀ i order rest m succ fl tr con,
      (∀ s, processOrder cfg (w.outcomes i) order s = (.throw m, s.add succ fl tr con)) →
      P i (order :: rest) (.throw m) succ fl tr)
    (go : ∀ i order rest succ fl tr con c2 succ2 fl2 tr2,
      (∀ s, processOrder cfg (w.outcomes i) order s = (.normal (), s.add succ fl tr con)) →
      P (i + 1) rest c2 succ2 fl2 tr2 →
      P i (order :: rest) c2 (succ ++ succ2) (fl ++ fl2) (tr ++ tr2)) :
    ∀ (l : List (Option Order)) (i : Nat), ∃ c succ fl tr con, (∀ k, c ≠ .exit k) ∧
      (∀ s, processOrders cfg w i l s = (c, s.add succ fl tr con)) ∧ P i l c succ fl tr := by
  intro l
  induction l with
  | nil =>
    intro i
    exact ⟨.normal (), [], [], [], [], by simp, by intro s; simp [processOrders, State.add_nil],
      nil i⟩
  | cons order rest ih =>
    intro i
    obtain ⟨c, succ, fl, tr, con, hc, h⟩ := processOrder_shape cfg (w.outcomes i) order
    cases c with
    | exit k => exact absurd rfl (hc k)
    | throw m =>
      exact ⟨.throw m, succ, fl, tr, con, by simp, by intro s; simp [processOrders, h],
        stop i order rest m succ fl tr con h⟩
    | normal u =>
      obtain ⟨c2, succ2, fl2, tr2, con2, hc2, h2, hP⟩ := ih (i + 1)
      refine ⟨c2, succ ++ succ2, fl ++ fl2, tr ++ tr2, con ++ con2, hc2, ?_,
        go i order rest succ fl tr con c2 succ2 fl2 tr2 h hP⟩
      intro s
      simp [processOrders, h, h2, State.add_add]

theorem State.add_initial_inj {c c2 : Completion Unit} {a a2 : List SuccessEntry}
    {b b2 : List FailedEntry} {t t2 : List Event} {d d2 : List String}
    (h : (c, State.initial.add a b t d) = (c2, State.initial.add a2 b2 t2 d2)) :
    c = c2 ∧ a = a2 ∧ b = b2 ∧ t = t2 ∧ d = d2 := by
  have h2 : c = c2 ∧ (a = a2 ∧ b = b2) ∧ t = t2 ∧ d = d2 := by
    simpa [State.add, State.initial] using h
  exact ⟨h2.1, h2.2.1.1, h2.2.1.2, h2.2.2.1, h2.2.2.2⟩

/-- Inversion: what a call of `processOrder` can have appended, and when. -/
theorem processOrder_inv (cfg : Config) (o : OrderOutcomes) (order : Option Order)
    (c : Completion Unit) (succ : List SuccessEntry) (fl : List FailedEntry) (tr : List Event)
    (con : List String) (h : ∀ s, processOrder cfg o order s = (c, s.add succ fl tr con)) :
    (order = none ∧
      c = .throw "Cannot read properties of undefined (reading \x27OrderID\x27)" ∧
      succ = [] ∧ fl = [] ∧ tr = [.processOrder none]) ∨
    (∃ r m, order = some r ∧ o.newPage = .error m ∧ c = .throw m ∧ succ = [] ∧ fl = [] ∧
      tr = [.processOrder (some r.OrderID), .newPage]) ∨
    (∃ r, order = some r ∧ o.newPage = .ok () ∧ c = (Js.await o.pageClose State.initial).1 ∧
      ∃ ftr : List Event, (∀ e ∈ ftr, ∃ l v, e = Event.fillField l v) ∧
      ((∃ t shot, (loginToJT cfg o State.initial).1 = .normal () ∧
          (openBookingForm cfg o State.initial).1 = .normal () ∧
          (submitBooking o State.initial).1 = .normal t ∧
          (shot = [] ∨ shot = [Event.screenshot]) ∧
          succ = [⟨r.OrderID, t⟩] ∧ fl = [] ∧
          tr = [.processOrder (some r.OrderID), .newPage, .login (cfg.jnttBaseUrl ++ "/login"),
              .openForm (cfg.jnttBaseUrl ++ "/booking/create"), .fillForm] ++ ftr ++ [.submit] ++
              shot ++ [.updateOrderStatus cfg.appsScriptUrl (updateRequest cfg r.OrderID t),
              .pageClose]) ∨
       (∃ m, (loginToJT cfg o State.initial).1 = .throw m ∧
          succ = [] ∧ fl = [⟨r.OrderID, m⟩] ∧ tr = [.processOrder (some r.OrderID), .newPage, .login (cfg.jnttBaseUrl ++ "/login"), .pageClose]) ∨
       (∃ m, (loginToJT cfg o State.initial).1 = .normal () ∧
          (openBookingForm cfg o State.initial).1 = .throw m ∧
          succ = [] ∧ fl = [⟨r.OrderID, m⟩] ∧
          tr = [.processOrder (some r.OrderID), .newPage, .login (cfg.jnttBaseUrl ++ "/login"), .openForm (cfg.jnttBaseUrl ++ "/booking/create"), .pageClose]) ∨
       (∃ m shot, (loginToJT cfg o State.initial).1 = .normal () ∧
          (openBookingForm cfg o State.initial).1 = .normal () ∧
          (submitBooking o State.initial).1 = .throw m ∧
          (shot = [] ∨ shot = [Event.screenshot]) ∧
          succ = [] ∧ fl = [⟨r.OrderID, m⟩] ∧
          tr = [.processOrder (some r.OrderID), .newPage, .login (cfg.jnttBaseUrl ++ "/login"),
              .openForm (cfg.jnttBaseUrl ++ "/booking/create"), .fillForm] ++ ftr ++ [.submit] ++
              shot ++ [.pageClose]))) := by
  have h0 := h State.initial
  cases order with
  | none =>
    rw [processOrder_none] at h0
    obtain ⟨h1, h2, h3, h4, -⟩ := State.add_initial_inj h0
    exact Or.inl ⟨rfl, h1.symm, h2.symm, h3.symm, h4.symm⟩
  | some r =>
    rcases hnp : o.newPage with m | u
    · obtain ⟨con2, h2⟩ := processOrder_newPage_error cfg o r m hnp
      rw [h2] at h0
      obtain ⟨h1, h2, h3, h4, -⟩ := State.add_initial_inj h0
      exact Or.inr (Or.inl ⟨r, m, rfl, rfl, h1.symm, h2.symm, h3.symm, h4.symm⟩)
    · obtain ⟨ftr, hf, hcases⟩ := processOrder_cases cfg o r hnp
      refine Or.inr (Or.inr ⟨r, rfl, rfl, ?_⟩)
      rcases hcases with ⟨t, shot, con2, e1, e2, e3, e4, h2⟩ | ⟨m, con2, e1, h2⟩ |
        ⟨m, con2, e1, e2, h2⟩ | ⟨m, shot, con2, e1, e2, e3, e4, h2⟩
      · rw [h2] at h0
        obtain ⟨h1, h2, h3, h4, -⟩ := State.add_initial_inj h0
        exact ⟨h1.symm, ftr, hf, Or.inl ⟨t, shot, e1, e2, e3, e4, h2.symm, h3.symm, h4.symm⟩⟩
      · rw [h2] at h0
        obtain ⟨h1, h2, h3, h4, -⟩ := State.add_initial_inj h0
        exact ⟨h1.symm, ftr, hf, Or.inr (Or.inl ⟨m, e1, h2.symm, h3.symm, h4.symm⟩)⟩
      · rw [h2] at h0
        obtain ⟨h1, h2, h3, h4, -⟩ := State.add_initial_inj h0
        exact ⟨h1.symm, ftr, hf, Or.inr (Or.inr (Or.inl ⟨m, e1, e2, h2.symm, h3.symm, h4.symm⟩))⟩
      · rw [h2] at h0
        obtain ⟨h1, h2, h3, h4, -⟩ := State.add_initial_inj h0
        exact ⟨h1.symm, ftr, hf,
          Or.inr (Or.inr (Or.inr ⟨m, shot, e1, e2, e3, e4, h2.symm, h3.symm, h4.symm⟩))⟩

theorem processOrder_one_entry (cfg : Config) (o : OrderOutcomes) (order : Option Order)
    (succ : List SuccessEntry) (fl : List FailedEntry) (tr : List Event) (con : List String)
    (h : ∀ s, processOrder cfg o order s = (.normal (), s.add succ fl tr con)) :
    (∃ e, succ = [e] ∧ fl = []) ∨ (∃ e, succ = [] ∧ fl = [e]) := by
  rcases processOrder_inv cfg o order _ succ fl tr con h with
    ⟨-, hc, -⟩ | ⟨r, m, -, -, hc, -⟩ | ⟨r, -, -, -, ftr, -, hcase⟩
  · cases hc
  · cases hc
  · rcases hcase with ⟨t, shot, -, -, -, -, h1, h2, -⟩ | ⟨m, -, h1, h2, -⟩ |
      ⟨m, -, -, h1, h2, -⟩ | ⟨m, shot, -, -, -, -, h1, h2, -⟩
    · exact Or.inl ⟨_, h1, h2⟩
    · exact Or.inr ⟨_, h1, h2⟩
    · exact Or.inr ⟨_, h1, h2⟩
    · exact Or.inr ⟨_, h1, h2⟩

theorem processOrder_initial {cfg : Config} {o : OrderOutcomes} {order : Option Order}
    {c : Completion Unit} {succ : List SuccessEntry} {fl : List FailedEntry} {tr : List Event}
    {con : List String} (h : ∀ s, processOrder cfg o order s = (c, s.add succ fl tr con)) :
    (processOrder cfg o order State.initial).1 = c ∧
    (processOrder cfg o order State.initial).2.results.success = succ ∧
    (processOrder cfg o order State.initial).2.results.failed = fl ∧
    (processOrder cfg o order State.initial).2.trace = tr := by
  rw [h]; simp [State.add, State.initial]

/-- A loop that runs to completion appends, order by order, what each call of `processOrder`
appends on its own; and every one of these calls ends normally. -/
theorem processOrders_decompose (cfg : Config) (w : World) (l : List (Option Order)) (i : Nat)
    (s : State) (hdone : (processOrders cfg w i l s).1 = .normal ()) :
    (processOrders cfg w i l s).2.results.success =
        s.results.success ++ perOrder cfg w (fun d => d.results.success) i l ∧
    (processOrders cfg w i l s).2.results.failed =
        s.results.failed ++ perOrder cfg w (fun d => d.results.failed) i l ∧
    (processOrders cfg w i l s).2.trace = s.trace ++ perOrder cfg w (fun d => d.trace) i l ∧
    (processOrders cfg w i l s).2.ordersToProcess = s.ordersToProcess ∧
    (processOrders cfg w i l s).2.results.total = s.results.total ∧
    ∀ j order, l[j]? = some order →
      (processOrder cfg (w.outcomes (i + j)) order State.initial).1 = .normal () := by
  obtain ⟨c, succ, fl, tr, con, -, hrun, hP⟩ := processOrders_induct cfg w
    (fun i l c succ fl tr => c = .normal () →
      succ = perOrder cfg w (fun d => d.results.success) i l ∧
      fl = perOrder cfg w (fun d => d.results.failed) i l ∧
      tr = perOrder cfg w (fun d => d.trace) i l ∧
      ∀ j order, l[j]? = some order →
        (processOrder cfg (w.outcomes (i + j)) order State.initial).1 = .normal ())
    (by intro i _; simp [perOrder])
    (by intro i order rest m succ fl tr con _ hc; cases hc)
    (by
      intro i order rest succ fl tr con c2 succ2 fl2 tr2 h ih hc
      obtain ⟨h1, h2, h3, h4⟩ := ih hc
      obtain ⟨e0, e1, e2, e3⟩ := processOrder_initial h
      refine ⟨by simp [perOrder, e1, h1], by simp [perOrder, e2, h2],
        by simp [perOrder, e3, h3], ?_⟩
      intro j o2 hj
      cases j with
      | zero =>
        simp only [List.getElem?_cons_zero, Option.some.injEq] at hj
        subst hj
        simpa using e0
      | succ j =>
        simp only [List.getElem?_cons_succ] at hj
        have := h4 j o2 hj
        rwa [Nat.add_right_comm i 1 j] at this)
    l i
  rw [hrun s] at hdone ⊢
  obtain ⟨h1, h2, h3, h4⟩ := hP hdone
  exact ⟨by simp [State.add, h1], by simp [State.add, h2], by simp [State.add, h3],
    by simp [State.add], by simp [State.add], h4⟩

theorem mem_perOrder {β : Type} (cfg : Config) (w : World) (f : State → List β) (b : β) :
    ∀ (l : List (Option Order)) (i j : Nat) (order : Option Order), l[j]? = some order →
      b ∈ f (processOrder cfg (w.outcomes (i + j)) order State.initial).2 →
      b ∈ perOrder cfg w f i l := by
  intro l
  induction l with
  | nil => intro i j order hj; simp at hj
  | cons o rest ih =>
    intro i j order hj hb
    cases j with
    | zero =>
      simp only [List.getElem?_cons_zero, Option.some.injEq] at hj
      subst hj
      simp only [perOrder, List.mem_append]
      exact Or.inl (by simpa using hb)
    | succ j =>
      simp only [List.getElem?_cons_succ] at hj
      simp only [perOrder, List.mem_append]
      refine Or.inr (ih (i + 1) j order hj ?_)
      rwa [Nat.add_right_comm i 1 j]

/-- A call of `processOrder` that ends normally and in which a portal step throws records the
order as failed, with the message of that step, and records no success. -/
theorem processOrder_step_throws (cfg : Config) (o : OrderOutcomes) (r : Order) (m : String)
    (hn : (processOrder cfg o (some r) State.initial).1 = .normal ())
    (hstep : stepThrows cfg o m) :
    (processOrder cfg o (some r) State.initial).2.results.failed = [⟨r.OrderID, m⟩] ∧
    (processOrder cfg o (some r) State.initial).2.results.success = [] := by
  obtain ⟨c, succ, fl, tr, con, -, h⟩ := processOrder_shape cfg o (some r)
  obtain ⟨e0, e1, e2, -⟩ := processOrder_initial h
  rw [e1, e2]
  rcases processOrder_inv cfg o (some r) c succ fl tr con h with
    ⟨hx, -⟩ | ⟨r2, m2, -, -, hc, -⟩ | ⟨r2, hr, -, -, ftr, -, hcase⟩
  · cases hx
  · rw [e0] at hn; rw [hn] at hc; cases hc
  · cases hr
    rcases hcase with ⟨t, shot, a1, a2, a3, -, h1, h2, -⟩ | ⟨m2, a1, h1, h2, -⟩ |
      ⟨m2, a1, a2, h1, h2, -⟩ | ⟨m2, shot, a1, a2, a3, -, h1, h2, -⟩ <;>
    rcases hstep with b1 | ⟨b1, b2⟩ | ⟨b1, b2, b3⟩ <;>
    simp_all

/-! ### `main` -/

theorem printSummary_run (s : State) :
    (printSummary s).1 = .normal () ∧ (printSummary s).2.trace = s.trace ∧
      (printSummary s).2.results = s.results ∧
      (printSummary s).2.ordersToProcess = s.ordersToProcess := by
  simp only [printSummary, Js.bind_run, Js.bind, Js.get_run, Js.log_run]
  split_ifs <;> simp [Js.bind]

theorem sendResultsToBackend_run (cfg : Config) (w : World) (s : State) :
    (sendResultsToBackend cfg w s).1 = .normal () ∧
      (sendResultsToBackend cfg w s).2.trace = s.trace ++
        [.jtCallback cfg.appsScriptUrl
          { action := "jtCallback"
            results := { s.results with total := s.ordersToProcess.length }
            timestamp := w.now }] ∧
      (sendResultsToBackend cfg w s).2.results =
        { s.results with total := s.ordersToProcess.length } := by
  cases h : w.callbackPost <;> simp [sendResultsToBackend, Js.bind, Js.tryCatch, h]

/-- The fetch either ends the process (usage error, nothing requested), or sends one request
and then throws or ends normally; it never touches `results`. -/
theorem mainFetch_run (cfg : Config) (w : World) (orderId : ArgValue) (bulk : Bool) (s : State) :
    (mainFetch cfg w orderId bulk s).2.results = s.results ∧
    (((mainFetch cfg w orderId bulk s).1 = .exit 1 ∧ orderId.truthy = false ∧ bulk = false ∧
        (mainFetch cfg w orderId bulk s).2.trace = s.trace) ∨
     (orderId.truthy = true ∧
        (mainFetch cfg w orderId bulk s).2.trace = s.trace ++
          [.get cfg.appsScriptUrl [("action", "getOrder"), ("orderId", orderId.text)]] ∧
        ((∃ m, w.getOrder orderId.text = .error m ∧
            (mainFetch cfg w orderId bulk s).1 = .throw m) ∨
         (∃ d, w.getOrder orderId.text = .ok d ∧
            (mainFetch cfg w orderId bulk s).1 = .normal () ∧
            (mainFetch cfg w orderId bulk s).2.ordersToProcess = [d]))) ∨
     (orderId.truthy = false ∧ bulk = true ∧
        (mainFetch cfg w orderId bulk s).2.trace = s.trace ++
          [.get cfg.appsScriptUrl [("action", "getOrders"), ("shippingStatus", "Ready to Ship")]] ∧
        ((∃ m, w.getOrders = .error m ∧ (mainFetch cfg w orderId bulk s).1 = .throw m) ∨
         (∃ d, w.getOrders = .ok d ∧ (mainFetch cfg w orderId bulk s).1 = .normal () ∧
            (mainFetch cfg w orderId bulk s).2.ordersToProcess = d.getD [])))) := by
  by_cases ht : orderId.truthy = true
  · rcases hg : w.getOrder orderId.text with m | d <;>
      simp [mainFetch, fetchOrder, Js.bind, Js.tryCatch, ht, hg]
  · cases bulk with
    | true =>
      rcases hg : w.getOrders with m | d <;>
        simp [mainFetch, fetchBulkOrders, Js.bind, Js.tryCatch, ht, hg]
    | false => simp [mainFetch, Js.bind, ht]

theorem printSummary_eq (s : State) :
    printSummary s = (.normal (), { s with console := summaryConsole s }) := by
  simp only [summaryConsole, printSummary, Js.bind_run, Js.bind, Js.get_run, Js.log_run]
  split_ifs <;> simp [Js.bind]

theorem processOrders_shape (cfg : Config) (w : World) (l : List (Option Order)) (i : Nat) :
    ∃ c succ fl tr con, (∀ k, c ≠ .exit k) ∧
      ∀ s, processOrders cfg w i l s = (c, s.add succ fl tr con) := by
  obtain ⟨c, succ, fl, tr, con, hc, hrun, -⟩ := processOrders_induct cfg w
    (fun _ _ _ _ _ _ => True) (fun _ => trivial) (fun _ _ _ _ _ _ _ _ _ => trivial)
    (fun _ _ _ _ _ _ _ _ _ _ _ _ _ => trivial) l i
  exact ⟨c, succ, fl, tr, con, hc, hrun⟩

/-- The second part of `main`, case by case; the loop is described by what it does from the
initial state. -/
theorem mainDispatch_run (cfg : Config) (w : World) (s : State) :
    (s.ordersToProcess = [] →
      (mainDispatch cfg w s).1 = .normal () ∧ (mainDispatch cfg w s).2.trace = s.trace ∧
        (mainDispatch cfg w s).2.results = s.results) ∧
    (s.ordersToProcess ≠ [] →
      (∀ m, w.launch = .error m →
        (mainDispatch cfg w s).1 = .throw m ∧
          (mainDispatch cfg w s).2.trace = s.trace ++ [.launch] ∧
          (mainDispatch cfg w s).2.results = s.results) ∧
      (w.launch = .ok () →
        (∀ m, (processOrders cfg w 0 s.ordersToProcess State.initial).1 = .throw m →
          (mainDispatch cfg w s).1 = .throw m ∧
            (mainDispatch cfg w s).2.trace = s.trace ++ [.launch] ++
              (processOrders cfg w 0 s.ordersToProcess State.initial).2.trace ∧
            (mainDispatch cfg w s).2.results.success = s.results.success ++
              (processOrders cfg w 0 s.ordersToProcess State.initial).2.results.success ∧
            (mainDispatch cfg w s).2.results.failed = s.results.failed ++
              (processOrders cfg w 0 s.ordersToProcess State.initial).2.results.failed) ∧
        ((processOrders cfg w 0 s.ordersToProcess State.initial).1 = .normal () →
          (∀ m, w.browserClose = .error m →
            (mainDispatch cfg w s).1 = .throw m ∧
              (mainDispatch cfg w s).2.trace = s.trace ++ [.launch] ++
                (processOrders cfg w 0 s.ordersToProcess State.initial).2.trace ++
                [.browserClose]) ∧
          (w.browserClose = .ok () →
            (mainDispatch cfg w s).1 = .normal () ∧
              (mainDispatch cfg w s).2.trace = s.trace ++ [.launch] ++
                (processOrders cfg w 0 s.ordersToProcess State.initial).2.trace ++
                [.browserClose, .jtCallback cfg.appsScriptUrl
                  { action := "jtCallback"
                    results :=
                      { success := s.results.success ++
                          (processOrders cfg w 0 s.ordersToProcess State.initial).2.results.success
                        failed := s.results.failed ++
                          (processOrders cfg w 0 s.ordersToProcess State.initial).2.results.failed
                        total := s.ordersToProcess.length }
                    timestamp := w.now }] ∧
              (mainDispatch cfg w s).2.results =
                { success := s.results.success ++
                    (processOrders cfg w 0 s.ordersToProcess State.initial).2.results.success
                  failed := s.results.failed ++
                    (processOrders cfg w 0 s.ordersToProcess State.initial).2.results.failed
                  total := s.ordersToProcess.length })))) := by
  obtain ⟨c, succ, fl, tr, con, hc, hrun⟩ := processOrders_shape cfg w s.ordersToProcess 0
  have hS := sendResultsToBackend_run cfg w
  refine ⟨?_, ?_⟩
  · intro h
    simp [mainDispatch, Js.bind, h]
  · intro h
    have hlen : ¬ s.ordersToProcess.length = 0 := by simpa using h
    refine ⟨?_, ?_⟩
    · intro m hl
      simp [mainDispatch, Js.bind, h, hl]
    · intro hl
      simp only [hrun State.initial]
      refine ⟨?_, ?_⟩
      · intro m hm
        subst hm
        simp [mainDispatch, Js.bind, h, hl, hrun, State.add, State.initial]
      · intro hm
        subst hm
        refine ⟨?_, ?_⟩
        · intro m hb
          simp [mainDispatch, Js.bind, h, hl, hrun, hb, State.add, State.initial]
        · intro hb
          simp only [mainDispatch, Js.bind_run, Js.bind, Js.get_run, hlen, if_false, Js.log_run,
            Js.emit_run, hl, hb, Js.await_ok, hrun, printSummary_eq]
          simp [hS, State.add, State.initial]

theorem run_unfold (cfg : Config) (w : World) (argv : List String) :
    run cfg w argv =
      Js.tryCatch
        (Js.bind (mainFetch cfg w (getArgValue (argv.drop 2) "--orderId")
          ((argv.drop 2).contains "--bulk")) (fun _ => mainDispatch cfg w))
        (fun message => Js.bind (Js.log ("❌ Error: " ++ message)) (fun _ => Js.exit 1))
        startState := rfl

theorem run_of_fetch_normal (cfg : Config) (w : World) (argv : List String)
    (h : (fetched cfg w argv).1 = .normal ()) :
    (run cfg w argv).2.trace = (mainDispatch cfg w (fetched cfg w argv).2).2.trace ∧
    (run cfg w argv).2.results = (mainDispatch cfg w (fetched cfg w argv).2).2.results ∧
    (run cfg w argv).1 =
      (match (mainDispatch cfg w (fetched cfg w argv).2).1 with
        | .throw _ => .exit 1
        | c => c) := by
  rw [run_unfold]
  unfold fetched at h ⊢
  simp only [Js.tryCatch, Js.bind]
  generalize mainFetch cfg w (getArgValue (argv.drop 2) "--orderId")
    ((argv.drop 2).contains "--bulk") startState = F at h ⊢
  rcases F with ⟨c, s1⟩
  simp only at h
  subst h
  rcases hd : mainDispatch cfg w s1 with ⟨c2, s2⟩
  cases c2 <;> simp [hd]

theorem run_of_fetch_throw (cfg : Config) (w : World) (argv : List String) (m : String)
    (h : (fetched cfg w argv).1 = .throw m) :
    (run cfg w argv).2.trace = (fetched cfg w argv).2.trace ∧
    (run cfg w argv).2.results = (fetched cfg w argv).2.results ∧
    (run cfg w argv).1 = .exit 1 := by
  rw [run_unfold]
  unfold fetched at h ⊢
  simp only [Js.tryCatch, Js.bind]
  generalize mainFetch cfg w (getArgValue (argv.drop 2) "--orderId")
    ((argv.drop 2).contains "--bulk") startState = F at h ⊢
  rcases F with ⟨c, s1⟩
  simp only at h
  subst h
  simp

theorem run_of_fetch_exit (cfg : Config) (w : World) (argv : List String) (k : Nat)
    (h : (fetched cfg w argv).1 = .exit k) :
    (run cfg w argv).2.trace = (fetched cfg w argv).2.trace ∧
    (run cfg w argv).2.results = (fetched cfg w argv).2.results ∧
    (run cfg w argv).1 = .exit k := by
  rw [run_unfold]
  unfold fetched at h ⊢
  simp only [Js.tryCatch, Js.bind]
  generalize mainFetch cfg w (getArgValue (argv.drop 2) "--orderId")
    ((argv.drop 2).contains "--bulk") startState = F at h ⊢
  rcases F with ⟨c, s1⟩
  simp only at h
  subst h
  simp

theorem filter_fill (p : Event → Bool) (hp : ∀ l v, p (.fillField l v) = false)
    (ftr : List Event) (hf : ∀ e ∈ ftr, ∃ l v, e = Event.fillField l v) : ftr.filter p = [] := by
  rw [List.filter_eq_nil_iff]
  intro e he
  obtain ⟨l, v, rfl⟩ := hf e he
  simp [hp]

theorem filter_shot (p : Event → Bool) (hp : p .screenshot = false) (shot : List Event)
    (h : shot = [] ∨ shot = [Event.screenshot]) : shot.filter p = [] := by
  rcases h with rfl | rfl <;> simp [hp]

theorem processOrder_local (cfg : Config) (o : OrderOutcomes) (order : Option Order) :
    Js.Local (processOrder cfg o order) := by
  obtain ⟨c, succ, fl, tr, con, -, h⟩ := processOrder_shape cfg o order
  intro s
  rw [h s, h State.initial]
  simp [State.extend, State.add, State.initial]

theorem processOrder_event_mem (cfg : Config) (o : OrderOutcomes) (order : Option Order) :
    Event.processOrder (order.map fun r => r.OrderID) ∈
      (processOrder cfg o order State.initial).2.trace := by
  obtain ⟨c, succ, fl, tr, con, -, h⟩ := processOrder_shape cfg o order
  obtain ⟨-, -, -, e3⟩ := processOrder_initial h
  rw [e3]
  rcases processOrder_inv cfg o order c succ fl tr con h with
    ⟨hx, -, -, -, ht⟩ | ⟨r, m, hx, -, -, -, -, ht⟩ | ⟨r, hx, -, -, ftr, -, hcase⟩
  · subst hx ht; simp
  · subst hx ht; simp
  · subst hx
    rcases hcase with ⟨t, shot, -, -, -, -, -, -, ht⟩ | ⟨m, -, -, -, ht⟩ |
      ⟨m, -, -, -, -, ht⟩ | ⟨m, shot, -, -, -, -, -, -, ht⟩ <;> subst ht <;> simp

theorem matchTrackingHere_ne_nil (l g : List Char) (h : matchTrackingHere l = some g) :
    g ≠ [] := by
  unfold matchTrackingHere at h
  split at h
  · cases h
  · cases h
  · split at h
    · split at h
      · cases h
      · cases h; simp
    · cases h

theorem matchTrackingChars_ne_nil (l g : List Char) (h : matchTrackingChars l = some g) :
    g ≠ [] := by
  induction l with
  | nil => simp [matchTrackingChars] at h
  | cons c cs ih =>
    unfold matchTrackingChars at h
    split at h
    · next g2 hg =>
      cases h
      exact matchTrackingHere_ne_nil _ _ hg
    · exact ih h

theorem trackingMatch_ne_empty (url t : String) (h : trackingMatch url = some t) : t ≠ "" := by
  unfold trackingMatch at h
  rcases hm : matchTrackingChars url.data with _ | g
  · simp [hm] at h
  · simp only [hm, Option.map_some', Option.some.injEq] at h
    have hg := matchTrackingChars_ne_nil _ _ hm
    intro ht
    rw [← h] at ht
    have : g = [] := by
      have := congrArg String.data ht
      simpa using this
    exact hg this

/-- Where the value returned by `submitBooking` comes from. -/
theorem submitBooking_value (o : OrderOutcomes) (t : String)
    (h : (submitBooking o State.initial).1 = .normal t) :
    (∃ text, o.trackingElement = .present (.ok (some text)) ∧ t = trim text) ∨
    (o.trackingElement = .absent ∧ trackingMatch o.urlAfterSubmit = some t ∧ t ≠ "") ∨
    (o.trackingElement = .absent ∧ trackingMatch o.urlAfterSubmit = none ∧
      o.screenshot = .ok () ∧ t = "TRACKING-PENDING") := by
  rcases hs : o.submitCalls with m | u
  · simp [submitBooking, Js.bind, hs] at h
  rcases ht : o.trackingElement with m | _ | (m | _ | text)
  · simp [submitBooking, Js.bind, hs, ht] at h
  · rcases hm : trackingMatch o.urlAfterSubmit with _ | g
    · rcases hshot : o.screenshot with m | u
      · simp [submitBooking, Js.bind, hs, ht, hm, hshot] at h
      · simp [submitBooking, Js.bind, hs, ht, hm, hshot] at h
        exact Or.inr (Or.inr ⟨rfl, rfl, rfl, h.symm⟩)
    · simp [submitBooking, Js.bind, hs, ht, hm] at h
      subst h
      exact Or.inr (Or.inl ⟨rfl, rfl, trackingMatch_ne_empty _ _ hm⟩)
  · simp [submitBooking, Js.bind, hs, ht] at h
  · simp [submitBooking, Js.bind, hs, ht] at h
  · simp [submitBooking, Js.bind, hs, ht] at h
    exact Or.inl ⟨text, rfl, h.symm⟩

/-- Who is recorded and which update requests are sent by one call of `processOrder`. -/
theorem processOrder_ids (cfg : Config) (o : OrderOutcomes) (order : Option Order)
    (c : Completion Unit) (succ : List SuccessEntry) (fl : List FailedEntry) (tr : List Event)
    (con : List String) (h : ∀ s, processOrder cfg o order s = (c, s.add succ fl tr con)) :
    (∀ e ∈ fl, ∃ r, order = some r ∧ e.orderId = r.OrderID) ∧
    (∀ url req, Event.updateOrderStatus url req ∈ tr → fl = [] ∧
      ∃ r t, order = some r ∧ url = cfg.appsScriptUrl ∧ req = updateRequest cfg r.OrderID t ∧
        succ = [⟨r.OrderID, t⟩] ∧ (submitBooking o State.initial).1 = .normal t) ∧
    (∀ e ∈ succ, ∃ r, order = some r ∧ e.orderId = r.OrderID ∧
      (submitBooking o State.initial).1 = .normal e.trackingNumber ∧
      tr.filter Event.isUpdate =
        [.updateOrderStatus cfg.appsScriptUrl (updateRequest cfg r.OrderID e.trackingNumber)]) ∧
    (succ = [] → tr.filter Event.isUpdate = []) := by
  rcases processOrder_inv cfg o order c succ fl tr con h with
    ⟨hx, -, h1, h2, ht⟩ | ⟨r, m, hx, -, -, h1, h2, ht⟩ | ⟨r, hx, -, -, ftr, hf, hcase⟩
  · subst h1 h2 ht; simp [Event.isUpdate]
  · subst h1 h2 ht; simp [Event.isUpdate]
  · have hff := filter_fill Event.isUpdate (by intro l v; rfl) ftr hf
    have hmem : ∀ url req, Event.updateOrderStatus url req ∉ ftr := by
      intro url req hm
      obtain ⟨l, v, hlv⟩ := hf _ hm
      cases hlv
    rcases hcase with ⟨t, shot, -, -, a3, hshot, h1, h2, ht⟩ | ⟨m, -, h1, h2, ht⟩ |
      ⟨m, -, -, h1, h2, ht⟩ | ⟨m, shot, -, -, -, hshot, h1, h2, ht⟩
    · have hsf := filter_shot Event.isUpdate rfl shot hshot
      have hsm : ∀ url req, Event.updateOrderStatus url req ∉ shot := by
        intro url req hm
        rcases hshot with rfl | rfl <;> simp at hm
      subst h1 h2 ht
      refine ⟨by simp, ?_, ?_, by simp⟩
      · intro url req hm
        simp only [List.mem_append, List.mem_cons, List.mem_singleton, hmem, hsm, reduceCtorEq,
          Event.updateOrderStatus.injEq, false_or, or_false, List.not_mem_nil] at hm
        exact ⟨rfl, r, t, hx, hm.1, hm.2, rfl, a3⟩
      · intro e he
        simp only [List.mem_singleton] at he
        subst he
        exact ⟨r, hx, rfl, a3, by simp [List.filter_append, hff, hsf, Event.isUpdate]⟩
    · subst h1 h2 ht
      refine ⟨by intro e he; simp at he; exact ⟨r, hx, by rw [he]⟩, ?_, by simp,
        by simp [Event.isUpdate]⟩
      intro url req hm
      simp at hm
    · subst h1 h2 ht
      refine ⟨by intro e he; simp at he; exact ⟨r, hx, by rw [he]⟩, ?_, by simp,
        by simp [Event.isUpdate]⟩
      intro url req hm
      simp at hm
    · have hsf := filter_shot Event.isUpdate rfl shot hshot
      have hsm : ∀ url req, Event.updateOrderStatus url req ∉ shot := by
        intro url req hm
        rcases hshot with rfl | rfl <;> simp at hm
      subst h1 h2 ht
      refine ⟨by intro e he; simp at he; exact ⟨r, hx, by rw [he]⟩, ?_, by simp,
        by simp [List.filter_append, hff, hsf, Event.isUpdate]⟩
      intro url req hm
      simp [hmem, hsm] at hm

/-- A call of `processOrder` whose page opens and whose login, form opening and submit work. -/
theorem processOrder_success (cfg : Config) (o : OrderOutcomes) (r : Order) (t : String)
    (hnp : o.newPage = .ok ()) (hl : (loginToJT cfg o State.initial).1 = .normal ())
    (ho : (openBookingForm cfg o State.initial).1 = .normal ())
    (hsub : (submitBooking o State.initial).1 = .normal t) :
    ∃ tr con, tr.filter Event.isUpdate =
        [.updateOrderStatus cfg.appsScriptUrl (updateRequest cfg r.OrderID t)] ∧
      Event.submit ∈ tr ∧
      ∀ s, processOrder cfg o (some r) s =
        ((Js.await o.pageClose State.initial).1, s.add [⟨r.OrderID, t⟩] [] tr con) := by
  obtain ⟨ftr, hf, hcase⟩ := processOrder_cases cfg o r hnp
  have hff := filter_fill Event.isUpdate (by intro l v; rfl) ftr hf
  rcases hcase with ⟨t2, shot, con, -, -, a3, hshot, h⟩ | ⟨m, con, a1, h⟩ |
    ⟨m, con, -, a2, h⟩ | ⟨m, shot, con, -, -, a3, hshot, h⟩
  · have hsf := filter_shot Event.isUpdate rfl shot hshot
    rw [hsub] at a3
    cases a3
    exact ⟨_, con, by simp [List.filter_append, hff, hsf, Event.isUpdate], by simp, h⟩
  · rw [hl] at a1; cases a1
  · rw [ho] at a2; cases a2
  · rw [hsub] at a3; cases a3

/-- A call of `processOrder` whose page opens and in which a portal step throws. -/
theorem processOrder_failure (cfg : Config) (o : OrderOutcomes) (r : Order) (m : String)
    (hnp : o.newPage = .ok ()) (hstep : stepThrows cfg o m) :
    ∃ tr con, tr.filter Event.isUpdate = [] ∧
      ∀ s, processOrder cfg o (some r) s =
        ((Js.await o.pageClose State.initial).1, s.add [] [⟨r.OrderID, m⟩] tr con) := by
  obtain ⟨ftr, hf, hcase⟩ := processOrder_cases cfg o r hnp
  have hff := filter_fill Event.isUpdate (by intro l v; rfl) ftr hf
  rcases hcase with ⟨t2, shot, con, a1, a2, a3, hshot, h⟩ | ⟨m2, con, a1, h⟩ |
    ⟨m2, con, a1, a2, h⟩ | ⟨m2, shot, con, a1, a2, a3, hshot, h⟩
  · rcases hstep with b1 | ⟨b1, b2⟩ | ⟨b1, b2, b3⟩ <;> simp_all
  · have : m2 = m := by
      rcases hstep with b1 | ⟨b1, b2⟩ | ⟨b1, b2, b3⟩ <;> simp_all
    subst this
    exact ⟨_, con, by simp [Event.isUpdate], h⟩
  · have : m2 = m := by
      rcases hstep with b1 | ⟨b1, b2⟩ | ⟨b1, b2, b3⟩ <;> simp_all
    subst this
    exact ⟨_, con, by simp [Event.isUpdate], h⟩
  · have hsf := filter_shot Event.isUpdate rfl shot hshot
    have : m2 = m := by
      rcases hstep with b1 | ⟨b1, b2⟩ | ⟨b1, b2, b3⟩ <;> simp_all
    subst this
    exact ⟨_, con, by simp [List.filter_append, hff, hsf, Event.isUpdate], h⟩

/-- What the fetch leaves behind when it ends normally: untouched results and a trace of
exactly one request, a `get`. -/
theorem fetched_facts (cfg : Config) (w : World) (argv : List String)
    (h : (fetched cfg w argv).1 = .normal ()) :
    (fetched cfg w argv).2.results = State.initial.results ∧
    ∃ url params, (fetched cfg w argv).2.trace = [.get url params] := by
  have hm := mainFetch_run cfg w (getArgValue (argv.drop 2) "--orderId")
    ((argv.drop 2).contains "--bulk") startState
  unfold fetched at h ⊢
  obtain ⟨hres, hcase⟩ := hm
  refine ⟨by rw [hres]; rfl, ?_⟩
  rcases hcase with ⟨he, -⟩ | ⟨-, ht, -⟩ | ⟨-, -, ht, -⟩
  · rw [h] at he; cases he
  · exact ⟨_, _, by rw [ht]; rfl⟩
  · exact ⟨_, _, by rw [ht]; rfl⟩

/-- The path of `main` on which nothing but portal steps fails: the fetch gives a non-empty
list, the browser starts, the loop runs to completion and the browser closes. -/
theorem run_complete (cfg : Config) (w : World) (argv : List String)
    (orders : List (Option Order)) (hf : Fetched cfg w argv orders) (hne : orders ≠ [])
    (hl : w.launch = .ok ()) (hloop : (processOrders cfg w 0 orders State.initial).1 = .normal ())
    (hb : w.browserClose = .ok ()) :
    (run cfg w argv).1 = .normal () ∧
    (run cfg w argv).2.results =
      { success := (processOrders cfg w 0 orders State.initial).2.results.success
        failed := (processOrders cfg w 0 orders State.initial).2.results.failed
        total := orders.length } ∧
    ∃ url params, (run cfg w argv).2.trace =
      [.get url params, .launch] ++ (processOrders cfg w 0 orders State.initial).2.trace ++
        [.browserClose, .jtCallback cfg.appsScriptUrl
          { action := "jtCallback"
            results :=
              { success := (processOrders cfg w 0 orders State.initial).2.results.success
                failed := (processOrders cfg w 0 orders State.initial).2.results.failed
                total := orders.length }
            timestamp := w.now }] := by
  obtain ⟨hfn, hfo⟩ := hf
  obtain ⟨h1, h2, h3⟩ := run_of_fetch_normal cfg w argv hfn
  obtain ⟨hres, url, params, htr⟩ := fetched_facts cfg w argv hfn
  have hd := (mainDispatch_run cfg w (fetched cfg w argv).2).2 (by rw [hfo]; exact hne)
  rw [hfo] at hd
  obtain ⟨d1, d2⟩ := (hd.2 hl).2 hloop
  obtain ⟨e1, e2, e3⟩ := d2 hb
  rw [hres] at e3
  refine ⟨by rw [h3, e1], by rw [h2, e3]; simp [State.initial, hfo], url, params, ?_⟩
  rw [h1, e2, htr, hres]
  simp [State.initial]

theorem processOrder_no_callback (cfg : Config) (o : OrderOutcomes) (order : Option Order) :
    (processOrder cfg o order State.initial).2.trace.filter Event.isCallback = [] := by
  obtain ⟨c, succ, fl, tr, con, -, h⟩ := processOrder_shape cfg o order
  obtain ⟨-, -, -, e3⟩ := processOrder_initial h
  rw [e3]
  rcases processOrder_inv cfg o order c succ fl tr con h with
    ⟨-, -, -, -, ht⟩ | ⟨r, m, -, -, -, -, -, ht⟩ | ⟨r, -, -, -, ftr, hf, hcase⟩
  · subst ht; simp [Event.isCallback]
  · subst ht; simp [Event.isCallback]
  · have hff := filter_fill Event.isCallback (by intro l v; rfl) ftr hf
    rcases hcase with ⟨t, shot, -, -, -, hshot, -, -, ht⟩ | ⟨m, -, -, -, ht⟩ |
      ⟨m, -, -, -, -, ht⟩ | ⟨m, shot, -, -, -, hshot, -, -, ht⟩
    · have hsf := filter_shot Event.isCallback rfl shot hshot
      subst ht; simp [List.filter_append, hff, hsf, Event.isCallback]
    · subst ht; simp [Event.isCallback]
    · subst ht; simp [Event.isCallback]
    · have hsf := filter_shot Event.isCallback rfl shot hshot
      subst ht; simp [List.filter_append, hff, hsf, Event.isCallback]

theorem perOrder_filter_nil (cfg : Config) (w : World) (p : Event → Bool)
    (hp : ∀ (o : OrderOutcomes) (order : Option Order),
      (processOrder cfg o order State.initial).2.trace.filter p = []) :
    ∀ (l : List (Option Order)) (i : Nat),
      (perOrder cfg w (fun d => d.trace) i l).filter p = [] := by
  intro l
  induction l with
  | nil => intro i; simp [perOrder]
  | cons o rest ih => intro i; simp [perOrder, List.filter_append, hp, ih]

theorem run_eq_fetched_of_exit (cfg : Config) (w : World) (argv : List String) (k : Nat)
    (h : (fetched cfg w argv).1 = .exit k) : run cfg w argv = fetched cfg w argv := by
  rw [run_unfold]
  unfold fetched at h ⊢
  simp only [Js.tryCatch, Js.bind]
  generalize mainFetch cfg w (getArgValue (argv.drop 2) "--orderId")
    ((argv.drop 2).contains "--bulk") startState = F at h ⊢
  rcases F with ⟨c, s1⟩
  simp only at h
  subst h
  simp

/-- The second part of `main` only appends to the trace. -/
theorem mainDispatch_trace (cfg : Config) (w : World) (s : State) :
    ∃ tr, (mainDispatch cfg w s).2.trace = s.trace ++ tr := by
  obtain ⟨h1, h2⟩ := mainDispatch_run cfg w s
  by_cases he : s.ordersToProcess = []
  · exact ⟨[], by rw [(h1 he).2.1]; simp⟩
  · obtain ⟨a1, a2⟩ := h2 he
    rcases hl : w.launch with m | u
    · exact ⟨_, (a1 m hl).2.1⟩
    · obtain ⟨b1, b2⟩ := a2 hl
      obtain ⟨c, succ, fl, tr, con, hc, hrun⟩ := processOrders_shape cfg w s.ordersToProcess 0
      have hc1 : (processOrders cfg w 0 s.ordersToProcess State.initial).1 = c := by
        rw [hrun]
      cases c with
      | exit k => exact absurd rfl (hc k)
      | throw m => exact ⟨_, by rw [(b1 m hc1).2.1, List.append_assoc]⟩
      | normal u =>
        obtain ⟨d1, d2⟩ := b2 hc1
        rcases hb : w.browserClose with m | u
        · exact ⟨_, by rw [(d1 m hb).2, List.append_assoc, List.append_assoc]⟩
        · exact ⟨_, by rw [(d2 hb).2.1, List.append_assoc, List.append_assoc]⟩

/-- With a truthy `--orderId` value the first action of the run is the `getOrder` request. -/
theorem run_trace_single (cfg : Config) (w : World) (argv : List String)
    (h : (getArgValue (argv.drop 2) "--orderId").truthy = true) :
    ∃ rest, (run cfg w argv).2.trace =
      .get cfg.appsScriptUrl
        [("action", "getOrder"), ("orderId", (getArgValue (argv.drop 2) "--orderId").text)] ::
        rest := by
  have hm := (mainFetch_run cfg w (getArgValue (argv.drop 2) "--orderId")
    ((argv.drop 2).contains "--bulk") startState).2
  have htr : (fetched cfg w argv).2.trace = [.get cfg.appsScriptUrl
      [("action", "getOrder"), ("orderId", (getArgValue (argv.drop 2) "--orderId").text)]] ∧
      ((∃ m, (fetched cfg w argv).1 = .throw m) ∨ (fetched cfg w argv).1 = .normal ()) := by
    unfold fetched
    rcases hm with ⟨-, hx, -⟩ | ⟨-, htr, hres⟩ | ⟨hx, -⟩
    · rw [h] at hx; cases hx
    · refine ⟨by rw [htr]; rfl, ?_⟩
      rcases hres with ⟨m, -, hc⟩ | ⟨d, -, hc, -⟩
      · exact Or.inl ⟨m, hc⟩
      · exact Or.inr hc
    · rw [h] at hx; cases hx
  obtain ⟨ht, hc⟩ := htr
  rcases hc with ⟨m, hc⟩ | hc
  · exact ⟨[], by rw [(run_of_fetch_throw cfg w argv m hc).1, ht]⟩
  · obtain ⟨tr, htr2⟩ := mainDispatch_trace cfg w (fetched cfg w argv).2
    exact ⟨tr, by rw [(run_of_fetch_normal cfg w argv hc).1, htr2, ht]; rfl⟩

/-- Without a truthy `--orderId` value and with `--bulk` the first action of the run is the
`getOrders` request for the orders that are ready to ship. -/
theorem run_trace_bulk (cfg : Config) (w : World) (argv : List String)
    (h : (getArgValue (argv.drop 2) "--orderId").truthy = false)
    (hb : (argv.drop 2).contains "--bulk" = true) :
    ∃ rest, (run cfg w argv).2.trace =
      .get cfg.appsScriptUrl [("action", "getOrders"), ("shippingStatus", "Ready to Ship")] ::
        rest := by
  have hm := (mainFetch_run cfg w (getArgValue (argv.drop 2) "--orderId")
    ((argv.drop 2).contains "--bulk") startState).2
  have htr : (fetched cfg w argv).2.trace = [.get cfg.appsScriptUrl
      [("action", "getOrders"), ("shippingStatus", "Ready to Ship")]] ∧
      ((∃ m, (fetched cfg w argv).1 = .throw m) ∨ (fetched cfg w argv).1 = .normal ()) := by
    unfold fetched
    rcases hm with ⟨-, -, hx, -⟩ | ⟨hx, -⟩ | ⟨-, -, htr, hres⟩
    · rw [hb] at hx; cases hx
    · rw [h] at hx; cases hx
    · refine ⟨by rw [htr]; rfl, ?_⟩
      rcases hres with ⟨m, -, hc⟩ | ⟨d, -, hc, -⟩
      · exact Or.inl ⟨m, hc⟩
      · exact Or.inr hc
  obtain ⟨ht, hc⟩ := htr
  rcases hc with ⟨m, hc⟩ | hc
  · exact ⟨[], by rw [(run_of_fetch_throw cfg w argv m hc).1, ht]⟩
  · obtain ⟨tr, htr2⟩ := mainDispatch_trace cfg w (fetched cfg w argv).2
    exact ⟨tr, by rw [(run_of_fetch_normal cfg w argv hc).1, htr2, ht]; rfl⟩

/-- The loop runs to completion when every record is defined and every page opens and
closes. -/
theorem processOrders_normal (cfg : Config) (w : World) :
    ∀ (l : List (Option Order)) (i : Nat),
      (∀ j order, l[j]? = some order → order ≠ none ∧ (w.outcomes (i + j)).newPage = .ok () ∧
        (w.outcomes (i + j)).pageClose = .ok ()) →
      ∀ s, (processOrders cfg w i l s).1 = .normal () := by
  intro l
  induction l with
  | nil => intro i _ s; simp [processOrders]
  | cons order rest ih =>
    intro i h s
    obtain ⟨h1, h2, h3⟩ := h 0 order (by simp)
    rw [Nat.add_zero] at h2 h3
    cases order with
    | none => exact absurd rfl h1
    | some r =>
      obtain ⟨ftr, -, hcase⟩ := processOrder_cases cfg (w.outcomes i) r h2
      have hrest : ∀ s, (processOrders cfg w (i + 1) rest s).1 = .normal () := by
        apply ih
        intro j o2 hj
        have := h (j + 1) o2 (by simpa using hj)
        rwa [Nat.add_right_comm i 1 j]
      rcases hcase with ⟨t, shot, con, -, -, -, -, e⟩ | ⟨m, con, -, e⟩ | ⟨m, con, -, -, e⟩ |
        ⟨m, shot, con, -, -, -, -, e⟩ <;>
      simp [processOrders, e, h3, hrest]

theorem splitChars_no_sep (sep : Char) (l : List Char) (h : sep ∉ l) :
    splitChars sep l = [l] := by
  induction l with
  | nil => rfl
  | cons c cs ih =>
    have hc : ¬ c = sep := by
      intro hcs
      exact h (by simp [hcs])
    have hcs : sep ∉ cs := fun hm => h (List.mem_cons_of_mem _ hm)
    simp [splitChars, hc, ih hcs]

/-- `getArgValue` on `--orderId=v` for a value without `=`. -/
theorem getArgValue_orderId (args : List String) (v : String) (hv : '=' ∉ v.data)
    (hfind : args.find? (fun a => startsWith a "--orderId") = some ("--orderId=" ++ v)) :
    getArgValue args "--orderId" = .str v := by
  have hd : ("--orderId=" ++ v).data =
      ['-', '-', 'o', 'r', 'd', 'e', 'r', 'I', 'd', '='] ++ v.data := by
    rw [String.data_append]
  have hne : ¬ ("--orderId=" ++ v) = "" := by
    intro h
    have := congrArg String.data h
    rw [hd] at this
    simp at this
  have hsplit : split ("--orderId=" ++ v) '=' = ["--orderId", v] := by
    unfold split
    rw [hd]
    simp [splitChars, splitChars_no_sep _ _ hv]
  unfold getArgValue
  rw [hfind]
  simp [hne, hsplit]

/-- The entries one call of `processOrder` records: at most one success and at most one
failure, both for the ID of the order. -/
theorem processOrder_entries (cfg : Config) (o : OrderOutcomes) (order : Option Order)
    (c : Completion Unit) (succ : List SuccessEntry) (fl : List FailedEntry) (tr : List Event)
    (con : List String) (h : ∀ s, processOrder cfg o order s = (c, s.add succ fl tr con)) :
    (succ.map (fun e => e.orderId)).Sublist (orderIds [order]) ∧
    (fl.map (fun e => e.orderId)).Sublist (orderIds [order]) := by
  rcases processOrder_inv cfg o order c succ fl tr con h with
    ⟨-, -, h1, h2, -⟩ | ⟨r, m, -, -, -, h1, h2, -⟩ | ⟨r, hx, -, -, ftr, -, hcase⟩
  · subst h1 h2; simp
  · subst h1 h2; simp
  · subst hx
    rcases hcase with ⟨t, shot, -, -, -, -, h1, h2, -⟩ | ⟨m, -, h1, h2, -⟩ |
      ⟨m, -, -, h1, h2, -⟩ | ⟨m, shot, -, -, -, -, h1, h2, -⟩ <;>
    subst h1 h2 <;> simp [orderIds]

theorem orderIds_cons (order : Option Order) (rest : List (Option Order)) :
    orderIds (order :: rest) = orderIds [order] ++ orderIds rest := by
  cases order <;> simp [orderIds]

/-- The completion and the recorded entries of `processOrder` are the same for two outcomes
that agree on the page, on the login, on the opening of the form and on the submit. -/
theorem processOrder_results_congr (cfg : Config) (o o2 : OrderOutcomes)
    (order : Option Order) (s : State) (hn : o2.newPage = o.newPage)
    (hp : o2.pageClose = o.pageClose) (e1 : loginToJT cfg o2 = loginToJT cfg o)
    (e2 : openBookingForm cfg o2 = openBookingForm cfg o)
    (e3 : submitBooking o2 = submitBooking o) :
    (processOrder cfg o2 order s).1 = (processOrder cfg o order s).1 ∧
    (processOrder cfg o2 order s).2.results = (processOrder cfg o order s).2.results := by
  cases order with
  | none => rw [processOrder_none, processOrder_none]; exact ⟨rfl, rfl⟩
  | some r =>
    rcases hnp : o.newPage with m | u
    · obtain ⟨con, h⟩ := processOrder_newPage_error cfg o r m hnp
      obtain ⟨con2, h2⟩ := processOrder_newPage_error cfg o2 r m (by rw [hn, hnp])
      rw [h, h2]
      exact ⟨rfl, rfl⟩
    · obtain ⟨ftr, -, hcase⟩ := processOrder_cases cfg o r hnp
      obtain ⟨ftr2, -, hcase2⟩ := processOrder_cases cfg o2 r (by rw [hn, hnp])
      rw [e1, e2, e3, hp] at hcase2
      rcases hcase with ⟨t, shot, con, a1, a2, a3, -, h⟩ | ⟨m, con, a1, h⟩ |
        ⟨m, con, a1, a2, h⟩ | ⟨m, shot, con, a1, a2, a3, -, h⟩ <;>
      rcases hcase2 with ⟨t2, shot2, con2, b1, b2, b3, -, h2⟩ | ⟨m2, con2, b1, h2⟩ |
        ⟨m2, con2, b1, b2, h2⟩ | ⟨m2, shot2, con2, b1, b2, b3, -, h2⟩ <;>
      first
        | (rw [a1] at b1; cases b1; rw [a2] at b2; cases b2; rw [a3] at b3; cases b3
           rw [h, h2]; exact ⟨rfl, rfl⟩)
        | (rw [a1] at b1; cases b1; rw [a2] at b2; cases b2; rw [h, h2]; exact ⟨rfl, rfl⟩)
        | (rw [a1] at b1; cases b1; rw [h, h2]; exact ⟨rfl, rfl⟩)
        | (rw [a1] at b1; cases b1; rw [a2] at b2; cases b2; rw [a3] at b3; cases b3)
        | (rw [a1] at b1; cases b1; rw [a2] at b2; cases b2)
        | (rw [a1] at b1; cases b1)

/-! ### The storefront and the admin console -/

/-- `handleError` throws for every error object, and what it throws is a plain `Error`. -/
theorem handleError_throws (e : ApiFailure) :
    handleError e = .error ⟨"Error",
      match e.response with
      | some dataError => orDefault dataError "API request failed"
      | none =>
        if e.request then "Network error - please check your connection" else e.message⟩ := by
  unfold handleError
  cases e.response with
  | some d => rfl
  | none => cases e.request <;> rfl

/-- The `catch` block of an operation of `api.js` never returns. -/
theorem afterCatch_threw (α : Type) (e : ApiFailure) :
    ∃ m, (afterCatch e : ApiResult α) = .threw ⟨"Error", m⟩ ∧
      (∀ d, e.response = some d → m = orDefault d "API request failed") ∧
      (e.response = none → e.request = true →
        m = "Network error - please check your connection") ∧
      (e.response = none → e.request = false → m = e.message) := by
  refine ⟨_, by unfold afterCatch; rw [handleError_throws], ?_, ?_, ?_⟩
  · intro d h; simp [h]
  · intro h1 h2; simp [h1, h2]
  · intro h1 h2; simp [h1, h2]

/-- Splitting at the first separator. -/
theorem splitChars_append (sep : Char) (a b : List Char) (h : sep ∉ a) :
    splitChars sep (a ++ sep :: b) = a :: splitChars sep b := by
  induction a with
  | nil => simp [splitChars]
  | cons c cs ih =>
    have hc : ¬ c = sep := by
      intro hcs
      exact h (by simp [hcs])
    have hcs : sep ∉ cs := fun hm => h (List.mem_cons_of_mem _ hm)
    simp [splitChars, hc, ih hcs]

/-- The first piece of a split is the text before the first separator. -/
theorem splitChars_head (sep : Char) (b : List Char) :
    ∃ rest, splitChars sep b = b.takeWhile (fun c => c != sep) :: rest := by
  induction b with
  | nil => exact ⟨[], rfl⟩
  | cons c cs ih =>
    obtain ⟨rest, hr⟩ := ih
    by_cases hc : c = sep
    · exact ⟨splitChars sep cs, by simp [splitChars, hc]⟩
    · exact ⟨rest, by simp [splitChars, hc, hr]⟩

/-- Keeping the newest twenty entries twice is keeping them once. -/
theorem take_cons_take (x : LogEntry) (l : List LogEntry) :
    (x :: l.take 20).take 20 = (x :: l).take 20 := by
  simp [List.take_succ_cons, List.take_take]

/-- The two buttons keep the quantity between 1 and the stock of a product in stock. -/
theorem quantityAfter_button_bounds (product : Product) (quantity : Int) (a : QuantityAction)
    (hs : 1 ≤ product.Stock) (ha : a.isButton = true)
    (hq : 1 ≤ quantity ∧ quantity ≤ product.Stock) :
    1 ≤ quantityAfter product quantity a ∧ quantityAfter product quantity a ≤ product.Stock := by
  cases a with
  | minus =>
    simp only [quantityAfter]
    exact ⟨le_max_left _ _, max_le hs (by omega)⟩
  | plus =>
    simp only [quantityAfter]
    exact ⟨le_min hs (by omega), min_le_left _ _⟩
  | typed v => simp [QuantityAction.isButton] at ha

/-- Every order that `handleSubmit` sends carries the quantity of the form. -/
theorem handleSubmit_createOrder_mem (mayaPublicKey : String) (form : OrderFormState)
    (product : Product) (outcome : Except ApiFailure (Option Reply)) (orderData : OrderData)
    (h : FormEffect.createOrder orderData ∈ handleSubmit mayaPublicKey form product outcome) :
    orderData.quantity = form.quantity := by
  unfold handleSubmit at h
  rcases List.mem_cons.mp h with h | h
  · cases h
    rfl
  · exfalso
    rcases hc : createOrder outcome with v | _ | e
    · rw [hc] at h
      cases v with
      | none => simp at h
      | some reply =>
        by_cases hm : form.paymentMethod = "maya" <;> simp [hm, initMayaCheckout] at h
    · rw [hc] at h
      simp at h
    · rw [hc] at h
      simp at h

/-! ## The claims -/

/-- C1.  When the loop of `main` over `ordersToProcess` runs to completion from empty results,
`results.success.length + results.failed.length` equals the number of orders, and each call of
`processOrder` in it adds exactly one entry to exactly one of the two lists. -/
theorem C1_counts_sum_to_batch_size (cfg : Config) (w : World) (orders : List (Option Order))
    (s : State) (hs : s.results.success = [] ∧ s.results.failed = [])
    (hdone : (processOrders cfg w 0 orders s).1 = .normal ()) :
    (processOrders cfg w 0 orders s).2.results.success.length +
        (processOrders cfg w 0 orders s).2.results.failed.length = orders.length ∧
      ∀ j order, orders[j]? = some order → ∀ t : State,
        ((∃ e, (processOrder cfg (w.outcomes j) order t).2.results.success =
              t.results.success ++ [e] ∧
            (processOrder cfg (w.outcomes j) order t).2.results.failed = t.results.failed) ∨
         (∃ e, (processOrder cfg (w.outcomes j) order t).2.results.failed =
              t.results.failed ++ [e] ∧
            (processOrder cfg (w.outcomes j) order t).2.results.success = t.results.success)) := by
  obtain ⟨c, succ, fl, tr, con, -, hrun, hP⟩ := processOrders_induct cfg w
    (fun i l c succ fl _ => c = .normal () → succ.length + fl.length = l.length ∧
      ∀ j order, l[j]? = some order → ∀ t : State,
        ((∃ e, (processOrder cfg (w.outcomes (i + j)) order t).2.results.success =
              t.results.success ++ [e] ∧
            (processOrder cfg (w.outcomes (i + j)) order t).2.results.failed =
              t.results.failed) ∨
         (∃ e, (processOrder cfg (w.outcomes (i + j)) order t).2.results.failed =
              t.results.failed ++ [e] ∧
            (processOrder cfg (w.outcomes (i + j)) order t).2.results.success =
              t.results.success)))
    (by intro i _; simp)
    (by intro i order rest m succ fl tr con _ hc; cases hc)
    (by
      intro i order rest succ fl tr con c2 succ2 fl2 tr2 h ih hc
      obtain ⟨hlen, hall⟩ := ih hc
      have hone := processOrder_one_entry cfg _ order succ fl tr con h
      refine ⟨?_, ?_⟩
      · rcases hone with ⟨e, h1, h2⟩ | ⟨e, h1, h2⟩ <;> simp [h1, h2] <;> omega
      · intro j o2 hj t
        cases j with
        | zero =>
          simp only [List.getElem?_cons_zero, Option.some.injEq] at hj
          subst hj
          rw [Nat.add_zero, h t]
          rcases hone with ⟨e, h1, h2⟩ | ⟨e, h1, h2⟩
          · exact Or.inl ⟨e, by simp [State.add, h1], by simp [State.add, h2]⟩
          · exact Or.inr ⟨e, by simp [State.add, h2], by simp [State.add, h1]⟩
        | succ j =>
          simp only [List.getElem?_cons_succ] at hj
          have := hall j o2 hj t
          rwa [Nat.add_right_comm i 1 j] at this)
    orders 0
  rw [hrun s] at hdone ⊢
  obtain ⟨hlen, hall⟩ := hP hdone
  refine ⟨?_, ?_⟩
  · simp [State.add, hs.1, hs.2, hlen]
  · intro j order hj t
    simpa using hall j order hj t

/-- C2 (as stated, refuted).  In the batch `ORD-1`, `ORD-2` the login of `ORD-1` throws and
closing its page throws too: `ORD-1` is recorded as failed, but `processOrder` is never called
for `ORD-2` and the run ends with exit code 1. -/
theorem C2_later_order_skipped_when_close_throws :
    (loginToJT sampleConfig (outcomesLoginAndCloseFail 0) State.initial).1 =
        .throw "net::ERR_TIMED_OUT" ∧
      (run sampleConfig (sampleWorld sampleBatch outcomesLoginAndCloseFail)
          ["node", "jt_booking.js", "--bulk"]).2.results.failed =
        [⟨"ORD-1", "net::ERR_TIMED_OUT"⟩] ∧
      Event.processOrder (some "ORD-2") ∉
        (run sampleConfig (sampleWorld sampleBatch outcomesLoginAndCloseFail)
          ["node", "jt_booking.js", "--bulk"]).2.trace ∧
      (run sampleConfig (sampleWorld sampleBatch outcomesLoginAndCloseFail)
          ["node", "jt_booking.js", "--bulk"]).1 = .exit 1 := by
  decide

/-- C2 (amended).  When the loop of `main` runs to completion (no `browser.newPage` or
`page.close` throws and every record is defined): an order for which a portal step (login,
opening of the booking form, submit) throws is recorded in `results.failed` with that step's
message; `processOrder` is called for every order of the batch; and what is recorded is, order
by order, what `processOrder` records for that order alone with its own portal outcomes. -/
theorem C2_step_failure_is_isolated (cfg : Config) (w : World) (orders : List (Option Order))
    (s : State) (hdone : (processOrders cfg w 0 orders s).1 = .normal ()) :
    (∀ i r m, orders[i]? = some (some r) → stepThrows cfg (w.outcomes i) m →
        (⟨r.OrderID, m⟩ : FailedEntry) ∈ (processOrders cfg w 0 orders s).2.results.failed) ∧
    (∀ (j : Nat) (order : Option Order), orders[j]? = some order →
        Event.processOrder (order.map fun r => r.OrderID) ∈
          (processOrders cfg w 0 orders s).2.trace) ∧
    (processOrders cfg w 0 orders s).2.results.success =
        s.results.success ++ perOrder cfg w (fun d => d.results.success) 0 orders ∧
    (processOrders cfg w 0 orders s).2.results.failed =
        s.results.failed ++ perOrder cfg w (fun d => d.results.failed) 0 orders := by
  obtain ⟨h1, h2, h3, -, -, h4⟩ := processOrders_decompose cfg w orders 0 s hdone
  refine ⟨?_, ?_, h1, h2⟩
  · intro i r m hi hstep
    rw [h2]
    refine List.mem_append_right _ (mem_perOrder cfg w _ _ orders 0 i (some r) hi ?_)
    have hn := h4 i (some r) hi
    rw [Nat.zero_add] at hn ⊢
    rw [(processOrder_step_throws cfg _ r m hn hstep).1]
    simp
  · intro j order hj
    rw [h3]
    refine List.mem_append_right _ (mem_perOrder cfg w _ _ orders 0 j order hj ?_)
    rw [Nat.zero_add]
    exact processOrder_event_mem cfg _ order

/-- C2 (amended), at the batch `ORD-1`, `ORD-2` where only the login of `ORD-1` throws. -/
theorem C2_step_failure_is_isolated_witness :
    (processOrders sampleConfig (sampleWorld sampleBatch outcomesLoginFails) 0 sampleBatch
        State.initial).1 = .normal () ∧
      (⟨"ORD-1", "net::ERR_TIMED_OUT"⟩ : FailedEntry) ∈
        (processOrders sampleConfig (sampleWorld sampleBatch outcomesLoginFails) 0 sampleBatch
          State.initial).2.results.failed ∧
      Event.processOrder (some "ORD-2") ∈
        (processOrders sampleConfig (sampleWorld sampleBatch outcomesLoginFails) 0 sampleBatch
          State.initial).2.trace :=
  ⟨by decide,
    (C2_step_failure_is_isolated sampleConfig (sampleWorld sampleBatch outcomesLoginFails)
      sampleBatch State.initial (by decide)).1 0 (sampleOrder "ORD-1" "Ready to Ship")
      "net::ERR_TIMED_OUT" (by decide) (Or.inl (by decide)),
    (C2_step_failure_is_isolated sampleConfig (sampleWorld sampleBatch outcomesLoginFails)
      sampleBatch State.initial (by decide)).2.1 1 (some (sampleOrder "ORD-2" "Ready to Ship"))
      (by decide)⟩

/-- C1, at the batch `ORD-1`, `ORD-2` where the login of `ORD-1` throws. -/
theorem C1_counts_sum_to_batch_size_witness :
    ((State.initial.results.success = [] ∧ State.initial.results.failed = []) ∧
      (processOrders sampleConfig (sampleWorld sampleBatch outcomesLoginFails) 0 sampleBatch
        State.initial).1 = .normal ()) ∧
      (processOrders sampleConfig (sampleWorld sampleBatch outcomesLoginFails) 0 sampleBatch
          State.initial).2.results.success.length +
        (processOrders sampleConfig (sampleWorld sampleBatch outcomesLoginFails) 0 sampleBatch
          State.initial).2.results.failed.length = sampleBatch.length :=
  ⟨⟨by decide, by decide⟩,
    (C1_counts_sum_to_batch_size sampleConfig (sampleWorld sampleBatch outcomesLoginFails)
      sampleBatch State.initial (by decide) (by decide)).1⟩

/-- C3 (as stated, refuted).  The confirmation page of `ORD-1` shows no tracking element and
its URL has no tracking segment; the order is nevertheless marked `Shipped` and recorded as
succeeded, with the placeholder `TRACKING-PENDING`. -/
theorem C3_placeholder_is_marked_shipped :
    trackingMatch portalNoTracking.urlAfterSubmit = none ∧
      (run sampleConfig (sampleWorld [some (sampleOrder "ORD-1" "Ready to Ship")]
          (fun _ => portalNoTracking)) ["node", "jt_booking.js", "--orderId=ORD-1"]).2.results.success
        = [⟨"ORD-1", "TRACKING-PENDING"⟩] ∧
      Event.updateOrderStatus "https://script.example/exec"
          { action := "updateOrderStatus"
            orderId := "ORD-1"
            status := [("ShippingStatus", "Shipped"), ("JNTTracking", "TRACKING-PENDING")]
            token := "https://script.example/exec" } ∈
        (run sampleConfig (sampleWorld [some (sampleOrder "ORD-1" "Ready to Ship")]
          (fun _ => portalNoTracking)) ["node", "jt_booking.js", "--orderId=ORD-1"]).2.trace := by
  decide

/-- C3 (amended).  Every `updateOrderStatus` request that a call of `processOrder` sends has
the status `Shipped` with the value `t` that `submitBooking` returned, and the call records
exactly the success entry of that order with `t`; every success entry carries the value that
`submitBooking` returned.  That value is the trimmed text of the tracking element when the
page has one, else the tracking segment of the URL (not empty), else, when the screenshot
succeeds, the placeholder `TRACKING-PENDING`.  The call appends the same to every state. -/
theorem C3_shipped_carries_submitBooking_value (cfg : Config) (o : OrderOutcomes)
    (order : Option Order) :
    Js.Local (processOrder cfg o order) ∧
    (∀ url req, Event.updateOrderStatus url req ∈
        (processOrder cfg o order State.initial).2.trace →
      ∃ t, (submitBooking o State.initial).1 = .normal t ∧
        req.status = [("ShippingStatus", "Shipped"), ("JNTTracking", t)] ∧
        (processOrder cfg o order State.initial).2.results.success = [⟨req.orderId, t⟩]) ∧
    (∀ e ∈ (processOrder cfg o order State.initial).2.results.success,
      (submitBooking o State.initial).1 = .normal e.trackingNumber) ∧
    (∀ t, (submitBooking o State.initial).1 = .normal t →
      (∃ text, o.trackingElement = .present (.ok (some text)) ∧ t = trim text) ∨
      (o.trackingElement = .absent ∧ trackingMatch o.urlAfterSubmit = some t ∧ t ≠ "") ∨
      (o.trackingElement = .absent ∧ trackingMatch o.urlAfterSubmit = none ∧
        o.screenshot = .ok () ∧ t = "TRACKING-PENDING")) := by
  obtain ⟨c, succ, fl, tr, con, -, h⟩ := processOrder_shape cfg o order
  obtain ⟨-, e1, -, e3⟩ := processOrder_initial h
  obtain ⟨-, h2, h3, -⟩ := processOrder_ids cfg o order c succ fl tr con h
  refine ⟨processOrder_local cfg o order, ?_, ?_, submitBooking_value o⟩
  · intro url req hm
    rw [e3] at hm
    obtain ⟨-, r, t, -, -, hreq, hs, hsub⟩ := h2 url req hm
    rw [e1]
    exact ⟨t, hsub, by rw [hreq]; rfl, by rw [hs, hreq]; rfl⟩
  · intro e he
    rw [e1] at he
    obtain ⟨r, -, -, hsub, -⟩ := h3 e he
    exact hsub

/-- C4.  In a run of the loop over a batch whose order IDs are pairwise distinct, started with
no failed entry and no update request, no `updateOrderStatus` request is sent for the ID of an
order that ends up in `results.failed`, however the loop ends; and a call of `processOrder`
that records a failure has sent no `updateOrderStatus` request at all. -/
theorem C4_failed_orders_get_no_update (cfg : Config) (w : World)
    (orders : List (Option Order)) (s : State)
    (hs : s.results.failed = [] ∧ s.trace.filter Event.isUpdate = [])
    (hid : (orderIds orders).Nodup) :
    (∀ e ∈ (processOrders cfg w 0 orders s).2.results.failed, ∀ url req,
      Event.updateOrderStatus url req ∈ (processOrders cfg w 0 orders s).2.trace →
      req.orderId ≠ e.orderId) ∧
    (∀ (o : OrderOutcomes) (order : Option Order),
      (processOrder cfg o order State.initial).2.results.failed ≠ [] →
      (processOrder cfg o order State.initial).2.trace.filter Event.isUpdate = []) := by
  refine ⟨?_, ?_⟩
  · obtain ⟨c, succ, fl, tr, con, -, hrun, hP⟩ := processOrders_induct cfg w
      (fun _ l _ _ fl tr =>
        (∀ e ∈ fl, e.orderId ∈ orderIds l) ∧
        (∀ url req, Event.updateOrderStatus url req ∈ tr → req.orderId ∈ orderIds l) ∧
        ((orderIds l).Nodup → ∀ e ∈ fl, ∀ url req, Event.updateOrderStatus url req ∈ tr →
          req.orderId ≠ e.orderId))
      (by intro i; simp)
      (by
        intro i order rest m succ fl tr con h
        obtain ⟨h1, h2, -, -⟩ := processOrder_ids cfg _ order _ succ fl tr con h
        refine ⟨?_, ?_, ?_⟩
        · intro e he
          obtain ⟨r, hr, hid⟩ := h1 e he
          subst hr
          simp [orderIds, hid]
        · intro url req hm
          obtain ⟨-, r, t, hr, -, hreq, -, -⟩ := h2 url req hm
          subst hr hreq
          simp [orderIds, updateRequest]
        · intro _ e he url req hm
          obtain ⟨hnil, -⟩ := h2 url req hm
          rw [hnil] at he
          cases he)
      (by
        intro i order rest succ fl tr con c2 succ2 fl2 tr2 h ih
        obtain ⟨h1, h2, -, -⟩ := processOrder_ids cfg _ order _ succ fl tr con h
        obtain ⟨i1, i2, i3⟩ := ih
        have hsub : ∀ x ∈ orderIds rest, x ∈ orderIds (order :: rest) := by
          intro x hx
          cases order <;> simp [orderIds] at hx ⊢ <;> tauto
        refine ⟨?_, ?_, ?_⟩
        · intro e he
          rcases List.mem_append.1 he with he | he
          · obtain ⟨r, hr, hid⟩ := h1 e he
            subst hr
            simp [orderIds, hid]
          · exact hsub _ (i1 e he)
        · intro url req hm
          rcases List.mem_append.1 hm with hm | hm
          · obtain ⟨-, r, t, hr, -, hreq, -, -⟩ := h2 url req hm
            subst hr hreq
            simp [orderIds, updateRequest]
          · exact hsub _ (i2 url req hm)
        · intro hnd e he url req hm
          have hnd2 : (orderIds rest).Nodup := by
            cases order <;> simp [orderIds] at hnd ⊢ <;> tauto
          have hfresh : ∀ r, order = some r → r.OrderID ∉ orderIds rest := by
            intro r hr
            subst hr
            simp only [orderIds, List.filterMap_cons, Option.map_some', List.nodup_cons] at hnd
            exact hnd.1
          rcases List.mem_append.1 he with he | he <;> rcases List.mem_append.1 hm with hm | hm
          · obtain ⟨hnil, -⟩ := h2 url req hm
            rw [hnil] at he
            cases he
          · obtain ⟨r, hr, hid⟩ := h1 e he
            intro heq
            exact hfresh r hr (by rw [← hid, ← heq]; exact i2 url req hm)
          · obtain ⟨-, r, t, hr, -, hreq, -, -⟩ := h2 url req hm
            intro heq
            refine hfresh r hr ?_
            have : req.orderId = r.OrderID := by rw [hreq]; rfl
            rw [← this, heq]
            exact i1 e he
          · exact i3 hnd2 e he url req hm)
      orders 0
    rw [hrun s]
    obtain ⟨-, -, p3⟩ := hP
    have hnone : ∀ url req, Event.updateOrderStatus url req ∉ s.trace := by
      intro url req hm
      have : Event.updateOrderStatus url req ∈ s.trace.filter Event.isUpdate :=
        List.mem_filter.2 ⟨hm, rfl⟩
      rw [hs.2] at this
      cases this
    intro e he url req hm
    simp only [State.add, hs.1, List.nil_append, List.mem_append, hnone, false_or] at he hm
    exact p3 hid e he url req hm
  · intro o order hne
    obtain ⟨c, succ, fl, tr, con, -, h⟩ := processOrder_shape cfg o order
    obtain ⟨-, e1, e2, e3⟩ := processOrder_initial h
    obtain ⟨-, -, h3, h4⟩ := processOrder_ids cfg o order c succ fl tr con h
    rw [e3]
    apply h4
    rw [e2] at hne
    rcases processOrder_inv cfg o order c succ fl tr con h with
      ⟨-, -, h1, -⟩ | ⟨r, m, -, -, -, h1, -⟩ | ⟨r, -, -, -, ftr, -, hcase⟩
    · exact h1
    · exact h1
    · rcases hcase with ⟨t, shot, -, -, -, -, -, h2, -⟩ | ⟨m, -, h1, -⟩ |
        ⟨m, -, -, h1, -⟩ | ⟨m, shot, -, -, -, -, h1, -⟩
      · exact absurd h2 hne
      · exact h1
      · exact h1
      · exact h1

/-- C4, at the batch `ORD-1`, `ORD-2` where the login of `ORD-1` throws. -/
theorem C4_failed_orders_get_no_update_witness :
    ((State.initial.results.failed = [] ∧ State.initial.trace.filter Event.isUpdate = []) ∧
      (orderIds sampleBatch).Nodup) ∧
    ∀ e ∈ (processOrders sampleConfig (sampleWorld sampleBatch outcomesLoginFails) 0 sampleBatch
        State.initial).2.results.failed, ∀ url req,
      Event.updateOrderStatus url req ∈ (processOrders sampleConfig
        (sampleWorld sampleBatch outcomesLoginFails) 0 sampleBatch State.initial).2.trace →
      req.orderId ≠ e.orderId :=
  ⟨⟨by decide, by decide⟩,
    (C4_failed_orders_get_no_update sampleConfig (sampleWorld sampleBatch outcomesLoginFails)
      sampleBatch State.initial (by decide) (by decide)).1⟩

/-- C5 (as stated, refuted).  For `ORD-1`, whose submission returns `JT123456`, the one
`updateOrderStatus` request of the run has no `TrackingNumber` entry in its status: the
tracking number is sent under the key `JNTTracking`. -/
theorem C5_request_has_no_TrackingNumber_key :
    (run sampleConfig (sampleWorld [some (sampleOrder "ORD-1" "Ready to Ship")]
          (fun _ => portalOk "JT123456")) ["node", "jt_booking.js", "--orderId=ORD-1"]).2.trace.filter Event.isUpdate =
        [.updateOrderStatus "https://script.example/exec"
          (updateRequest sampleConfig "ORD-1" "JT123456")] ∧
      (updateRequest sampleConfig "ORD-1" "JT123456").status.lookup "TrackingNumber" = none ∧
      (updateRequest sampleConfig "ORD-1" "JT123456").status.lookup "JNTTracking" =
        some "JT123456" := by
  decide

/-- C5 (amended).  For an order whose page opens and whose login, form opening and submit
work, the submit returning `t`: the call of `processOrder` sends exactly one
`updateOrderStatus` request, for the order's ID, whose status sets `ShippingStatus` to
`Shipped` and `JNTTracking` to `t`, and appends `(OrderID, t)` to `results.success`. -/
theorem C5_success_sends_one_update (cfg : Config) (o : OrderOutcomes) (r : Order) (t : String)
    (s : State) (hnp : o.newPage = .ok ())
    (hl : (loginToJT cfg o State.initial).1 = .normal ())
    (ho : (openBookingForm cfg o State.initial).1 = .normal ())
    (hsub : (submitBooking o State.initial).1 = .normal t) :
    (processOrder cfg o (some r) s).2.trace.filter Event.isUpdate =
        s.trace.filter Event.isUpdate ++
          [.updateOrderStatus cfg.appsScriptUrl
            { action := "updateOrderStatus"
              orderId := r.OrderID
              status := [("ShippingStatus", "Shipped"), ("JNTTracking", t)]
              token := cfg.appsScriptUrl }] ∧
      (processOrder cfg o (some r) s).2.results.success =
        s.results.success ++ [⟨r.OrderID, t⟩] ∧
      (processOrder cfg o (some r) s).2.results.failed = s.results.failed := by
  obtain ⟨tr, con, hfil, -, h⟩ := processOrder_success cfg o r t hnp hl ho hsub
  rw [h s]
  simp [State.add, List.filter_append, hfil, updateRequest]

/-- C5 (amended), at `ORD-1` booked with `JT123456`. -/
theorem C5_success_sends_one_update_witness :
    ((portalOk "JT123456").newPage = .ok () ∧
      (loginToJT sampleConfig (portalOk "JT123456") State.initial).1 = .normal () ∧
      (openBookingForm sampleConfig (portalOk "JT123456") State.initial).1 = .normal () ∧
      (submitBooking (portalOk "JT123456") State.initial).1 = .normal "JT123456") ∧
    (processOrder sampleConfig (portalOk "JT123456")
        (some (sampleOrder "ORD-1" "Ready to Ship")) State.initial).2.results.success =
      State.initial.results.success ++ [⟨"ORD-1", "JT123456"⟩] :=
  ⟨⟨rfl, by decide, by decide, by decide⟩,
    (C5_success_sends_one_update sampleConfig (portalOk "JT123456")
      (sampleOrder "ORD-1" "Ready to Ship") "JT123456" State.initial rfl (by decide)
      (by decide) (by decide)).2.1⟩

/-- C6 (as stated, refuted).  In the batch `ORD-1`, `ORD-2` the portal books `ORD-1` with
`JT123456` and rejects the login for `ORD-2`: the reason recorded for `ORD-2` is the message
of `loginToJT`, `Login failed - check credentials`, not `auth failed`. -/
theorem C6_recorded_reason_is_login_failed :
    (run sampleConfig (sampleWorld sampleBatch outcomesSecondLoginRejected)
          ["node", "jt_booking.js", "--bulk"]).2.results.success = [⟨"ORD-1", "JT123456"⟩] ∧
      (run sampleConfig (sampleWorld sampleBatch outcomesSecondLoginRejected)
          ["node", "jt_booking.js", "--bulk"]).2.results.failed = [⟨"ORD-2", "Login failed - check credentials"⟩] ∧
      (run sampleConfig (sampleWorld sampleBatch outcomesSecondLoginRejected)
          ["node", "jt_booking.js", "--bulk"]).2.results.failed ≠ [⟨"ORD-2", "auth failed"⟩] := by
  decide

/-- C6 (amended).  For a fetched batch of two orders with the IDs `ORD-1` and `ORD-2`, where
the portal yields `JT123456` for the first and `loginToJT` throws `m` for the second (pages
open and close, the browser starts and closes): the run ends normally with
`results.success = [(ORD-1, JT123456)]` and `results.failed = [(ORD-2, m)]`, and exactly one
`updateOrderStatus` request is sent, for `ORD-1`.  When the portal rejects the login (the page
is still a login page) `m` is `Login failed - check credentials`. -/
theorem C6_example_batch (cfg : Config) (w : World) (argv : List String) (r1 r2 : Order)
    (m : String) (hf : Fetched cfg w argv [some r1, some r2])
    (hid : r1.OrderID = "ORD-1" ∧ r2.OrderID = "ORD-2")
    (hw : w.launch = .ok () ∧ w.browserClose = .ok ())
    (h0 : (w.outcomes 0).newPage = .ok () ∧ (w.outcomes 0).pageClose = .ok () ∧
      (loginToJT cfg (w.outcomes 0) State.initial).1 = .normal () ∧
      (openBookingForm cfg (w.outcomes 0) State.initial).1 = .normal () ∧
      (submitBooking (w.outcomes 0) State.initial).1 = .normal "JT123456")
    (h1 : (w.outcomes 1).newPage = .ok () ∧ (w.outcomes 1).pageClose = .ok () ∧
      (loginToJT cfg (w.outcomes 1) State.initial).1 = .throw m) :
    (run cfg w argv).1 = .normal () ∧
      (run cfg w argv).2.results.success = [⟨"ORD-1", "JT123456"⟩] ∧
      (run cfg w argv).2.results.failed = [⟨"ORD-2", m⟩] ∧
      (run cfg w argv).2.trace.filter Event.isUpdate =
        [.updateOrderStatus cfg.appsScriptUrl (updateRequest cfg "ORD-1" "JT123456")] ∧
      ((w.outcomes 1).loginCalls = .ok () →
        includes (w.outcomes 1).urlAfterLogin "login" = true →
        m = "Login failed - check credentials") := by
  obtain ⟨a1, a2, a3, a4, a5⟩ := h0
  obtain ⟨b1, b2, b3⟩ := h1
  obtain ⟨tr0, con0, f0, -, e0⟩ := processOrder_success cfg (w.outcomes 0) r1 _ a1 a3 a4 a5
  obtain ⟨tr1, con1, f1, e1⟩ := processOrder_failure cfg (w.outcomes 1) r2 m b1 (Or.inl b3)
  have hL : processOrders cfg w 0 [some r1, some r2] State.initial =
      (.normal (), State.initial.add [⟨"ORD-1", "JT123456"⟩] [⟨"ORD-2", m⟩] (tr0 ++ tr1)
        (con0 ++ con1)) := by
    simp [processOrders, e0, e1, a2, b2, State.add, State.initial, hid.1, hid.2]
  obtain ⟨c1, c2, url, params, c3⟩ := run_complete cfg w argv _ hf (by simp) hw.1
    (by rw [hL]) hw.2
  rw [hL] at c2 c3
  refine ⟨c1, by rw [c2]; simp [State.add, State.initial],
    by rw [c2]; simp [State.add, State.initial], ?_, ?_⟩
  · rw [c3]
    simp [State.add, State.initial, List.filter_append, f0, f1, Event.isUpdate, hid.1]
  · intro hc hu
    simp [loginToJT, Js.bind, hc, hu] at b3
    exact b3.symm

/-- C6 (amended), at the sample batch with `--bulk`. -/
theorem C6_example_batch_witness :
    (Fetched sampleConfig (sampleWorld sampleBatch outcomesSecondLoginRejected)
        ["node", "jt_booking.js", "--bulk"]
        [some (sampleOrder "ORD-1" "Ready to Ship"), some (sampleOrder "ORD-2" "Ready to Ship")]) ∧
      (run sampleConfig (sampleWorld sampleBatch outcomesSecondLoginRejected)
          ["node", "jt_booking.js", "--bulk"]).2.results.failed = [⟨"ORD-2", "Login failed - check credentials"⟩] :=
  ⟨⟨by decide, by decide⟩,
    (C6_example_batch sampleConfig (sampleWorld sampleBatch outcomesSecondLoginRejected)
      ["node", "jt_booking.js", "--bulk"] (sampleOrder "ORD-1" "Ready to Ship")
      (sampleOrder "ORD-2" "Ready to Ship") "Login failed - check credentials"
      ⟨by decide, by decide⟩ ⟨rfl, rfl⟩ ⟨rfl, rfl⟩
      ⟨rfl, rfl, by decide, by decide, by decide⟩ ⟨rfl, rfl, by decide⟩).2.2.1⟩

/-- C7 (as stated, refuted).  The fetched record of `ORD-1` already has the shipping status
`Shipped`; the run still submits a booking and sends a new `updateOrderStatus` request. -/
theorem C7_shipped_order_is_submitted_again :
    (sampleOrder "ORD-1" "Shipped").ShippingStatus = "Shipped" ∧
      Event.submit ∈ (run sampleConfig (sampleWorld [some (sampleOrder "ORD-1" "Shipped")]
          (fun _ => portalOk "JT777")) ["node", "jt_booking.js", "--orderId=ORD-1"]).2.trace ∧
      Event.updateOrderStatus "https://script.example/exec"
          (updateRequest sampleConfig "ORD-1" "JT777") ∈ (run sampleConfig (sampleWorld [some (sampleOrder "ORD-1" "Shipped")]
          (fun _ => portalOk "JT777")) ["node", "jt_booking.js", "--orderId=ORD-1"]).2.trace := by
  decide

/-- C7 (amended).  `processOrder` does not read the shipping status: the call for a record is
the same whatever its `ShippingStatus`.  So an order that is already `Shipped` and whose portal
steps work is submitted again and a new `updateOrderStatus` request is sent for it. -/
theorem C7_shipping_status_is_not_read (cfg : Config) (o : OrderOutcomes) (r : Order)
    (t : String) (s : State) (hshipped : r.ShippingStatus = "Shipped")
    (hnp : o.newPage = .ok ()) (hl : (loginToJT cfg o State.initial).1 = .normal ())
    (ho : (openBookingForm cfg o State.initial).1 = .normal ())
    (hsub : (submitBooking o State.initial).1 = .normal t) :
    (∀ status, processOrder cfg o (some { r with ShippingStatus := status }) s =
        processOrder cfg o (some r) s) ∧
      Event.submit ∈ (processOrder cfg o (some r) s).2.trace ∧
      Event.updateOrderStatus cfg.appsScriptUrl (updateRequest cfg r.OrderID t) ∈
        (processOrder cfg o (some r) s).2.trace := by
  obtain ⟨tr, con, hfil, hsubmit, h⟩ := processOrder_success cfg o r t hnp hl ho hsub
  refine ⟨fun _ => rfl, ?_, ?_⟩
  · rw [h s]
    simp [State.add, hsubmit]
  · rw [h s]
    have : Event.updateOrderStatus cfg.appsScriptUrl (updateRequest cfg r.OrderID t) ∈
        tr.filter Event.isUpdate := by rw [hfil]; simp
    simp [State.add, (List.mem_filter.1 this).1]

/-- C7 (amended), at `ORD-1` already `Shipped`. -/
theorem C7_shipping_status_is_not_read_witness :
    ((sampleOrder "ORD-1" "Shipped").ShippingStatus = "Shipped" ∧
      (portalOk "JT777").newPage = .ok () ∧
      (loginToJT sampleConfig (portalOk "JT777") State.initial).1 = .normal () ∧
      (openBookingForm sampleConfig (portalOk "JT777") State.initial).1 = .normal () ∧
      (submitBooking (portalOk "JT777") State.initial).1 = .normal "JT777") ∧
    Event.submit ∈ (processOrder sampleConfig (portalOk "JT777")
      (some (sampleOrder "ORD-1" "Shipped")) State.initial).2.trace :=
  ⟨⟨rfl, rfl, by decide, by decide, by decide⟩,
    (C7_shipping_status_is_not_read sampleConfig (portalOk "JT777")
      (sampleOrder "ORD-1" "Shipped") "JT777" State.initial rfl rfl (by decide) (by decide)
      (by decide)).2.1⟩

/-- C8.  If the store request of `fetchOrder` (single-order run) or of `fetchBulkOrders`
(bulk run) throws, `main` exits with code 1 and the only action of the run is that one `get`
request: the browser is not launched, `processOrder` is not called, and no
`updateOrderStatus` or `jtCallback` request is sent. -/
theorem C8_fetch_error_aborts (cfg : Config) (w : World) (argv : List String) (m : String)
    (h : ((getArgValue (argv.drop 2) "--orderId").truthy = true ∧
        w.getOrder (getArgValue (argv.drop 2) "--orderId").text = .error m) ∨
      ((getArgValue (argv.drop 2) "--orderId").truthy = false ∧
        (argv.drop 2).contains "--bulk" = true ∧ w.getOrders = .error m)) :
    (run cfg w argv).1 = .exit 1 ∧
      (∃ url params, (run cfg w argv).2.trace = [.get url params]) ∧
      Event.launch ∉ (run cfg w argv).2.trace ∧
      (∀ id, Event.processOrder id ∉ (run cfg w argv).2.trace) ∧
      (run cfg w argv).2.trace.filter Event.isUpdate = [] ∧
      (run cfg w argv).2.trace.filter Event.isCallback = [] := by
  have hm := mainFetch_run cfg w (getArgValue (argv.drop 2) "--orderId")
    ((argv.drop 2).contains "--bulk") startState
  have hthrow : (fetched cfg w argv).1 = .throw m ∧
      ∃ url params, (fetched cfg w argv).2.trace = [.get url params] := by
    unfold fetched
    obtain ⟨-, hcase⟩ := hm
    rcases h with ⟨ht, hg⟩ | ⟨ht, hb, hg⟩
    · rcases hcase with ⟨-, hx, -⟩ | ⟨-, htr, hres⟩ | ⟨hx, -⟩
      · rw [ht] at hx; cases hx
      · rcases hres with ⟨m2, hg2, hc⟩ | ⟨d, hg2, -⟩
        · rw [hg] at hg2; cases hg2
          exact ⟨hc, _, _, by rw [htr]; rfl⟩
        · rw [hg] at hg2; cases hg2
      · rw [ht] at hx; cases hx
    · rcases hcase with ⟨-, -, hx, -⟩ | ⟨hx, -⟩ | ⟨-, -, htr, hres⟩
      · rw [hb] at hx; cases hx
      · rw [ht] at hx; cases hx
      · rcases hres with ⟨m2, hg2, hc⟩ | ⟨d, hg2, -⟩
        · rw [hg] at hg2; cases hg2
          exact ⟨hc, _, _, by rw [htr]; rfl⟩
        · rw [hg] at hg2; cases hg2
  obtain ⟨hc, url, params, htr⟩ := hthrow
  obtain ⟨r1, -, r3⟩ := run_of_fetch_throw cfg w argv m hc
  rw [htr] at r1
  refine ⟨r3, ⟨url, params, r1⟩, ?_, ?_, ?_, ?_⟩ <;> simp [r1, Event.isUpdate, Event.isCallback]

/-- C8, at a single-order run whose store request times out. -/
theorem C8_fetch_error_aborts_witness :
    ((getArgValue (["node", "jt_booking.js", "--orderId=ORD-1"].drop 2) "--orderId").truthy =
        true ∧
      ({ worldNoRecord with getOrder := fun _ => .error "timeout of 5000ms exceeded" } :
          World).getOrder
        (getArgValue (["node", "jt_booking.js", "--orderId=ORD-1"].drop 2) "--orderId").text =
        .error "timeout of 5000ms exceeded") ∧
    (run sampleConfig
      { worldNoRecord with getOrder := fun _ => .error "timeout of 5000ms exceeded" }
      ["node", "jt_booking.js", "--orderId=ORD-1"]).1 = .exit 1 :=
  ⟨⟨by decide, rfl⟩,
    (C8_fetch_error_aborts sampleConfig
      { worldNoRecord with getOrder := fun _ => .error "timeout of 5000ms exceeded" }
      ["node", "jt_booking.js", "--orderId=ORD-1"] "timeout of 5000ms exceeded"
      (Or.inl ⟨by decide, rfl⟩)).1⟩

/-- C9 (the code at the failing input).  The store answers `getOrder` for `ORD-404` without
an order record: `fetchOrder` stores the list `[undefined]`, `main` launches the browser and
calls `processOrder`, which throws on `order.OrderID`; the run ends with exit code 1 after the
launch, and the browser is never closed. -/
theorem C9_missing_record_launches_browser :
    (run sampleConfig worldNoRecord ["node", "jt_booking.js", "--orderId=ORD-404"]).1 = .exit 1 ∧
      (run sampleConfig worldNoRecord ["node", "jt_booking.js", "--orderId=ORD-404"]).2.ordersToProcess = [none] ∧
      (run sampleConfig worldNoRecord ["node", "jt_booking.js", "--orderId=ORD-404"]).2.trace =
        [.get "https://script.example/exec" [("action", "getOrder"), ("orderId", "ORD-404")],
          .launch, .processOrder none] := by
  decide

/-- C10 (as stated, refuted).  The single order `ORD-1` is fetched and processed to the end
(it is recorded as succeeded), but `browser.close()` throws: no `jtCallback` request is sent
and the run ends with exit code 1. -/
theorem C10_no_callback_when_browser_close_throws :
    (run sampleConfig worldCloseFails ["node", "jt_booking.js", "--orderId=ORD-1"]).2.results.success = [⟨"ORD-1", "JT123456"⟩] ∧
      Event.pageClose ∈ (run sampleConfig worldCloseFails ["node", "jt_booking.js", "--orderId=ORD-1"]).2.trace ∧
      (run sampleConfig worldCloseFails ["node", "jt_booking.js", "--orderId=ORD-1"]).2.trace.filter Event.isCallback = [] ∧
      (run sampleConfig worldCloseFails ["node", "jt_booking.js", "--orderId=ORD-1"]).1 = .exit 1 := by
  decide

/-- C10 (amended).  In a run that fetches at least one order, launches the browser, finishes
the loop and closes the browser, exactly one `jtCallback` request is sent, as the last action
of the run, whose `results.total` is the number of fetched orders and whose `success` and
`failed` lists are the entries recorded order by order; nothing is assumed about the
`updateOrderStatus` posts or about the callback post itself.  When the fetched list is empty
no `jtCallback` request is sent. -/
theorem C10_one_callback_after_the_loop (cfg : Config) (w : World) (argv : List String)
    (orders : List (Option Order)) (hf : Fetched cfg w argv orders) :
    (orders = [] → (run cfg w argv).2.trace.filter Event.isCallback = []) ∧
    (orders ≠ [] → w.launch = .ok () →
      (processOrders cfg w 0 orders State.initial).1 = .normal () → w.browserClose = .ok () →
      ∃ pre, (run cfg w argv).2.trace = pre ++
          [.jtCallback cfg.appsScriptUrl
            { action := "jtCallback"
              results :=
                { success := perOrder cfg w (fun d => d.results.success) 0 orders
                  failed := perOrder cfg w (fun d => d.results.failed) 0 orders
                  total := orders.length }
              timestamp := w.now }] ∧
        pre.filter Event.isCallback = [] ∧
        ∀ e ∈ perOrder cfg w (fun d => d.trace) 0 orders, e ∈ pre) := by
  refine ⟨?_, ?_⟩
  · intro he
    obtain ⟨hfn, hfo⟩ := hf
    obtain ⟨h1, -, -⟩ := run_of_fetch_normal cfg w argv hfn
    obtain ⟨-, url, params, htr⟩ := fetched_facts cfg w argv hfn
    obtain ⟨-, d2, -⟩ := (mainDispatch_run cfg w (fetched cfg w argv).2).1 (by rw [hfo, he])
    rw [h1, d2, htr]
    simp [Event.isCallback]
  · intro hne hl hloop hb
    obtain ⟨-, -, url, params, c3⟩ := run_complete cfg w argv orders hf hne hl hloop hb
    obtain ⟨d1, d2, d3, -⟩ := processOrders_decompose cfg w orders 0 State.initial hloop
    have hnc := perOrder_filter_nil cfg w Event.isCallback (processOrder_no_callback cfg)
      orders 0
    refine ⟨[.get url params, .launch] ++ perOrder cfg w (fun d => d.trace) 0 orders ++
      [.browserClose], ?_, ?_, ?_⟩
    · rw [c3, d1, d2, d3]
      simp [State.initial]
    · simp [List.filter_append, hnc, Event.isCallback]
    · intro e he
      simp [he]

/-- C10 (amended), at the sample batch with `--bulk`. -/
theorem C10_one_callback_after_the_loop_witness :
    (Fetched sampleConfig (sampleWorld sampleBatch outcomesSecondLoginRejected) ["node", "jt_booking.js", "--bulk"] sampleBatch ∧
      sampleBatch ≠ [] ∧ (sampleWorld sampleBatch outcomesSecondLoginRejected).launch = .ok () ∧
      (processOrders sampleConfig (sampleWorld sampleBatch outcomesSecondLoginRejected) 0 sampleBatch State.initial).1 = .normal () ∧
      (sampleWorld sampleBatch outcomesSecondLoginRejected).browserClose = .ok ()) ∧
    ∃ pre, (run sampleConfig (sampleWorld sampleBatch outcomesSecondLoginRejected) ["node", "jt_booking.js", "--bulk"]).2.trace = pre ++
        [.jtCallback sampleConfig.appsScriptUrl
          { action := "jtCallback"
            results :=
              { success := perOrder sampleConfig (sampleWorld sampleBatch outcomesSecondLoginRejected) (fun d => d.results.success) 0 sampleBatch
                failed := perOrder sampleConfig (sampleWorld sampleBatch outcomesSecondLoginRejected) (fun d => d.results.failed) 0 sampleBatch
                total := sampleBatch.length }
            timestamp := (sampleWorld sampleBatch outcomesSecondLoginRejected).now }] ∧
      pre.filter Event.isCallback = [] ∧
      ∀ e ∈ perOrder sampleConfig (sampleWorld sampleBatch outcomesSecondLoginRejected) (fun d => d.trace) 0 sampleBatch, e ∈ pre :=
  ⟨⟨⟨by decide, by decide⟩, by decide, rfl, by decide, rfl⟩,
    (C10_one_callback_after_the_loop sampleConfig (sampleWorld sampleBatch outcomesSecondLoginRejected) ["node", "jt_booking.js", "--bulk"]
      sampleBatch ⟨by decide, by decide⟩).2 (by decide) rfl (by decide) rfl⟩

/-- C11 (the code at the failing input).  One order is fetched, attempted and booked; the
summary prints `Total Orders: 0` next to `Success: 1` and `Failed: 0`, because
`results.total` is only assigned in `sendResultsToBackend`, which runs after `printSummary`:
the `jtCallback` request sent afterwards carries the total 1. -/
theorem C11_printed_total_is_zero :
    "Total Orders: 0" ∈ (run sampleConfig worldSingle ["node", "jt_booking.js", "--orderId=ORD-1"]).2.console ∧
      "✅ Success: 1" ∈ (run sampleConfig worldSingle ["node", "jt_booking.js", "--orderId=ORD-1"]).2.console ∧
      "❌ Failed: 0" ∈ (run sampleConfig worldSingle ["node", "jt_booking.js", "--orderId=ORD-1"]).2.console ∧
      "Total Orders: 1" ∉ (run sampleConfig worldSingle ["node", "jt_booking.js", "--orderId=ORD-1"]).2.console ∧
      (run sampleConfig worldSingle ["node", "jt_booking.js", "--orderId=ORD-1"]).2.results.total = 1 ∧
      (run sampleConfig worldSingle ["node", "jt_booking.js", "--orderId=ORD-1"]).2.ordersToProcess.length = 1 := by
  decide

/-- C12.  `main` calls `process.exit(1)` when the fetch throws.  When the fetch ends
normally, the browser starts and closes, every record is defined and every page opens and
closes, so that only portal steps of individual orders can fail, `main` ends normally: it
does not call `process.exit`, however many orders end in `results.failed`. -/
theorem C12_exit_code_policy (cfg : Config) (w : World) (argv : List String) :
    (∀ m, (fetched cfg w argv).1 = .throw m → (run cfg w argv).1 = .exit 1) ∧
    (∀ orders, Fetched cfg w argv orders → w.launch = .ok () → w.browserClose = .ok () →
      (∀ j order, orders[j]? = some order → order ≠ none ∧
        (w.outcomes j).newPage = .ok () ∧ (w.outcomes j).pageClose = .ok ()) →
      (run cfg w argv).1 = .normal ()) := by
  refine ⟨fun m h => (run_of_fetch_throw cfg w argv m h).2.2, ?_⟩
  intro orders hf hl hb hall
  by_cases he : orders = []
  · obtain ⟨hfn, hfo⟩ := hf
    obtain ⟨-, -, h3⟩ := run_of_fetch_normal cfg w argv hfn
    obtain ⟨d1, -⟩ := (mainDispatch_run cfg w (fetched cfg w argv).2).1 (by rw [hfo, he])
    rw [h3, d1]
  · have hloop := processOrders_normal cfg w orders 0
      (by intro j order hj; simpa using hall j order hj) State.initial
    exact (run_complete cfg w argv orders hf he hl hloop hb).1

/-- C12, at the sample batch in which the login for `ORD-2` is rejected. -/
theorem C12_exit_code_policy_witness :
    (Fetched sampleConfig (sampleWorld sampleBatch outcomesSecondLoginRejected)
        ["node", "jt_booking.js", "--bulk"] sampleBatch ∧
      (run sampleConfig (sampleWorld sampleBatch outcomesSecondLoginRejected)
        ["node", "jt_booking.js", "--bulk"]).2.results.failed ≠ []) ∧
    (run sampleConfig (sampleWorld sampleBatch outcomesSecondLoginRejected)
      ["node", "jt_booking.js", "--bulk"]).1 = .normal () :=
  ⟨⟨⟨by decide, by decide⟩, by decide⟩,
    (C12_exit_code_policy sampleConfig (sampleWorld sampleBatch outcomesSecondLoginRejected)
      ["node", "jt_booking.js", "--bulk"]).2 sampleBatch ⟨by decide, by decide⟩ rfl rfl
      (by
        intro j order hj
        match j, hj with
        | 0, hj => cases hj; exact ⟨by decide, rfl, rfl⟩
        | 1, hj => cases hj; exact ⟨by decide, rfl, rfl⟩
        | (n + 2), hj => simp [sampleBatch] at hj)⟩

/-- C13 (as stated, refuted).  An invocation that gives both `--orderId=ORD-1` and `--bulk` is
not rejected: `main` takes the single-order branch, prints no usage message and ends
normally. -/
theorem C13_both_selectors_run_single_order :
    (run sampleConfig worldSingle ["node", "jt_booking.js", "--orderId=ORD-1", "--bulk"]).1 = .normal () ∧
      (run sampleConfig worldSingle ["node", "jt_booking.js", "--orderId=ORD-1", "--bulk"]).2.trace.head? =
        some (.get "https://script.example/exec" [("action", "getOrder"), ("orderId", "ORD-1")]) ∧
      "Usage: node jt_booking.js --orderId=ORD-123 OR --bulk" ∉ (run sampleConfig worldSingle ["node", "jt_booking.js", "--orderId=ORD-1", "--bulk"]).2.console := by
  decide

/-- C13 (amended).  With neither a non-empty `--orderId` value nor `--bulk` the run prints the
usage message and exits with code 1 without any request.  With a non-empty `--orderId` value,
whether or not `--bulk` is given too, the run starts by fetching that single order.  With
`--bulk` and no non-empty `--orderId` value it starts by fetching all orders with
`shippingStatus` `Ready to Ship`. -/
theorem C13_selector_branches (cfg : Config) (w : World) (argv : List String) :
    ((getArgValue (argv.drop 2) "--orderId").truthy = false →
      (argv.drop 2).contains "--bulk" = false →
      (run cfg w argv).1 = .exit 1 ∧ (run cfg w argv).2.trace = [] ∧
        (run cfg w argv).2.console = startState.console ++
          ["Usage: node jt_booking.js --orderId=ORD-123 OR --bulk"]) ∧
    ((getArgValue (argv.drop 2) "--orderId").truthy = true →
      ∃ rest, (run cfg w argv).2.trace =
        .get cfg.appsScriptUrl
          [("action", "getOrder"), ("orderId", (getArgValue (argv.drop 2) "--orderId").text)] ::
          rest) ∧
    ((getArgValue (argv.drop 2) "--orderId").truthy = false →
      (argv.drop 2).contains "--bulk" = true →
      ∃ rest, (run cfg w argv).2.trace =
        .get cfg.appsScriptUrl [("action", "getOrders"), ("shippingStatus", "Ready to Ship")] ::
          rest) := by
  refine ⟨?_, run_trace_single cfg w argv, run_trace_bulk cfg w argv⟩
  intro h hb
  have hfe : fetched cfg w argv = (.exit 1, { startState with console := startState.console ++
      ["Usage: node jt_booking.js --orderId=ORD-123 OR --bulk"] }) := by
    unfold fetched
    generalize getArgValue (argv.drop 2) "--orderId" = oid at h ⊢
    generalize (argv.drop 2).contains "--bulk" = b at hb ⊢
    subst hb
    simp [mainFetch, Js.bind, h]
  rw [run_eq_fetched_of_exit cfg w argv 1 (by rw [hfe]), hfe]
  exact ⟨rfl, rfl, rfl⟩

/-- C13 (amended), at an invocation without arguments. -/
theorem C13_selector_branches_witness :
    ((getArgValue (["node", "jt_booking.js"].drop 2) "--orderId").truthy = false ∧
      (["node", "jt_booking.js"].drop 2).contains "--bulk" = false) ∧
    (run sampleConfig worldSingle ["node", "jt_booking.js"]).1 = .exit 1 :=
  ⟨⟨by decide, by decide⟩,
    ((C13_selector_branches sampleConfig worldSingle ["node", "jt_booking.js"]).1
      (by decide) (by decide)).1⟩

/-- C14.  For a non-empty order ID `v` without `=`, when the first argument that starts with
`--orderId` is `--orderId=` followed by `v`, `getArgValue(args, '--orderId')` is exactly `v`,
and `main` takes the single-order branch: its first action is the `getOrder` request for
`v`. -/
theorem C14_orderId_argument (cfg : Config) (w : World) (argv : List String) (v : String)
    (hne : v ≠ "") (hv : '=' ∉ v.data)
    (hfind : (argv.drop 2).find? (fun a => startsWith a "--orderId") =
      some ("--orderId=" ++ v)) :
    getArgValue (argv.drop 2) "--orderId" = .str v ∧
      ∃ rest, (run cfg w argv).2.trace =
        .get cfg.appsScriptUrl [("action", "getOrder"), ("orderId", v)] :: rest := by
  have hg := getArgValue_orderId (argv.drop 2) v hv hfind
  refine ⟨hg, ?_⟩
  have ht : (getArgValue (argv.drop 2) "--orderId").truthy = true := by
    rw [hg]
    simp [ArgValue.truthy, hne]
  obtain ⟨rest, hr⟩ := run_trace_single cfg w argv ht
  rw [hg] at hr
  exact ⟨rest, hr⟩

/-- C14, at `--orderId=ORD-123`. -/
theorem C14_orderId_argument_witness :
    ("ORD-123" ≠ "" ∧ '=' ∉ "ORD-123".data ∧
      (["node", "jt_booking.js", "--orderId=ORD-123"].drop 2).find?
        (fun a => startsWith a "--orderId") = some ("--orderId=" ++ "ORD-123")) ∧
    getArgValue (["node", "jt_booking.js", "--orderId=ORD-123"].drop 2) "--orderId" =
      .str "ORD-123" :=
  ⟨⟨by decide, by decide, by decide⟩,
    (C14_orderId_argument sampleConfig worldSingle ["node", "jt_booking.js", "--orderId=ORD-123"]
      "ORD-123" (by decide) (by decide) (by decide)).1⟩

/-- C15.  The loop attempts the orders one at a time in the fetched order: its trace is the
trace it started with followed by the blocks of events of the first `k` orders, each block
being what `processOrder` does for that order alone (all of them when the loop runs to
completion), so no event of a later order precedes an event of an earlier one; and the order
IDs in `results.success` and in `results.failed` are subsequences of the IDs of
`ordersToProcess`. -/
theorem C15_orders_are_processed_in_sequence (cfg : Config) (w : World)
    (orders : List (Option Order)) (s : State)
    (hs : s.results.success = [] ∧ s.results.failed = []) :
    (((processOrders cfg w 0 orders s).2.results.success.map (fun e => e.orderId)).Sublist
        (orderIds orders)) ∧
    (((processOrders cfg w 0 orders s).2.results.failed.map (fun e => e.orderId)).Sublist
        (orderIds orders)) ∧
    (∃ k, (processOrders cfg w 0 orders s).2.trace =
        s.trace ++ perOrder cfg w (fun d => d.trace) 0 (orders.take k)) ∧
    ((processOrders cfg w 0 orders s).1 = .normal () →
      (processOrders cfg w 0 orders s).2.trace =
        s.trace ++ perOrder cfg w (fun d => d.trace) 0 orders) := by
  obtain ⟨c, succ, fl, tr, con, -, hrun, hP⟩ := processOrders_induct cfg w
    (fun i l _ succ fl tr =>
      (succ.map (fun e => e.orderId)).Sublist (orderIds l) ∧
      (fl.map (fun e => e.orderId)).Sublist (orderIds l) ∧
      ∃ k, tr = perOrder cfg w (fun d => d.trace) i (l.take k))
    (by intro i; exact ⟨by simp [orderIds], by simp [orderIds], 0, by simp [perOrder]⟩)
    (by
      intro i order rest m succ fl tr con h
      obtain ⟨h1, h2⟩ := processOrder_entries cfg _ order _ succ fl tr con h
      obtain ⟨-, -, -, e3⟩ := processOrder_initial h
      rw [orderIds_cons]
      exact ⟨h1.trans (List.sublist_append_left _ _), h2.trans (List.sublist_append_left _ _),
        1, by simp [perOrder, e3]⟩)
    (by
      intro i order rest succ fl tr con c2 succ2 fl2 tr2 h ih
      obtain ⟨h1, h2⟩ := processOrder_entries cfg _ order _ succ fl tr con h
      obtain ⟨-, -, -, e3⟩ := processOrder_initial h
      obtain ⟨i1, i2, k, i3⟩ := ih
      rw [orderIds_cons]
      refine ⟨by rw [List.map_append]; exact h1.append i1,
        by rw [List.map_append]; exact h2.append i2, k + 1, ?_⟩
      simp [perOrder, e3, i3])
    orders 0
  obtain ⟨p1, p2, k, p3⟩ := hP
  refine ⟨?_, ?_, ⟨k, ?_⟩, ?_⟩
  · rw [hrun s]; simpa [State.add, hs.1] using p1
  · rw [hrun s]; simpa [State.add, hs.2] using p2
  · rw [hrun s]; simp [State.add, p3]
  · intro hdone
    exact (processOrders_decompose cfg w orders 0 s hdone).2.2.1

/-- C15, at the sample batch in which the login for `ORD-2` is rejected. -/
theorem C15_orders_are_processed_in_sequence_witness :
    (State.initial.results.success = [] ∧ State.initial.results.failed = []) ∧
    ((processOrders sampleConfig (sampleWorld sampleBatch outcomesSecondLoginRejected) 0
      sampleBatch State.initial).2.results.failed.map (fun e => e.orderId)).Sublist
        (orderIds sampleBatch) :=
  ⟨by decide,
    (C15_orders_are_processed_in_sequence sampleConfig
      (sampleWorld sampleBatch outcomesSecondLoginRejected) sampleBatch State.initial
      (by decide)).2.1⟩

/-- C16 (the code at the failing input).  The order `ORD-1` is fetched and the browser is
launched, once; `browser.newPage()` then throws in `processOrder`; `main` leaves through its
catch block with exit code 1 and `browser.close()` is never called. -/
theorem C16_browser_left_open_when_processOrder_throws :
    (run sampleConfig worldNewPageFails ["node", "jt_booking.js", "--orderId=ORD-1"]).1 = .exit 1 ∧
      (run sampleConfig worldNewPageFails ["node", "jt_booking.js", "--orderId=ORD-1"]).2.trace.count Event.launch = 1 ∧
      Event.browserClose ∉ (run sampleConfig worldNewPageFails ["node", "jt_booking.js", "--orderId=ORD-1"]).2.trace ∧
      (run sampleConfig worldNewPageFails ["node", "jt_booking.js", "--orderId=ORD-1"]).2.trace =
        [.get "https://script.example/exec" [("action", "getOrder"), ("orderId", "ORD-1")],
          .launch, .processOrder (some "ORD-1"), .newPage] := by
  decide

/-- C17 (as stated, refuted).  Filling fails for every field of the booking form of `ORD-1`;
the order is nevertheless submitted, its store record is updated, and it is recorded in
`results.success`, not in `results.failed`. -/
theorem C17_fill_failure_is_not_recorded :
    (run sampleConfig worldFillFails ["node", "jt_booking.js", "--orderId=ORD-1"]).2.results.failed = [] ∧
      (run sampleConfig worldFillFails ["node", "jt_booking.js", "--orderId=ORD-1"]).2.results.success = [⟨"ORD-1", "JT123456"⟩] ∧
      Event.submit ∈ (run sampleConfig worldFillFails ["node", "jt_booking.js", "--orderId=ORD-1"]).2.trace ∧
      Event.updateOrderStatus "https://script.example/exec"
        (updateRequest sampleConfig "ORD-1" "JT123456") ∈ (run sampleConfig worldFillFails ["node", "jt_booking.js", "--orderId=ORD-1"]).2.trace := by
  decide

/-- C17 (amended).  Whatever happens when the fields of the booking form are filled,
`fillBookingForm` returns normally (a failing field is logged and skipped) and records
nothing; the completion of `processOrder` and the entries it records are the same as for any
other behaviour of the fields; and an order whose page opens and whose login and form opening
work is submitted. -/
theorem C17_fill_errors_are_skipped (cfg : Config) (o : OrderOutcomes)
    (f : String → FieldOutcome) (r : Order) (s : State) :
    (fillBookingForm cfg { o with field := f } r s).1 = .normal () ∧
    (fillBookingForm cfg { o with field := f } r s).2.results = s.results ∧
    (∀ order : Option Order,
      (processOrder cfg { o with field := f } order s).1 = (processOrder cfg o order s).1 ∧
      (processOrder cfg { o with field := f } order s).2.results =
        (processOrder cfg o order s).2.results) ∧
    (o.newPage = .ok () → (loginToJT cfg o State.initial).1 = .normal () →
      (openBookingForm cfg o State.initial).1 = .normal () →
      Event.submit ∈ (processOrder cfg { o with field := f } (some r) s).2.trace) := by
  obtain ⟨ftr, fcon, -, hfill⟩ := fillBookingForm_run cfg { o with field := f } r
  refine ⟨by rw [hfill], by rw [hfill]; simp [State.add], ?_, ?_⟩
  · intro order
    exact processOrder_results_congr cfg o { o with field := f } order s rfl rfl rfl rfl rfl
  · intro hnp hl ho
    obtain ⟨ftr2, -, hcase⟩ := processOrder_cases cfg { o with field := f } r hnp
    have e1 : loginToJT cfg { o with field := f } = loginToJT cfg o := rfl
    have e2 : openBookingForm cfg { o with field := f } = openBookingForm cfg o := rfl
    rw [e1, e2] at hcase
    rcases hcase with ⟨t, shot, con, -, -, -, -, h⟩ | ⟨m, con, a1, h⟩ |
      ⟨m, con, -, a2, h⟩ | ⟨m, shot, con, -, -, -, -, h⟩
    · rw [h]; simp [State.add]
    · rw [hl] at a1; cases a1
    · rw [ho] at a2; cases a2
    · rw [h]; simp [State.add]

/-- C18.  The events a call of `processOrder` appends contain the portal steps as a prefix
of login, opening of the booking form, form filling, submit, in that order and without
repetition; the login is attempted at most twice (in fact at most once); no submit is
attempted when the login or the opening of the form throws, and no store update when the
submit throws. -/
theorem C18_steps_form_a_prefix (cfg : Config) (o : OrderOutcomes) (order : Option Order)
    (s : State) :
    ∃ tr, (processOrder cfg o order s).2.trace = s.trace ++ tr ∧
      (tr.filter Event.isStep) <+:
        [.login (cfg.jnttBaseUrl ++ "/login"), .openForm (cfg.jnttBaseUrl ++ "/booking/create"),
          .fillForm, .submit] ∧
      (tr.filter Event.isLogin).length ≤ 2 ∧
      (((∃ m, (loginToJT cfg o State.initial).1 = .throw m) ∨
          (∃ m, (openBookingForm cfg o State.initial).1 = .throw m)) → Event.submit ∉ tr) ∧
      ((∃ m, (submitBooking o State.initial).1 = .throw m) → tr.filter Event.isUpdate = []) := by
  obtain ⟨c, succ, fl, tr, con, -, h⟩ := processOrder_shape cfg o order
  refine ⟨tr, by rw [h s]; rfl, ?_⟩
  rcases processOrder_inv cfg o order c succ fl tr con h with
    ⟨-, -, -, -, ht⟩ | ⟨r, m, -, -, -, -, -, ht⟩ | ⟨r, -, -, -, ftr, hf, hcase⟩
  · subst ht
    exact ⟨by simp [Event.isStep], by simp [Event.isLogin], by simp, by simp [Event.isUpdate]⟩
  · subst ht
    exact ⟨by simp [Event.isStep], by simp [Event.isLogin], by simp, by simp [Event.isUpdate]⟩
  · have f1 := filter_fill Event.isStep (by intro l v; rfl) ftr hf
    have f2 := filter_fill Event.isLogin (by intro l v; rfl) ftr hf
    have f3 := filter_fill Event.isUpdate (by intro l v; rfl) ftr hf
    have hmem : Event.submit ∉ ftr := by
      intro hm
      obtain ⟨l, v, hlv⟩ := hf _ hm
      cases hlv
    rcases hcase with ⟨t, shot, a1, a2, a3, hshot, -, -, ht⟩ | ⟨m, a1, -, -, ht⟩ |
      ⟨m, a1, a2, -, -, ht⟩ | ⟨m, shot, a1, a2, a3, hshot, -, -, ht⟩
    · have g1 := filter_shot Event.isStep rfl shot hshot
      have g2 := filter_shot Event.isLogin rfl shot hshot
      subst ht
      refine ⟨by simp [List.filter_append, f1, g1, Event.isStep],
        by simp [List.filter_append, f2, g2, Event.isLogin], ?_, ?_⟩
      · rintro (⟨m, hm⟩ | ⟨m, hm⟩)
        · rw [a1] at hm; cases hm
        · rw [a2] at hm; cases hm
      · rintro ⟨m, hm⟩
        rw [a3] at hm; cases hm
    · subst ht
      exact ⟨by simp [Event.isStep, List.IsPrefix], by simp [Event.isLogin], by simp,
        by simp [Event.isUpdate]⟩
    · subst ht
      exact ⟨by simp [Event.isStep, List.IsPrefix], by simp [Event.isLogin], by simp,
        by simp [Event.isUpdate]⟩
    · have g1 := filter_shot Event.isStep rfl shot hshot
      have g2 := filter_shot Event.isLogin rfl shot hshot
      have g3 := filter_shot Event.isUpdate rfl shot hshot
      subst ht
      refine ⟨by simp [List.filter_append, f1, g1, Event.isStep],
        by simp [List.filter_append, f2, g2, Event.isLogin], ?_,
        by simp [List.filter_append, f3, g3, Event.isUpdate]⟩
      rintro (⟨m2, hm⟩ | ⟨m2, hm⟩)
      · rw [a1] at hm; cases hm
      · rw [a2] at hm; cases hm

/-- C19 (the code at the failing input).  The `updateOrderStatus` request sent for `ORD-1`
carries in its `token` field the value of `CONFIG.appsScriptUrl`, the URL the request is sent
to; `CONFIG` holds no admin secret at all. -/
theorem C19_token_is_the_store_url :
    (run sampleConfig worldSingle ["node", "jt_booking.js", "--orderId=ORD-1"]).2.trace.filter Event.isUpdate =
        [.updateOrderStatus "https://script.example/exec"
          { action := "updateOrderStatus"
            orderId := "ORD-1"
            status := [("ShippingStatus", "Shipped"), ("JNTTracking", "JT123456")]
            token := "https://script.example/exec" }] ∧
      sampleConfig.appsScriptUrl = "https://script.example/exec" := by
  decide

/-- C20.  `handleLogin` sets `authenticated`, stores the entered password under `adminToken`
and loads the orders exactly when the password equals `config.adminToken`; on a mismatch the
flag and the stored token stay as they are, no orders are loaded and an alert is shown. -/
theorem C20_handleLogin (adminToken : String) (st : AdminState) :
    (((handleLogin adminToken st).authenticated = true ∧
        (handleLogin adminToken st).storedToken = some st.password ∧
        (handleLogin adminToken st).loadOrdersCalls = st.loadOrdersCalls + 1) ↔
      st.password = adminToken) ∧
    (st.password ≠ adminToken →
      (handleLogin adminToken st).authenticated = st.authenticated ∧
      (handleLogin adminToken st).storedToken = st.storedToken ∧
      (handleLogin adminToken st).loadOrdersCalls = st.loadOrdersCalls ∧
      (handleLogin adminToken st).alerts = st.alerts ++ ["Invalid access token"]) := by
  by_cases h : st.password = adminToken <;> simp [handleLogin, h]

/-- C21 (counterexample): the store answers the update of `ORD-1` with the error result
`Unauthorized`; `updateOrderStatus` returns that reply, and both handlers add their log entry
and show no alert. -/
theorem C21_rejected_update_is_logged :
    updateOrderStatus (.ok (some (replyRejected "Unauthorized"))) =
      .returned (some (replyRejected "Unauthorized")) ∧
    (handleMarkPaid "secret" "2024-05-01T08:00:00.000Z" "ORD-1"
      (.ok (some (replyRejected "Unauthorized"))) emptyDashboard).actionLogs =
      [⟨"2024-05-01T08:00:00.000Z", "Marked order ORD-1 as paid"⟩] ∧
    (handleMarkPaid "secret" "2024-05-01T08:00:00.000Z" "ORD-1"
      (.ok (some (replyRejected "Unauthorized"))) emptyDashboard).alerts = [] ∧
    (handleMarkShipped "secret" "2024-05-01T08:00:00.000Z" "ORD-1"
      (.ok (some (replyRejected "Unauthorized"))) emptyDashboard).actionLogs =
      [⟨"2024-05-01T08:00:00.000Z", "Marked order ORD-1 as shipped"⟩] ∧
    (handleMarkShipped "secret" "2024-05-01T08:00:00.000Z" "ORD-1"
      (.ok (some (replyRejected "Unauthorized"))) emptyDashboard).alerts = [] := by
  decide

/-- C21 (amended): `handleMarkPaid` and `handleMarkShipped` alert the operator and leave the
action log alone exactly when the request throws; for every reply the store sends, whatever
it says, they add the log entry, reload the orders and show no alert. -/
theorem C21_alert_only_when_request_throws (adminToken now orderId : String) (st : Dashboard) :
    (∀ e : ApiFailure,
      (handleMarkPaid adminToken now orderId (.error e) st).alerts =
        st.alerts ++ ["Failed to update order"] ∧
      (handleMarkPaid adminToken now orderId (.error e) st).actionLogs = st.actionLogs ∧
      (handleMarkPaid adminToken now orderId (.error e) st).loadOrdersCalls =
        st.loadOrdersCalls ∧
      (handleMarkShipped adminToken now orderId (.error e) st).alerts =
        st.alerts ++ ["Failed to update order"] ∧
      (handleMarkShipped adminToken now orderId (.error e) st).actionLogs = st.actionLogs ∧
      (handleMarkShipped adminToken now orderId (.error e) st).loadOrdersCalls =
        st.loadOrdersCalls) ∧
    (∀ reply : Option Reply,
      (handleMarkPaid adminToken now orderId (.ok reply) st).alerts = st.alerts ∧
      (handleMarkPaid adminToken now orderId (.ok reply) st).actionLogs =
        addLog now ("Marked order " ++ orderId ++ " as paid") st.actionLogs ∧
      (handleMarkPaid adminToken now orderId (.ok reply) st).loadOrdersCalls =
        st.loadOrdersCalls + 1 ∧
      (handleMarkShipped adminToken now orderId (.ok reply) st).alerts = st.alerts ∧
      (handleMarkShipped adminToken now orderId (.ok reply) st).actionLogs =
        addLog now ("Marked order " ++ orderId ++ " as shipped") st.actionLogs ∧
      (handleMarkShipped adminToken now orderId (.ok reply) st).loadOrdersCalls =
        st.loadOrdersCalls + 1) := by
  constructor
  · intro e
    obtain ⟨m, hm, -⟩ := afterCatch_threw (Option Reply) e
    simp [handleMarkPaid, handleMarkShipped, updateOrderStatus, hm]
  · intro reply
    simp [handleMarkPaid, handleMarkShipped, updateOrderStatus]

/-- C22: the quantity that reaches the `createOrder` payload is the quantity the actions left
in the form, and it is at least 1 and at most the stock of the product, because the submit
event runs `handleSubmit` only when the quantity input passes its `min`/`max` validation;
when the quantity is within these bounds (and the other controls are valid) the order is
sent with it.  The two buttons alone keep the quantity within the bounds of a product in
stock; a typed 999 for a stock of 5, and the quantity 0 that the plus button gives for a
stock of 0, are stopped before `handleSubmit` runs. -/
theorem C22_submitted_quantity_is_within_stock (mayaPublicKey : String) (product : Product)
    (actions : List QuantityAction) (form : OrderFormState) (otherControlsValid : Bool)
    (outcome : Except ApiFailure (Option Reply)) :
    (∀ orderData, FormEffect.createOrder orderData ∈
        onSubmit mayaPublicKey { form with quantity := quantityAfterAll product actions }
          product otherControlsValid outcome →
      orderData.quantity = quantityAfterAll product actions ∧
      1 ≤ orderData.quantity ∧ orderData.quantity ≤ product.Stock) ∧
    (1 ≤ quantityAfterAll product actions → quantityAfterAll product actions ≤ product.Stock →
      otherControlsValid = true →
      ∃ orderData,
        (onSubmit mayaPublicKey { form with quantity := quantityAfterAll product actions }
          product otherControlsValid outcome).head? = some (.createOrder orderData) ∧
        orderData.quantity = quantityAfterAll product actions) ∧
    (1 ≤ product.Stock → (∀ a ∈ actions, a.isButton = true) →
      1 ≤ quantityAfterAll product actions ∧ quantityAfterAll product actions ≤ product.Stock) ∧
    quantityAfterAll (sampleProduct 5) [.typed 999] = 999 ∧
    onSubmit "pk-test" (sampleForm (quantityAfterAll (sampleProduct 5) [.typed 999]) "gcash")
      (sampleProduct 5) true (.ok (some ⟨some true, some "ORD-9", none, none⟩)) = [] ∧
    quantityAfterAll (sampleProduct 0) [.plus] = 0 ∧
    onSubmit "pk-test" (sampleForm (quantityAfterAll (sampleProduct 0) [.plus]) "gcash")
      (sampleProduct 0) true (.ok (some ⟨some true, some "ORD-9", none, none⟩)) = [] ∧
    (onSubmit "pk-test"
      (sampleForm (quantityAfterAll (sampleProduct 5) [.typed 999, .typed 3, .plus]) "gcash")
      (sampleProduct 5) true (.ok (some ⟨some true, some "ORD-9", none, none⟩))).tail =
      [.navigate "/success?order=ORD-9"] := by
  refine ⟨?_, ?_, ?_, by decide, by decide, by decide, by decide, by decide⟩
  · intro orderData h
    unfold onSubmit at h
    by_cases hv : (quantityInputValid product (quantityAfterAll product actions) &&
        otherControlsValid) = true
    · rw [if_pos hv] at h
      have hq := handleSubmit_createOrder_mem _ _ _ _ _ h
      simp only [quantityInputValid, Bool.and_eq_true, decide_eq_true_eq] at hv
      simp only at hq
      rw [hq]
      exact ⟨rfl, hv.1.1, hv.1.2⟩
    · rw [if_neg hv] at h
      simp at h
  · intro h1 h2 ho
    refine ⟨{ productId := form.productId
              quantity := quantityAfterAll product actions
              customerName := form.customerName
              email := form.email
              contact := form.contact
              province := form.province
              city := form.city
              barangay := form.barangay
              addressDetails := form.addressDetails
              packageSize := product.Size
              itemCategory := product.Category
              paymentMethod := form.paymentMethod }, ?_, rfl⟩
    simp [onSubmit, quantityInputValid, h1, h2, ho, handleSubmit]
  · intro hs hb
    unfold quantityAfterAll
    induction actions using List.reverseRecOn with
    | nil => exact ⟨le_refl _, hs⟩
    | append_singleton as a ih =>
      rw [List.foldl_append]
      exact quantityAfter_button_bounds product _ a hs (hb a (by simp))
        (ih (fun b hbm => hb b (by simp [hbm])))

/-- C23 (counterexample): a rejected `fetch` in `updateOrderStatus` reaches the caller as a
plain `Error` whose only content is the message text; its name is none of the three typed
errors. -/
theorem C23_failure_is_a_plain_Error :
    updateOrderStatus (.error ⟨none, false, "Failed to fetch"⟩) =
      .threw ⟨"Error", "Failed to fetch"⟩ ∧
    "Error" ∉ ["NotFound", "Unauthorized", "Unavailable"] := by
  decide

/-- C23 (amended): every failure inside one of the six store operations of `api.js` is thrown
to the caller as a plain `Error` that carries a message text only: the error text of the
store (or `API request failed`) when there was a response, the network message when the
request got no response, the message of the original error otherwise.  No operation returns
`undefined` after a failure. -/
theorem C23_failures_throw_Error_with_message (P O : Type) (e : ApiFailure) :
    ∃ message : String,
      (∀ d, e.response = some d → message = orDefault d "API request failed") ∧
      (e.response = none → e.request = true →
        message = "Network error - please check your connection") ∧
      (e.response = none → e.request = false → message = e.message) ∧
      getProducts (.error e) = (.threw ⟨"Error", message⟩ : ApiResult (List P)) ∧
      getProduct (.error e) = (.threw ⟨"Error", message⟩ : ApiResult (Option P)) ∧
      createOrder (.error e) = .threw ⟨"Error", message⟩ ∧
      getOrders (.error e) = (.threw ⟨"Error", message⟩ : ApiResult (List O)) ∧
      updateOrderStatus (.error e) = .threw ⟨"Error", message⟩ ∧
      triggerJtBooking (.error e) = .threw ⟨"Error", message⟩ := by
  refine ⟨match e.response with
      | some dataError => orDefault dataError "API request failed"
      | none =>
        if e.request then "Network error - please check your connection" else e.message,
    ?_, ?_, ?_, ?_, ?_, ?_, ?_, ?_, ?_⟩
  · intro d h; simp [h]
  · intro h1 h2; simp [h1, h2]
  · intro h1 h2; simp [h1, h2]
  all_goals simp only [getProducts, getProduct, createOrder, getOrders, updateOrderStatus,
    triggerJtBooking, afterCatch, handleError_throws]

/-- C24: `updateOrderInBackend` never throws, and an order whose page opens, whose login and
form opening work and whose submit returns `t` is appended to `results.success` with `t` and
not to `results.failed`, whatever the outcome `u` of the update request. -/
theorem C24_success_does_not_depend_on_update (cfg : Config) (o : OrderOutcomes) (r : Order)
    (t : String) (u : Except String Unit) (s : State)
    (hnp : o.newPage = .ok ()) (hl : (loginToJT cfg o State.initial).1 = .normal ())
    (ho : (openBookingForm cfg o State.initial).1 = .normal ())
    (hsub : (submitBooking o State.initial).1 = .normal t) :
    (∀ orderId tracking s0,
      (updateOrderInBackend cfg { o with updatePost := u } orderId tracking s0).1 =
        .normal ()) ∧
    (processOrder cfg { o with updatePost := u } (some r) s).2.results.success =
      s.results.success ++ [⟨r.OrderID, t⟩] ∧
    (processOrder cfg { o with updatePost := u } (some r) s).2.results.failed =
      s.results.failed := by
  refine ⟨?_, ?_⟩
  · intro orderId tracking s0
    obtain ⟨con, h⟩ := updateOrderInBackend_run cfg { o with updatePost := u } orderId tracking
    rw [h]
  · obtain ⟨tr, con, -, -, h⟩ :=
      processOrder_success cfg { o with updatePost := u } r t hnp hl ho hsub
    rw [h]
    simp [State.add]

/-- C24 (witness): the portal books `ORD-1` with `JT123456` and the update request fails. -/
theorem C24_success_does_not_depend_on_update_witness :
    (∀ orderId tracking s0,
      (updateOrderInBackend sampleConfig
        { portalOk "JT123456" with updatePost := .error "Network Error" }
        orderId tracking s0).1 = .normal ()) ∧
    (processOrder sampleConfig { portalOk "JT123456" with updatePost := .error "Network Error" }
      (some (sampleOrder "ORD-1" "Ready to Ship")) State.initial).2.results.success =
      State.initial.results.success ++ [⟨(sampleOrder "ORD-1" "Ready to Ship").OrderID, "JT123456"⟩] ∧
    (processOrder sampleConfig { portalOk "JT123456" with updatePost := .error "Network Error" }
      (some (sampleOrder "ORD-1" "Ready to Ship")) State.initial).2.results.failed =
      State.initial.results.failed :=
  C24_success_does_not_depend_on_update sampleConfig (portalOk "JT123456")
    (sampleOrder "ORD-1" "Ready to Ship") "JT123456" (.error "Network Error") State.initial
    rfl (by decide) (by decide) (by decide)

/-- C25 (counterexample): the store rejects the order (`success: false`, no `orderId`); with
the payment method `gcash` the form navigates to `/success?order=undefined`, and with `maya`
it redirects to the checkout with `order_id=undefined`. -/
theorem C25_rejected_order_is_handed_off :
    (handleSubmit "pk-test" (sampleForm 1 "gcash") (sampleProduct 5)
      (.ok (some (replyRejected "Out of stock")))).tail =
      [.navigate "/success?order=undefined"] ∧
    (handleSubmit "pk-test" (sampleForm 1 "maya") (sampleProduct 5)
      (.ok (some (replyRejected "Out of stock")))).tail =
      [.redirect ("https://payment-app-sandbox.mayadigital.io/v1/checkout?public_key=pk-test" ++
        "&amount=250&order_id=undefined")] := by
  decide

/-- C25 (amended): after sending the order, `handleSubmit` performs the payment hand-off for
every reply object of the store, with the text `undefined` in place of a missing order ID:
the checkout redirect for `maya`, the navigation to the success page otherwise.  Only a
thrown request, or a reply that is `null`, ends in an alert without a hand-off. -/
theorem C25_hand_off_for_every_reply (mayaPublicKey : String) (form : OrderFormState)
    (product : Product) :
    (∀ reply : Reply,
      (handleSubmit mayaPublicKey form product (.ok (some reply))).tail =
        [if form.paymentMethod = "maya" then
            initMayaCheckout mayaPublicKey (product.Price * form.quantity) reply.orderId
          else .navigate ("/success?order=" ++ orderIdText reply.orderId)]) ∧
    orderIdText none = "undefined" ∧
    (∀ id, orderIdText (some id) = id) ∧
    (∀ e : ApiFailure, ∃ m,
      (handleSubmit mayaPublicKey form product (.error e)).tail =
        [.alert ("Failed to create order: " ++ m)]) ∧
    (∃ m, (handleSubmit mayaPublicKey form product (.ok none)).tail =
        [.alert ("Failed to create order: " ++ m)]) := by
  refine ⟨?_, rfl, fun _ => rfl, ?_, ?_⟩
  · intro reply
    by_cases h : form.paymentMethod = "maya" <;> simp [handleSubmit, createOrder, h]
  · intro e
    obtain ⟨m, hm, -⟩ := afterCatch_threw (Option Reply) e
    exact ⟨m, by simp [handleSubmit, createOrder, hm]⟩
  · exact ⟨_, rfl⟩

/-- C26: for the single order `ORD-1` of the customer `Cruz, Ana` and an empty selection, the
export has the header and one data line; the header splits on `,` into nine fields and the
data line into ten. -/
theorem C26_comma_in_a_value_adds_a_field :
    csvRow (sampleAdminOrder "ORD-1" "Cruz, Ana") =
      "ORD-1,,Cruz, Ana,Shirt,2,₱500,Paid,Ready to Ship,2024-05-01" ∧
    (split (handleDownloadCSV [sampleAdminOrder "ORD-1" "Cruz, Ana"] ∅) '\n').map
      (fun line => (split line ',').length) = [9, 10] := by
  decide

/-- C27: `filteredOrders` keeps, in their order, exactly the orders that pass the three tests
of the filter, and with the filters `all`, `all` and an empty search it is the whole list. -/
theorem C27_filteredOrders_is_the_matching_sublist (toLowerCase : String → String)
    (filters : Filters) (orders : List AdminOrder) :
    filteredOrders toLowerCase filters orders =
      orders.filter (fun order => decide (MatchesFilters toLowerCase filters order)) ∧
    (filteredOrders toLowerCase filters orders).Sublist orders ∧
    (∀ order, order ∈ filteredOrders toLowerCase filters orders ↔
      order ∈ orders ∧ MatchesFilters toLowerCase filters order) ∧
    filteredOrders toLowerCase ⟨"all", "all", ""⟩ orders = orders := by
  have h : filteredOrders toLowerCase filters orders =
      orders.filter (fun order => decide (MatchesFilters toLowerCase filters order)) := by
    unfold filteredOrders
    apply List.filter_congr
    intro o _
    obtain ⟨oid, tn, cn, pn, q, pr, ps, ss, d⟩ := o
    cases cn <;> cases oid <;> cases tn <;>
      (rw [Bool.eq_iff_iff]; simp [MatchesFilters, fieldIncludes, and_assoc, or_assoc])
  refine ⟨h, List.filter_sublist _, ?_, ?_⟩
  · intro order
    rw [h, List.mem_filter, decide_eq_true_eq]
  · unfold filteredOrders
    simp

/-- C28: `handleSelectAll` selects all listed order IDs when the size of the selection differs
from the number of orders and clears the selection when they are equal; with pairwise
distinct IDs a second call then clears it; and `handleSelectOrder` applied twice to the same
ID gives back the selection. -/
theorem C28_selection_toggles (orders : List AdminOrder) (selectedOrders : Finset (Option String))
    (orderId : Option String) :
    (selectedOrders.card ≠ orders.length →
      handleSelectAll orders selectedOrders = (orders.map (fun o => o.OrderID)).toFinset) ∧
    (selectedOrders.card = orders.length → handleSelectAll orders selectedOrders = ∅) ∧
    ((orders.map (fun o => o.OrderID)).Nodup → selectedOrders.card ≠ orders.length →
      handleSelectAll orders (handleSelectAll orders selectedOrders) = ∅) ∧
    handleSelectOrder orderId (handleSelectOrder orderId selectedOrders) = selectedOrders := by
  refine ⟨?_, ?_, ?_, ?_⟩
  · intro h
    simp [handleSelectAll, h]
  · intro h
    simp [handleSelectAll, h]
  · intro hnd h
    have hc : ((orders.map (fun o => o.OrderID)).toFinset).card = orders.length := by
      rw [List.toFinset_card_of_nodup hnd, List.length_map]
    simp only [handleSelectAll, h, if_false, hc, if_true]
  · by_cases h : orderId ∈ selectedOrders
    · simp [handleSelectOrder, h, Finset.insert_erase]
    · simp [handleSelectOrder, h, Finset.erase_insert]

/-- C29: `addLog` puts the new entry in front of the first 19 entries of the log; after any
sequence of calls, from the empty log the component starts with, the log has at most 20
entries and they are the newest ones, newest first. -/
theorem C29_log_keeps_newest_twenty (now message : String) (actionLogs : List LogEntry)
    (calls : List (String × String)) :
    addLog now message actionLogs = ⟨now, message⟩ :: actionLogs.take 19 ∧
    (addLog now message actionLogs).length ≤ 20 ∧
    (calls.foldl (fun logs call => addLog call.1 call.2 logs) []).length ≤ 20 ∧
    calls.foldl (fun logs call => addLog call.1 call.2 logs) [] =
      (calls.reverse.map (fun call => (⟨call.1, call.2⟩ : LogEntry))).take 20 := by
  have key : ∀ cs : List (String × String),
      cs.foldl (fun logs call => addLog call.1 call.2 logs) [] =
        (cs.reverse.map (fun call => (⟨call.1, call.2⟩ : LogEntry))).take 20 := by
    intro cs
    induction cs using List.reverseRecOn with
    | nil => rfl
    | append_singleton cs c ih =>
      rw [List.foldl_append, ih]
      simp only [List.foldl_cons, List.foldl_nil, addLog, List.reverse_append,
        List.reverse_cons, List.reverse_nil, List.nil_append, List.singleton_append,
        List.map_cons]
      exact take_cons_take _ _
  refine ⟨by simp [addLog, List.take_succ_cons], by simp [addLog], ?_, key calls⟩
  rw [key calls]
  simp

/-- C30 (counterexample): the argument list holds the empty string and the key is empty; the
argument starts with the key and contains no `=`, and `getArgValue` returns `null`, not
`undefined`. -/
theorem C30_empty_argument_gives_null :
    startsWith "" "" = true ∧ '=' ∉ "".data ∧ getArgValue [""] "" = .null := by
  decide

/-- C30 (amended): `getArgValue` returns `null` when no argument starts with the key or when
the first such argument is the empty string (which needs an empty key); otherwise, for the
first argument that starts with the key, it returns `undefined` when the argument has no `=`
and the text between its first and second `=` when it has one.  The match is by prefix. -/
theorem C30_getArgValue_splits_first_match (args : List String) (key : String) :
    (args.find? (fun a => startsWith a key) = none → getArgValue args key = .null) ∧
    (∀ arg, args.find? (fun a => startsWith a key) = some arg →
      (arg = "" → getArgValue args key = .null) ∧
      (key ≠ "" → arg ≠ "") ∧
      (arg ≠ "" → '=' ∉ arg.data → getArgValue args key = .undefined) ∧
      (∀ a b, arg.data = a ++ '=' :: b → '=' ∉ a →
        getArgValue args key = .str (String.mk (b.takeWhile (fun c => c != '='))))) ∧
    getArgValue ["--orderId=A=B"] "--orderId" = .str "A" ∧
    getArgValue ["--bulk", "--orderIdX=v"] "--orderId" = .str "v" := by
  refine ⟨?_, ?_, by decide, by decide⟩
  · intro h
    simp [getArgValue, h]
  · intro arg h
    refine ⟨?_, ?_, ?_, ?_⟩
    · intro he
      simp [getArgValue, h, he]
    · intro hk he
      have hp := List.find?_some h
      subst he
      simp only [startsWith] at hp
      apply hk
      cases key with
      | mk kd =>
        cases kd with
        | nil => rfl
        | cons c cs => simp [List.isPrefixOf] at hp
    · intro hne hno
      simp [getArgValue, h, hne, split, splitChars_no_sep _ _ hno]
    · intro a b hd ha
      have hne : arg ≠ "" := by
        intro he
        subst he
        simp at hd
      obtain ⟨rest, hr⟩ := splitChars_head '=' b
      simp [getArgValue, h, hne, split, hd, splitChars_append _ _ _ ha, hr]

end JtBooking
